import Mathlib

/-!
# System-versioned temporal tables: the trigger engine of `periods.c`

A shallow embedding of `src/periods.c` (the two trigger functions
`generated_always_as_row_start_end` and `write_history` with their helpers)
and machine-checked statements about it.

Conventions of the embedding

* The PostgreSQL server facilities the C file calls (SPI, heap tuples, tuple
  conversion, the bitmap set, the hash table) are modelled by small total
  functions following PostgreSQL 13 or later, the newest branch of every
  `#if` in the source.
* A `Datum` is the signed integer a pass-by-value datum denotes (an `int64`
  timestamp, an `int32` date).  For a pass-by-reference column the integer
  stands for the bytes the datum points to.
* `ereport(ERROR, ...)` and `elog(ERROR, ...)` are the `Except.error` results;
  the functions that touch the database return the state they leave behind
  together with the result, so that what was written before an error stays
  visible.
* The transaction start values and the catalog contents are read from explicit
  parameters (`Xact`, `Catalog`).
-/

namespace Periods

/-! ## Basic PostgreSQL types -/

abbrev Oid := Nat
abbrev Datum := Int

def InvalidOid : Oid := 0
def TIMESTAMPTZOID : Oid := 1184
def TIMESTAMPOID : Oid := 1114
def DATEOID : Oid := 1082
def OIDOID : Oid := 26
def TIDOID : Oid := 27
def XIDOID : Oid := 28
def CIDOID : Oid := 29

/-- DT_NOEND, the largest `int64`: the timestamp `infinity`. -/
def DT_NOEND : Int := 9223372036854775807
/-- DATEVAL_NOEND, the largest `int32`: the date `infinity`. -/
def DATEVAL_NOEND : Int := 2147483647

def NAMEDATALEN : Nat := 64
def SPI_ERROR_NOATTRIBUTE : Int := -9
def FirstLowInvalidHeapAttributeNumber : Int := -7

/-- The errors the file raises, one constructor per `ereport`/`elog` site
(or per server routine that can raise). -/
inductive Err where
  /-- ERRCODE_E_R_I_E_TRIGGER_PROTOCOL_VIOLATED, with the message text. -/
  | triggerProtocolViolated (msg : String)
  /-- The message `period "%s" not found on table "%s"`. -/
  | periodNotFound (period_name : String) (relname : String)
  /-- ERRCODE_UNDEFINED_COLUMN: `column "%s" does not exist`. -/
  | undefinedColumn (attname : String)
  /-- The message `unexpected type: %d`. -/
  | unexpectedType (typeid : Oid)
  /-- ERRCODE_GENERATED_ALWAYS: `cannot insert or update column "%s"`, with
  the detail naming ROW START or ROW END. -/
  | generatedAlways (column : String) (detail : String)
  /-- ERRCODE_INVALID_ROW_VERSION: `invalid row version`. -/
  | invalidRowVersion
  /-- The message `invalid column number %d` of heap_modify_tuple_by_cols. -/
  | invalidColumnNumber (attnum : Int)
  /-- ERRCODE_DATATYPE_MISMATCH: `could not convert row type`. -/
  | couldNotConvertRowType (attname : String)
  /-- The relation `table_open` was asked for does not exist. -/
  | couldNotOpenRelation (relid : Oid)
  deriving DecidableEq, Repr

deriving instance DecidableEq for Except

/-- One entry of a tuple descriptor (Form_pg_attribute), with the fields the
code and the server routines it calls read. -/
structure Attr where
  attname : String
  atttypid : Oid
  atttypmod : Int := -1
  attlen : Int := 8
  attbyval : Bool := true
  attalign : Nat := 0
  attisdropped : Bool := false
  atthasmissing : Bool := false
  attmissingval : Datum := 0
  deriving DecidableEq, Repr, Inhabited

abbrev TupleDesc := List Attr

/-- A heap tuple: the stored attributes in order, `none` for a null.  A tuple
may store fewer attributes than its descriptor has (columns added later). -/
abbrev HeapTuple := List (Option Datum)

structure Relation where
  rd_id : Oid
  nspname : String
  relname : String
  rd_att : TupleDesc
  deriving DecidableEq, Repr, Inhabited

/-- A row of `periods.periods`. -/
structure PeriodRow where
  table_name : Oid
  period_name : String
  start_column_name : String
  end_column_name : String
  deriving DecidableEq, Repr

/-- A row of `periods.system_time_periods`. -/
structure SystemTimePeriodRow where
  table_name : Oid
  excluded_column_names : List String
  deriving DecidableEq, Repr

/-- A row of `periods.system_versioning`. -/
structure SystemVersioningRow where
  table_name : Oid
  history_table_name : Oid
  deriving DecidableEq, Repr

/-- What the SPI queries and `table_open` read. -/
structure Catalog where
  periods : List PeriodRow
  system_time_periods : List SystemTimePeriodRow
  system_versioning : List SystemVersioningRow
  relations : List Relation
  /-- The value heap_getsysattr gives for a system attribute of a tuple. -/
  heap_getsysattr : HeapTuple → Int → Datum := fun _ _ => 0

/-- The values the transaction supplies: GetCurrentTransactionStartTimestamp,
its conversion by timestamptz_timestamp, and GetSQLCurrentDate. -/
structure Xact where
  tstz : Int
  ts : Int
  date : Int
  deriving DecidableEq, Repr

def TRANSACTION_TSTZ (x : Xact) : Datum := x.tstz
def TRANSACTION_TS (x : Xact) : Datum := x.ts
def TRANSACTION_DATE (x : Xact) : Datum := x.date
def INFINITE_TSTZ : Datum := DT_NOEND
def INFINITE_TS : Datum := DT_NOEND
def INFINITE_DATE : Datum := DATEVAL_NOEND

/-! ## Server routines -/

/-- The three-way comparison of timestamp_cmp_internal. -/
def timestamp_cmp (dt1 dt2 : Datum) : Int :=
  if dt1 < dt2 then -1 else if dt1 > dt2 then 1 else 0

/-- The three-way comparison of date_cmp. -/
def date_cmp (d1 d2 : Datum) : Int :=
  if d1 < d2 then -1 else if d1 > d2 then 1 else 0

/-- PostgreSQL datumIsEqual: a pass-by-value datum is compared as a word, a
pass-by-reference datum by the bytes it points to.  The model's integer is the
word in the first case and stands for the bytes in the second, so both
branches compare the integers. -/
def datumIsEqual (value1 value2 : Datum) (typByVal : Bool) (_typLen : Int) : Bool :=
  if typByVal then value1 == value2 else value1 == value2

/-- TupleDescAttr(tupdesc, i). -/
def TupleDescAttr (tupdesc : TupleDesc) (i : Nat) : Attr :=
  tupdesc.getD i default

/-- SystemAttributeByName: the attribute number of a system column
(numbering of PostgreSQL 12 and later). -/
def SystemAttributeByName (fname : String) : Option Int :=
  if fname = "ctid" then some (-1)
  else if fname = "xmin" then some (-2)
  else if fname = "cmin" then some (-3)
  else if fname = "xmax" then some (-4)
  else if fname = "cmax" then some (-5)
  else if fname = "tableoid" then some (-6)
  else none

/-- SystemAttributeDefinition(attno)->atttypid. -/
def SystemAttributeTypeId (attno : Int) : Oid :=
  if attno = -1 then TIDOID
  else if attno = -2 then XIDOID
  else if attno = -3 then CIDOID
  else if attno = -4 then XIDOID
  else if attno = -5 then CIDOID
  else OIDOID

/-- The loop of SPI_fnumber: the 1-based number of the first attribute from
position `res` on that has the name and is not dropped. -/
def SPI_fnumber_loop (fname : String) : TupleDesc → Nat → Option Int
  | [], _ => none
  | attr :: rest, res =>
    if attr.attname = fname ∧ attr.attisdropped = false then some ((res : Int) + 1)
    else SPI_fnumber_loop fname rest (res + 1)

/-- SPI_fnumber. -/
def SPI_fnumber (tupdesc : TupleDesc) (fname : String) : Int :=
  match SPI_fnumber_loop fname tupdesc 0 with
  | some n => n
  | none =>
    match SystemAttributeByName fname with
    | some n => n
    | none => SPI_ERROR_NOATTRIBUTE

/-- SPI_gettypeid. -/
def SPI_gettypeid (tupdesc : TupleDesc) (fnumber : Int) : Oid :=
  if fnumber > (tupdesc.length : Int) ∨ fnumber = 0 ∨
      fnumber ≤ FirstLowInvalidHeapAttributeNumber then InvalidOid
  else if fnumber > 0 then (TupleDescAttr tupdesc (fnumber - 1).toNat).atttypid
  else SystemAttributeTypeId fnumber

/-- The function getmissingattr: the value of an attribute the tuple does not store. -/
def getmissingattr (tupdesc : TupleDesc) (attnum : Nat) : Datum × Bool :=
  let att := TupleDescAttr tupdesc (attnum - 1)
  if att.atthasmissing then (att.attmissingval, false) else (0, true)

/-- The function heap_getattr for a user attribute (`attnum` from 1): the
datum and the null flag; a null reads as the zero datum. -/
def heap_getattr (tup : HeapTuple) (attnum : Nat) (tupdesc : TupleDesc) : Datum × Bool :=
  if attnum > tup.length then getmissingattr tupdesc attnum
  else
    match tup.getD (attnum - 1) none with
    | some d => (d, false)
    | none => (0, true)

/-- SPI_getbinval: the datum and the null flag. -/
def SPI_getbinval (pg : Catalog) (tuple : HeapTuple) (tupdesc : TupleDesc)
    (fnumber : Int) : Datum × Bool :=
  if fnumber > (tupdesc.length : Int) ∨ fnumber = 0 ∨
      fnumber ≤ FirstLowInvalidHeapAttributeNumber then (0, true)
  else if fnumber > 0 then heap_getattr tuple fnumber.toNat tupdesc
  else (pg.heap_getsysattr tuple fnumber, false)

/-! ## TypeOps: `GetRowStart`, `GetRowEnd` and the comparators -/

def GetRowStart (x : Xact) (typeid : Oid) : Except Err Datum :=
  if typeid = TIMESTAMPTZOID then .ok (TRANSACTION_TSTZ x)
  else if typeid = TIMESTAMPOID then .ok (TRANSACTION_TS x)
  else if typeid = DATEOID then .ok (TRANSACTION_DATE x)
  else .error (.unexpectedType typeid)

def GetRowEnd (typeid : Oid) : Except Err Datum :=
  if typeid = TIMESTAMPTZOID then .ok INFINITE_TSTZ
  else if typeid = TIMESTAMPOID then .ok INFINITE_TS
  else if typeid = DATEOID then .ok INFINITE_DATE
  else .error (.unexpectedType typeid)

def CompareWithCurrentDatum (x : Xact) (typeid : Oid) (value : Datum) : Except Err Int :=
  if typeid = TIMESTAMPTZOID then .ok (timestamp_cmp value (TRANSACTION_TSTZ x))
  else if typeid = TIMESTAMPOID then .ok (timestamp_cmp value (TRANSACTION_TS x))
  else if typeid = DATEOID then .ok (date_cmp value (TRANSACTION_DATE x))
  else .error (.unexpectedType typeid)

def CompareWithInfiniteDatum (typeid : Oid) (value : Datum) : Except Err Int :=
  if typeid = TIMESTAMPTZOID then .ok (timestamp_cmp value INFINITE_TSTZ)
  else if typeid = TIMESTAMPOID then .ok (timestamp_cmp value INFINITE_TS)
  else if typeid = DATEOID then .ok (date_cmp value INFINITE_DATE)
  else .error (.unexpectedType typeid)

/-- The three types the switch statements of the file accept. -/
def SupportedType (typeid : Oid) : Prop :=
  typeid = TIMESTAMPTZOID ∨ typeid = TIMESTAMPOID ∨ typeid = DATEOID

instance (typeid : Oid) : Decidable (SupportedType typeid) := by
  unfold SupportedType; infer_instance

/-! ## Heap tuple construction -/

/-- The function heap_deform_tuple: the `values` and `nulls` arrays, one
entry per attribute of the descriptor. -/
def heap_deform_tuple (tuple : HeapTuple) (tupdesc : TupleDesc) : List Datum × List Bool :=
  ((List.range tupdesc.length).map (fun i => (heap_getattr tuple (i + 1) tupdesc).1),
   (List.range tupdesc.length).map (fun i => (heap_getattr tuple (i + 1) tupdesc).2))

/-- The function heap_form_tuple: attribute `i` is null when `nulls[i]`, else `values[i]`. -/
def heap_form_tuple (tupdesc : TupleDesc) (values : List Datum) (nulls : List Bool) : HeapTuple :=
  (List.range tupdesc.length).map
    (fun i => if nulls.getD i true then none else some (values.getD i 0))

/-- The replacement loop of heap_modify_tuple_by_cols. -/
def heap_modify_loop (numberOfAttributes : Nat) :
    List (Int × Datum × Bool) → List Datum × List Bool → Except Err (List Datum × List Bool)
  | [], vn => .ok vn
  | (attnum, v, n) :: rest, (values, isnull) =>
    if attnum ≤ 0 ∨ attnum > (numberOfAttributes : Int) then .error (.invalidColumnNumber attnum)
    else heap_modify_loop numberOfAttributes rest
      (values.set (attnum - 1).toNat v, isnull.set (attnum - 1).toNat n)

/-- The function heap_modify_tuple_by_cols: deform, replace the listed columns in order, form. -/
def heap_modify_tuple_by_cols (tuple : HeapTuple) (tupleDesc : TupleDesc)
    (replCols : List Int) (replValues : List Datum) (replIsnull : List Bool) :
    Except Err HeapTuple :=
  match heap_modify_loop tupleDesc.length (replCols.zip (replValues.zip replIsnull))
      (heap_deform_tuple tuple tupleDesc) with
  | .error e => .error e
  | .ok (values, isnull) => .ok (heap_form_tuple tupleDesc values isnull)

/-! ## Bitmap sets -/

/-- A Bitmapset by its members; the NULL pointer is the empty set. -/
abbrev Bitmapset := List Int

def bms_add_member (a : Bitmapset) (x : Int) : Bitmapset :=
  if x ∈ a then a else x :: a

def bms_is_member (x : Int) (a : Bitmapset) : Bool :=
  decide (x ∈ a)

/-! ## Catalog lookups -/

/-- The rows the query of GetPeriodColumnNames selects. -/
def periodRows (pg : Catalog) (relid : Oid) (period_name : String) : List PeriodRow :=
  pg.periods.filter (fun p => p.table_name = relid ∧ p.period_name = period_name)

def GetPeriodColumnNames (pg : Catalog) (rel : Relation) (period_name : String) :
    Except Err (String × String) :=
  match periodRows pg rel.rd_id period_name with
  | [] => .error (.periodNotFound period_name rel.relname)
  | p :: _ => .ok (p.start_column_name, p.end_column_name)

/-- The rows the query of OnlyExcludedColumnsChanged selects: the unnested
excluded column names of the table. -/
def excludedColumnNames (pg : Catalog) (relid : Oid) : List String :=
  ((pg.system_time_periods.filter (fun stp => stp.table_name = relid)).map
    (fun stp => stp.excluded_column_names)).flatten

/-- The loop that builds the bitmap of excluded attribute numbers. -/
def excludedAttnums (tupdesc : TupleDesc) : List String → Bitmapset → Except Err Bitmapset
  | [], excluded_attnums => .ok excluded_attnums
  | attname :: rest, excluded_attnums =>
    let attnum := SPI_fnumber tupdesc attname
    if attnum = SPI_ERROR_NOATTRIBUTE then .error (.undefinedColumn attname)
    else if attnum < 0 then excludedAttnums tupdesc rest excluded_attnums
    else excludedAttnums tupdesc rest (bms_add_member excluded_attnums attnum)

/-- The comparison loop of OnlyExcludedColumnsChanged over the attribute
numbers still to visit. -/
def compareColumns (pg : Catalog) (tupdesc : TupleDesc) (excluded_attnums : Bitmapset)
    (old_row new_row : HeapTuple) : List Nat → Bool
  | [] => true
  | i :: rest =>
    if (TupleDescAttr tupdesc (i - 1)).attisdropped then
      compareColumns pg tupdesc excluded_attnums old_row new_row rest
    else if bms_is_member (i : Int) excluded_attnums then
      compareColumns pg tupdesc excluded_attnums old_row new_row rest
    else
      let old := SPI_getbinval pg old_row tupdesc (i : Int)
      let new := SPI_getbinval pg new_row tupdesc (i : Int)
      if old.2 ≠ new.2 then false
      else if old.2 then compareColumns pg tupdesc excluded_attnums old_row new_row rest
      else if !datumIsEqual old.1 new.1 (TupleDescAttr tupdesc (i - 1)).attbyval
          (TupleDescAttr tupdesc (i - 1)).attlen then false
      else compareColumns pg tupdesc excluded_attnums old_row new_row rest

def OnlyExcludedColumnsChanged (pg : Catalog) (rel : Relation) (old_row new_row : HeapTuple) :
    Except Err Bool :=
  let tupdesc := rel.rd_att
  match excludedAttnums tupdesc (excludedColumnNames pg rel.rd_id) [] with
  | .error e => .error e
  | .ok excluded_attnums =>
    if excluded_attnums = [] then .ok false
    else .ok (compareColumns pg tupdesc excluded_attnums old_row new_row
      (List.range' 1 tupdesc.length))

def GetHistoryTable (pg : Catalog) (rel : Relation) : Oid :=
  match pg.system_versioning.filter (fun sv => sv.table_name = rel.rd_id) with
  | [] => InvalidOid
  | sv :: _ => sv.history_table_name

/-! ## Trigger events -/

def TRIGGER_EVENT_INSERT : Nat := 0
def TRIGGER_EVENT_DELETE : Nat := 1
def TRIGGER_EVENT_UPDATE : Nat := 2
def TRIGGER_EVENT_TRUNCATE : Nat := 3
def TRIGGER_EVENT_OPMASK : Nat := 3
def TRIGGER_EVENT_ROW : Nat := 4
def TRIGGER_EVENT_BEFORE : Nat := 8
def TRIGGER_EVENT_AFTER : Nat := 0
def TRIGGER_EVENT_INSTEAD : Nat := 16
def TRIGGER_EVENT_TIMINGMASK : Nat := 24

def TRIGGER_FIRED_BY_INSERT (event : Nat) : Bool :=
  event &&& TRIGGER_EVENT_OPMASK == TRIGGER_EVENT_INSERT
def TRIGGER_FIRED_BY_DELETE (event : Nat) : Bool :=
  event &&& TRIGGER_EVENT_OPMASK == TRIGGER_EVENT_DELETE
def TRIGGER_FIRED_BY_UPDATE (event : Nat) : Bool :=
  event &&& TRIGGER_EVENT_OPMASK == TRIGGER_EVENT_UPDATE
def TRIGGER_FIRED_FOR_ROW (event : Nat) : Bool :=
  event &&& TRIGGER_EVENT_ROW != 0
def TRIGGER_FIRED_BEFORE (event : Nat) : Bool :=
  event &&& TRIGGER_EVENT_TIMINGMASK == TRIGGER_EVENT_BEFORE
def TRIGGER_FIRED_AFTER (event : Nat) : Bool :=
  event &&& TRIGGER_EVENT_TIMINGMASK == TRIGGER_EVENT_AFTER

/-- TriggerData: the trigger manager sets `tg_newtuple` for an UPDATE only;
the code reads it in no other case. -/
structure TriggerData where
  tg_event : Nat
  tg_relation : Relation
  tg_trigtuple : HeapTuple
  tg_newtuple : HeapTuple := []
  deriving DecidableEq, Repr

/-- The call information: `context` is `none` when the function is not called
by the trigger manager (CALLED_AS_TRIGGER is false). -/
structure FunctionCallInfo where
  context : Option TriggerData
  deriving DecidableEq, Repr

/-! ## The BEFORE ROW trigger -/

def generated_always_as_row_start_end (pg : Catalog) (x : Xact) (fcinfo : FunctionCallInfo) :
    Except Err HeapTuple :=
  let funcname := "generated_always_as_row_start_end"
  match fcinfo.context with
  | none => .error (.triggerProtocolViolated
      ("function \"" ++ funcname ++ "\" was not called by trigger manager"))
  | some trigdata =>
    if !TRIGGER_FIRED_BEFORE trigdata.tg_event || !TRIGGER_FIRED_FOR_ROW trigdata.tg_event then
      .error (.triggerProtocolViolated ("function \"" ++ funcname ++ "\" must be fired BEFORE ROW"))
    else
      let rel := trigdata.tg_relation
      let new_tupdesc := rel.rd_att
      /- The part after new_row is chosen. -/
      let stamp (new_row : HeapTuple) : Except Err HeapTuple :=
        match GetPeriodColumnNames pg rel "system_time" with
        | .error e => .error e
        | .ok (start_name, end_name) =>
          let start_num := SPI_fnumber new_tupdesc start_name
          let end_num := SPI_fnumber new_tupdesc end_name
          let typeid := SPI_gettypeid new_tupdesc start_num
          match GetRowStart x typeid with
          | .error e => .error e
          | .ok v0 =>
            match GetRowEnd typeid with
            | .error e => .error e
            | .ok v1 =>
              heap_modify_tuple_by_cols new_row new_tupdesc [start_num, end_num] [v0, v1]
                [false, false]
      if TRIGGER_FIRED_BY_INSERT trigdata.tg_event then
        stamp trigdata.tg_trigtuple
      else if TRIGGER_FIRED_BY_UPDATE trigdata.tg_event then
        let old_row := trigdata.tg_trigtuple
        let new_row := trigdata.tg_newtuple
        match OnlyExcludedColumnsChanged pg rel old_row new_row with
        | .error e => .error e
        | .ok true => .ok new_row
        | .ok false => stamp new_row
      else
        .error (.triggerProtocolViolated
          ("function \"" ++ funcname ++ "\" must be fired for INSERT or UPDATE"))

/-! ## Tuple conversion between the table and its history table -/

/-- The inner loop of build_attrmap_by_name: the number of the input
attribute that has the name of an output attribute (0 when there is none);
a type mismatch raises.  Column names are unique among the live columns of a
relation, so the first match is the match. -/
def findInputAttr (attname : String) (atttypid : Oid) (atttypmod : Int) :
    TupleDesc → Nat → Except Err Int
  | [], _ => .ok 0
  | inatt :: rest, j =>
    if inatt.attisdropped then findInputAttr attname atttypid atttypmod rest (j + 1)
    else if attname = inatt.attname then
      if atttypid ≠ inatt.atttypid ∨ atttypmod ≠ inatt.atttypmod then
        .error (.couldNotConvertRowType attname)
      else .ok ((j : Int) + 1)
    else findInputAttr attname atttypid atttypmod rest (j + 1)

/-- The function build_attrmap_by_name: for each output attribute the number of the
input attribute of the same name, 0 for a dropped output attribute. -/
def build_attrmap_by_name (indesc : TupleDesc) : TupleDesc → Except Err (List Int)
  | [] => .ok []
  | outatt :: rest =>
    if outatt.attisdropped then
      match build_attrmap_by_name indesc rest with
      | .error e => .error e
      | .ok m => .ok (0 :: m)
    else
      match findInputAttr outatt.attname outatt.atttypid outatt.atttypmod indesc 0 with
      | .error e => .error e
      | .ok n =>
        if n = 0 then .error (.couldNotConvertRowType outatt.attname)
        else
          match build_attrmap_by_name indesc rest with
          | .error e => .error e
          | .ok m => .ok (n :: m)

/-- The loop of check_attrmap_match from position `i` on. -/
def check_attrmap_loop (indesc outdesc : TupleDesc) : List Int → Nat → Bool
  | [], _ => true
  | a :: rest, i =>
    let inatt := TupleDescAttr indesc i
    let outatt := TupleDescAttr outdesc i
    if inatt.atthasmissing then false
    else if a = (i : Int) + 1 then check_attrmap_loop indesc outdesc rest (i + 1)
    else if a = 0 ∧ inatt.attisdropped ∧ inatt.attlen = outatt.attlen ∧
        inatt.attalign = outatt.attalign then check_attrmap_loop indesc outdesc rest (i + 1)
    else false

/-- The function check_attrmap_match: true when no conversion is needed. -/
def check_attrmap_match (indesc outdesc : TupleDesc) (attrMap : List Int) : Bool :=
  if indesc.length ≠ outdesc.length then false
  else check_attrmap_loop indesc outdesc attrMap 0

/-- The function convert_tuples_by_name: `none` (the NULL map) when the two descriptors
are physically compatible, else the attribute map. -/
def convert_tuples_by_name (indesc outdesc : TupleDesc) : Except Err (Option (List Int)) :=
  match build_attrmap_by_name indesc outdesc with
  | .error e => .error e
  | .ok attrMap =>
    if check_attrmap_match indesc outdesc attrMap then .ok none else .ok (some attrMap)

/-- The function execute_attr_map_tuple: output attribute `i` is input attribute
`attrMap[i]`; entry 0 of the input arrays is a null. -/
def execute_attr_map_tuple (tuple : HeapTuple) (attrMap : List Int)
    (indesc outdesc : TupleDesc) : HeapTuple :=
  let invalues : List Datum := 0 :: (heap_deform_tuple tuple indesc).1
  let inisnull : List Bool := true :: (heap_deform_tuple tuple indesc).2
  let outvalues := attrMap.map (fun j => invalues.getD j.toNat 0)
  let outisnull := attrMap.map (fun j => inisnull.getD j.toNat true)
  heap_form_tuple outdesc outvalues outisnull

/-- The function table_open on the catalog of relations. -/
def table_open (pg : Catalog) (relid : Oid) : Except Err Relation :=
  match pg.relations.find? (fun r => r.rd_id = relid) with
  | some r => .ok r
  | none => .error (.couldNotOpenRelation relid)

def OidIsValid (oid : Oid) : Bool := oid != InvalidOid

/-! ## The plan cache and the INSERT into the history table -/

/-- A prepared `INSERT INTO <schema>.<table> VALUES (($1).*)`: the qualified
name given to quote_qualified_identifier when the statement was prepared. -/
structure SPIPlan where
  schemaname : String
  tablename : String
  deriving DecidableEq, Repr

structure InsertHistoryPlanEntry where
  history_relid : Oid
  schemaname : String
  tablename : String
  qplan : SPIPlan
  deriving DecidableEq, Repr

/-- The mutable state: the process-wide plan cache (`none` is the NULL
pointer) and the rows SPI_execute_plan was given, oldest first, each with the
plan that inserted it. -/
structure DbState where
  InsertHistoryPlanHash : Option (List InsertHistoryPlanEntry) := none
  inserted : List (SPIPlan × HeapTuple) := []
  deriving DecidableEq, Repr

/-- The function strlcpy into a buffer of `size` bytes. -/
def strlcpy (src : String) (size : Nat) : String := ⟨src.data.take (size - 1)⟩

/-- The comparison of strcmp on the characters of two strings. -/
def strcmpChars : List Char → List Char → Int
  | [], [] => 0
  | [], _ :: _ => -1
  | _ :: _, [] => 1
  | a :: as, b :: bs =>
    if a.toNat < b.toNat then -1
    else if a.toNat > b.toNat then 1
    else strcmpChars as bs

/-- The function strcmp: negative, 0 (exactly on equal strings) or positive. -/
def strcmp (a b : String) : Int := strcmpChars a.data b.data

def insert_into_history (history_rel : Relation) (history_tuple : HeapTuple) (db : DbState) :
    Except Err Unit × DbState :=
  let schemaname := history_rel.nspname
  let tablename := history_rel.relname
  let history_relid := history_rel.rd_id
  let hash := db.InsertHistoryPlanHash.getD []
  /- hash_search with HASH_ENTER -/
  let hentry := hash.find? (fun h => h.history_relid = history_relid)
  let replanned : InsertHistoryPlanEntry :=
    { history_relid := history_relid
      schemaname := strlcpy schemaname NAMEDATALEN
      tablename := strlcpy tablename NAMEDATALEN
      qplan := { schemaname := schemaname, tablename := tablename } }
  match hentry with
  | none =>
    (.ok (), { InsertHistoryPlanHash := some (replanned :: hash)
               inserted := db.inserted ++ [(replanned.qplan, history_tuple)] })
  | some h =>
    if strcmp h.schemaname schemaname = 0 ∨ strcmp h.tablename tablename = 0 then
      (.ok (), { InsertHistoryPlanHash :=
                   some (hash.map (fun e => if e.history_relid = history_relid then replanned else e))
                 inserted := db.inserted ++ [(replanned.qplan, history_tuple)] })
    else
      (.ok (), { InsertHistoryPlanHash := some hash
                 inserted := db.inserted ++ [(h.qplan, history_tuple)] })

/-! ## The AFTER ROW trigger -/

/-- The C assignment `a[i] = v` on a palloc'ed array, held as a list.  The
code checks no bound.  With `i` outside the array the assignment writes no
entry of the array, so the list is as it was. -/
def arrayStore {α : Type} (a : List α) (i : Int) (v : α) : List α :=
  if i < 0 then a else a.set i.toNat v

/-- The last part of write_history (from the call of GetHistoryTable to the
end): the INSERT of the closed row version into the history table, if the
table has one. -/
def write_history_archive (pg : Catalog) (x : Xact) (rel : Relation) (end_name : String)
    (typeid : Oid) (old_row : HeapTuple) (db : DbState) : Except Err Unit × DbState :=
  let tupledesc := rel.rd_att
  let history_id := GetHistoryTable pg rel
  if OidIsValid history_id then
    match table_open pg history_id with
    | .error e => (.error e, db)
    | .ok history_rel =>
      let history_end_num := SPI_fnumber history_rel.rd_att end_name
      match convert_tuples_by_name tupledesc history_rel.rd_att with
      | .error e => (.error e, db)
      | .ok map =>
        let history_tuple := match map with
          | some m => execute_attr_map_tuple old_row m tupledesc history_rel.rd_att
          | none => old_row
        let history_tupledesc := match map with
          | some _ => history_rel.rd_att
          | none => tupledesc
        let values := (heap_deform_tuple history_tuple history_tupledesc).1
        let nulls := (heap_deform_tuple history_tuple history_tupledesc).2
        match GetRowStart x typeid with
        | .error e => (.error e, db)
        | .ok now =>
          insert_into_history history_rel
            (heap_form_tuple history_tupledesc
              (arrayStore values (history_end_num - 1) now)
              (arrayStore nulls (history_end_num - 1) false)) db
  else (.ok (), db)

/-- The middle part of write_history (from "If only excluded columns have
changed" to the invalid row version error), followed by the last part. -/
def write_history_close (pg : Catalog) (x : Xact) (rel : Relation) (start_num : Int)
    (end_name : String) (typeid : Oid) (old_row : HeapTuple) (only_excluded_changed : Bool)
    (db : DbState) : Except Err Unit × DbState :=
  if only_excluded_changed then (.ok (), db)
  else
    match CompareWithCurrentDatum x typeid
        (SPI_getbinval pg old_row rel.rd_att start_num).1 with
    | .error e => (.error e, db)
    | .ok cmp =>
      if cmp = 0 then (.ok (), db)
      else if cmp > 0 then (.error .invalidRowVersion, db)
      else write_history_archive pg x rel end_name typeid old_row db

/-- The part of write_history after old_row, new_row and only_excluded_changed
are set: the period lookup and the validation of the period columns of the new
row, followed by the rest. -/
def write_history_validate (pg : Catalog) (x : Xact) (trigdata : TriggerData)
    (old_row new_row : HeapTuple) (only_excluded_changed : Bool) (db : DbState) :
    Except Err Unit × DbState :=
  let rel := trigdata.tg_relation
  let tupledesc := rel.rd_att
  match GetPeriodColumnNames pg rel "system_time" with
  | .error e => (.error e, db)
  | .ok (start_name, end_name) =>
    let start_num := SPI_fnumber tupledesc start_name
    let end_num := SPI_fnumber tupledesc end_name
    let typeid := SPI_gettypeid tupledesc start_num
    if TRIGGER_FIRED_BY_INSERT trigdata.tg_event ||
        (TRIGGER_FIRED_BY_UPDATE trigdata.tg_event && !only_excluded_changed) then
      let start_datum := (SPI_getbinval pg new_row tupledesc start_num).1
      let end_datum := (SPI_getbinval pg new_row tupledesc end_num).1
      match CompareWithCurrentDatum x typeid start_datum with
      | .error e => (.error e, db)
      | .ok c =>
        if c ≠ 0 then
          (.error (.generatedAlways start_name "ROW START"), db)
        else
          match CompareWithInfiniteDatum typeid end_datum with
          | .error e => (.error e, db)
          | .ok c2 =>
            if c2 ≠ 0 then
              (.error (.generatedAlways end_name "ROW END"), db)
            else if TRIGGER_FIRED_BY_INSERT trigdata.tg_event then (.ok (), db)
            else
              write_history_close pg x rel start_num end_name typeid old_row
                only_excluded_changed db
    else
      write_history_close pg x rel start_num end_name typeid old_row only_excluded_changed db

def write_history (pg : Catalog) (x : Xact) (fcinfo : FunctionCallInfo) (db : DbState) :
    Except Err Unit × DbState :=
  let funcname := "write_history"
  match fcinfo.context with
  | none => (.error (.triggerProtocolViolated
      ("function \"" ++ funcname ++ "\" was not called by trigger manager")), db)
  | some trigdata =>
    if !TRIGGER_FIRED_AFTER trigdata.tg_event || !TRIGGER_FIRED_FOR_ROW trigdata.tg_event then
      (.error (.triggerProtocolViolated
        ("function \"" ++ funcname ++ "\" must be fired AFTER ROW")), db)
    else
      let rel := trigdata.tg_relation
      if TRIGGER_FIRED_BY_INSERT trigdata.tg_event then
        /- old_row is NULL and never read -/
        write_history_validate pg x trigdata [] trigdata.tg_trigtuple false db
      else if TRIGGER_FIRED_BY_UPDATE trigdata.tg_event then
        match OnlyExcludedColumnsChanged pg rel trigdata.tg_trigtuple trigdata.tg_newtuple with
        | .error e => (.error e, db)
        | .ok only_excluded_changed =>
          write_history_validate pg x trigdata trigdata.tg_trigtuple trigdata.tg_newtuple
            only_excluded_changed db
      else if TRIGGER_FIRED_BY_DELETE trigdata.tg_event then
        /- new_row is NULL and never read -/
        write_history_validate pg x trigdata trigdata.tg_trigtuple [] false db
      else
        (.error (.triggerProtocolViolated
          ("function \"" ++ funcname ++ "\" must be fired for INSERT or UPDATE or DELETE")), db)

/-! ## Sample tables -/

/-- A table `public.account (id int4, last_login timestamptz, s timestamptz, e timestamptz)`. -/
def sampleDesc : TupleDesc :=
  [{ attname := "id", atttypid := 23, attlen := 4 },
   { attname := "last_login", atttypid := 1184 },
   { attname := "s", atttypid := 1184 },
   { attname := "e", atttypid := 1184 }]

def sampleRel : Relation :=
  { rd_id := 100, nspname := "public", relname := "account", rd_att := sampleDesc }

def sampleHistoryRel : Relation :=
  { rd_id := 200, nspname := "public", relname := "account_history", rd_att := sampleDesc }

/-- The catalog of the sample table: period `system_time (s, e)`, system
versioning into `account_history`, no excluded columns. -/
def sampleCatalog : Catalog :=
  { periods := [⟨100, "system_time", "s", "e"⟩]
    system_time_periods := [⟨100, []⟩]
    system_versioning := [⟨100, 200⟩]
    relations := [sampleRel, sampleHistoryRel] }

/-- The same catalog with `last_login` excluded from versioning. -/
def sampleCatalogExcluded : Catalog :=
  { sampleCatalog with system_time_periods := [⟨100, ["last_login"]⟩] }

/-- The sample catalog with the period start column `s` itself excluded from
versioning. -/
def sampleCatalogExcludedStart : Catalog :=
  { sampleCatalog with system_time_periods := [⟨100, ["s"]⟩] }

/-- A history table `public.account_log (e, id, s)`: the columns of the
sample table in another order, without `last_login`. -/
def sampleHistoryDescReordered : TupleDesc :=
  [{ attname := "e", atttypid := 1184 },
   { attname := "id", atttypid := 23, attlen := 4 },
   { attname := "s", atttypid := 1184 }]

def sampleHistoryRelReordered : Relation :=
  { rd_id := 201, nspname := "public", relname := "account_log",
    rd_att := sampleHistoryDescReordered }

/-- The sample catalog with system versioning into the reordered history table. -/
def sampleCatalogReordered : Catalog :=
  { sampleCatalog with
    system_versioning := [⟨100, 201⟩]
    relations := [sampleRel, sampleHistoryRelReordered] }

/-- The sample catalog without system versioning. -/
def sampleCatalogNoHistory : Catalog :=
  { sampleCatalog with system_versioning := [] }

/-- A catalog that lists `last_login` as excluded for the sample table but
holds no period for it. -/
def sampleCatalogNoPeriod : Catalog :=
  { sampleCatalogExcluded with periods := [] }

/-- A catalog that holds no period for the sample table and lists as
excluded a name, `nope`, that is no column of it. -/
def sampleCatalogNoPeriodUnknownExcluded : Catalog :=
  { sampleCatalogNoPeriod with system_time_periods := [⟨100, ["nope"]⟩] }

/-- A table `public.counter (id int4, last_login timestamptz, s int4, e int4)`
whose period columns have an unsupported type. -/
def sampleDescIntPeriod : TupleDesc :=
  [{ attname := "id", atttypid := 23, attlen := 4 },
   { attname := "last_login", atttypid := 1184 },
   { attname := "s", atttypid := 23, attlen := 4 },
   { attname := "e", atttypid := 23, attlen := 4 }]

def sampleRelIntPeriod : Relation :=
  { rd_id := 300, nspname := "public", relname := "counter", rd_att := sampleDescIntPeriod }

/-- The catalog of `counter`: period `system_time (s, e)`, `last_login` excluded. -/
def sampleCatalogIntPeriod : Catalog :=
  { periods := [⟨300, "system_time", "s", "e"⟩]
    system_time_periods := [⟨300, ["last_login"]⟩]
    system_versioning := []
    relations := [sampleRelIntPeriod] }

/-- Whether an error is the trigger protocol violation. -/
def Err.isProtocolViolation : Err → Bool
  | .triggerProtocolViolated _ => true
  | _ => false

end Periods

namespace Periods

/-! ## Lists -/

theorem getD_set_eq {α : Type} (l : List α) (i : Nat) (a d : α) (h : i < l.length) :
    (l.set i a).getD i d = a := by
  simp [List.getD_eq_getElem?_getD, List.getElem?_set, h]

theorem getD_set_ne {α : Type} (l : List α) (i j : Nat) (a d : α) (h : i ≠ j) :
    (l.set i a).getD j d = l.getD j d := by
  simp [List.getD_eq_getElem?_getD, List.getElem?_set, h]

theorem getD_map_range {α : Type} (f : Nat → α) (n i : Nat) (d : α) (h : i < n) :
    ((List.range n).map f).getD i d = f i := by
  simp [List.getD_eq_getElem?_getD, h]

/-! ## Attribute numbers -/

theorem SPI_fnumber_loop_range (fname : String) (desc : TupleDesc) (res : Nat) (n : Int)
    (h : SPI_fnumber_loop fname desc res = some n) :
    (res : Int) + 1 ≤ n ∧ n ≤ (res : Int) + desc.length := by
  induction desc generalizing res with
  | nil => simp [SPI_fnumber_loop] at h
  | cons a rest ih =>
    simp only [SPI_fnumber_loop] at h
    split at h
    · simp only [Option.some.injEq] at h
      simp only [List.length_cons, Nat.cast_add, Nat.cast_one]
      omega
    · have := ih (res + 1) h
      simp only [List.length_cons, Nat.cast_add, Nat.cast_one] at this ⊢
      omega

theorem SupportedType_fnumber_range (desc : TupleDesc) (n : Int)
    (h : SupportedType (SPI_gettypeid desc n)) : 1 ≤ n ∧ n ≤ (desc.length : Int) := by
  unfold SPI_gettypeid at h
  split at h
  · exfalso; revert h; decide
  · rename_i hr
    split at h
    · omega
    · exfalso
      revert h
      unfold SystemAttributeTypeId SupportedType
      repeat (split <;> try decide)

theorem SupportedType_GetRowStart (x : Xact) (typeid : Oid) (h : SupportedType typeid) :
    ∃ now, GetRowStart x typeid = .ok now := by
  unfold GetRowStart
  rcases h with h | h | h <;> subst h <;> simp [TIMESTAMPTZOID, TIMESTAMPOID, DATEOID]

theorem SupportedType_GetRowEnd (typeid : Oid) (h : SupportedType typeid) :
    ∃ inf, GetRowEnd typeid = .ok inf := by
  unfold GetRowEnd
  rcases h with h | h | h <;> subst h <;> simp [TIMESTAMPTZOID, TIMESTAMPOID, DATEOID]

/-! ## Formed tuples -/

theorem heap_deform_tuple_length (tuple : HeapTuple) (desc : TupleDesc) :
    (heap_deform_tuple tuple desc).1.length = desc.length ∧
    (heap_deform_tuple tuple desc).2.length = desc.length := by
  simp [heap_deform_tuple]

theorem heap_getattr_form (desc : TupleDesc) (values : List Datum) (nulls : List Bool)
    (n : Nat) (h1 : 1 ≤ n) (h2 : n ≤ desc.length) :
    heap_getattr (heap_form_tuple desc values nulls) n desc =
      if nulls.getD (n - 1) true then (0, true) else (values.getD (n - 1) 0, false) := by
  unfold heap_getattr heap_form_tuple
  have hlen : ¬ n > ((List.range desc.length).map
      (fun i => if nulls.getD i true then none else some (values.getD i 0))).length := by
    simp; omega
  rw [if_neg hlen, getD_map_range _ _ _ _ (by omega)]
  split <;> simp_all

theorem SPI_getbinval_user (pg : Catalog) (tuple : HeapTuple) (desc : TupleDesc) (n : Int)
    (h1 : 1 ≤ n) (h2 : n ≤ (desc.length : Int)) :
    SPI_getbinval pg tuple desc n = heap_getattr tuple n.toNat desc := by
  unfold SPI_getbinval FirstLowInvalidHeapAttributeNumber
  rw [if_neg (by omega), if_pos (by omega)]

theorem heap_modify_two (tuple : HeapTuple) (desc : TupleDesc) (sn en : Int) (v0 v1 : Datum)
    (hs1 : 1 ≤ sn) (hs2 : sn ≤ (desc.length : Int)) (he1 : 1 ≤ en)
    (he2 : en ≤ (desc.length : Int)) :
    heap_modify_tuple_by_cols tuple desc [sn, en] [v0, v1] [false, false] =
      .ok (heap_form_tuple desc
        (((heap_deform_tuple tuple desc).1.set (sn - 1).toNat v0).set (en - 1).toNat v1)
        (((heap_deform_tuple tuple desc).2.set (sn - 1).toNat false).set (en - 1).toNat false)) := by
  unfold heap_modify_tuple_by_cols
  simp only [List.zip_cons_cons, List.zip_nil_right, heap_modify_loop]
  rw [if_neg (by omega), if_neg (by omega)]
  rfl

theorem SPI_getbinval_form (pg : Catalog) (desc : TupleDesc) (values : List Datum)
    (nulls : List Bool) (n : Int) (h1 : 1 ≤ n) (h2 : n ≤ (desc.length : Int)) :
    SPI_getbinval pg (heap_form_tuple desc values nulls) desc n =
      if nulls.getD (n - 1).toNat true then (0, true)
      else (values.getD (n - 1).toNat 0, false) := by
  rw [SPI_getbinval_user pg _ desc n h1 h2, heap_getattr_form desc values nulls n.toNat
    (by omega) (by omega)]
  have : n.toNat - 1 = (n - 1).toNat := by omega
  rw [this]

/-- The column a two-column replacement wrote last holds the value written. -/
theorem SPI_getbinval_stamped_last (pg : Catalog) (desc : TupleDesc) (values : List Datum)
    (nulls : List Bool) (i : Nat) (en : Int) (v0 v1 : Datum) (b0 : Bool)
    (hv : values.length = desc.length) (hn : nulls.length = desc.length)
    (he1 : 1 ≤ en) (he2 : en ≤ (desc.length : Int)) :
    SPI_getbinval pg (heap_form_tuple desc ((values.set i v0).set (en - 1).toNat v1)
      ((nulls.set i b0).set (en - 1).toNat false)) desc en = (v1, false) := by
  rw [SPI_getbinval_form pg desc _ _ en he1 he2]
  rw [getD_set_eq _ _ _ _ (by simp; omega), getD_set_eq _ _ _ _ (by simp; omega)]
  simp

/-- The column a two-column replacement wrote first holds the value written,
when the second column is another one. -/
theorem SPI_getbinval_stamped_first (pg : Catalog) (desc : TupleDesc) (values : List Datum)
    (nulls : List Bool) (sn en : Int) (v0 v1 : Datum) (b1 : Bool)
    (hv : values.length = desc.length) (hn : nulls.length = desc.length)
    (hs1 : 1 ≤ sn) (hs2 : sn ≤ (desc.length : Int)) (he1 : 1 ≤ en) (hne : sn ≠ en) :
    SPI_getbinval pg (heap_form_tuple desc ((values.set (sn - 1).toNat v0).set (en - 1).toNat v1)
      ((nulls.set (sn - 1).toNat false).set (en - 1).toNat b1)) desc sn = (v0, false) := by
  rw [SPI_getbinval_form pg desc _ _ sn hs1 hs2]
  have hij : (en - 1).toNat ≠ (sn - 1).toNat := by omega
  rw [getD_set_ne (nulls.set (sn - 1).toNat false) _ _ b1 true hij,
    getD_set_ne (values.set (sn - 1).toNat v0) _ _ v1 0 hij,
    getD_set_eq nulls _ false true (by omega), getD_set_eq values _ v0 0 (by omega)]
  simp

/-- A null attribute reads as the zero datum. -/
theorem heap_getattr_null_zero (tuple : HeapTuple) (n : Nat) (desc : TupleDesc)
    (h : (heap_getattr tuple n desc).2 = true) : (heap_getattr tuple n desc).1 = 0 := by
  unfold heap_getattr getmissingattr at *
  by_cases hlen : n > tuple.length
  · simp only [if_pos hlen] at h ⊢
    by_cases hm : (TupleDescAttr desc (n - 1)).atthasmissing = true
    · simp [hm] at h
    · simp [hm]
  · simp only [if_neg hlen] at h ⊢
    cases hg : tuple.getD (n - 1) none with
    | none => simp
    | some d => rw [hg] at h; simp at h

/-- A column a replacement did not touch reads as in the tuple it was formed from. -/
theorem SPI_getbinval_form_deform (pg : Catalog) (desc : TupleDesc) (tuple : HeapTuple)
    (n : Int) (h1 : 1 ≤ n) (h2 : n ≤ (desc.length : Int)) :
    SPI_getbinval pg (heap_form_tuple desc (heap_deform_tuple tuple desc).1
      (heap_deform_tuple tuple desc).2) desc n = SPI_getbinval pg tuple desc n := by
  rw [SPI_getbinval_form pg desc _ _ n h1 h2, SPI_getbinval_user pg tuple desc n h1 h2]
  unfold heap_deform_tuple
  simp only
  rw [getD_map_range _ _ _ _ (by omega), getD_map_range _ _ _ _ (by omega)]
  have : (n - 1).toNat + 1 = n.toNat := by omega
  rw [this]
  have hz := heap_getattr_null_zero tuple n.toNat desc
  generalize heap_getattr tuple n.toNat desc = r at hz ⊢
  rcases r with ⟨d, b⟩
  cases b
  · simp
  · simp at hz; simp [hz]

/-! ## Trigger events -/

theorem not_insert_of_update (ev : Nat) (h : TRIGGER_FIRED_BY_UPDATE ev = true) :
    TRIGGER_FIRED_BY_INSERT ev = false := by
  unfold TRIGGER_FIRED_BY_UPDATE TRIGGER_FIRED_BY_INSERT at *
  generalize ev &&& TRIGGER_EVENT_OPMASK = k at *
  simp [TRIGGER_EVENT_UPDATE, TRIGGER_EVENT_INSERT] at *
  omega

theorem not_insert_of_delete (ev : Nat) (h : TRIGGER_FIRED_BY_DELETE ev = true) :
    TRIGGER_FIRED_BY_INSERT ev = false := by
  unfold TRIGGER_FIRED_BY_DELETE TRIGGER_FIRED_BY_INSERT at *
  generalize ev &&& TRIGGER_EVENT_OPMASK = k at *
  simp [TRIGGER_EVENT_DELETE, TRIGGER_EVENT_INSERT] at *
  omega

theorem not_update_of_delete (ev : Nat) (h : TRIGGER_FIRED_BY_DELETE ev = true) :
    TRIGGER_FIRED_BY_UPDATE ev = false := by
  unfold TRIGGER_FIRED_BY_DELETE TRIGGER_FIRED_BY_UPDATE at *
  generalize ev &&& TRIGGER_EVENT_OPMASK = k at *
  simp [TRIGGER_EVENT_DELETE, TRIGGER_EVENT_UPDATE] at *
  omega

/-! ## The BEFORE ROW trigger on an INSERT or an effective UPDATE -/

/-- The row the BEFORE ROW trigger returns when it stamps: the incoming row
with the start column set to the transaction start and the end column set to
infinity, both not null. -/
theorem generated_always_stamps (pg : Catalog) (x : Xact) (trigdata : TriggerData)
    (new_row : HeapTuple) (start_name end_name : String) (now inf : Datum)
    (hbefore : TRIGGER_FIRED_BEFORE trigdata.tg_event = true)
    (hrow : TRIGGER_FIRED_FOR_ROW trigdata.tg_event = true)
    (hop : (TRIGGER_FIRED_BY_INSERT trigdata.tg_event = true ∧ new_row = trigdata.tg_trigtuple) ∨
      (TRIGGER_FIRED_BY_UPDATE trigdata.tg_event = true ∧ new_row = trigdata.tg_newtuple ∧
        OnlyExcludedColumnsChanged pg trigdata.tg_relation trigdata.tg_trigtuple
          trigdata.tg_newtuple = .ok false))
    (hperiod : GetPeriodColumnNames pg trigdata.tg_relation "system_time" =
      .ok (start_name, end_name))
    (hnow : GetRowStart x (SPI_gettypeid trigdata.tg_relation.rd_att
      (SPI_fnumber trigdata.tg_relation.rd_att start_name)) = .ok now)
    (hinf : GetRowEnd (SPI_gettypeid trigdata.tg_relation.rd_att
      (SPI_fnumber trigdata.tg_relation.rd_att start_name)) = .ok inf)
    (he1 : 1 ≤ SPI_fnumber trigdata.tg_relation.rd_att end_name)
    (he2 : SPI_fnumber trigdata.tg_relation.rd_att end_name ≤
      (trigdata.tg_relation.rd_att.length : Int))
    (hs1 : 1 ≤ SPI_fnumber trigdata.tg_relation.rd_att start_name)
    (hs2 : SPI_fnumber trigdata.tg_relation.rd_att start_name ≤
      (trigdata.tg_relation.rd_att.length : Int)) :
    generated_always_as_row_start_end pg x ⟨some trigdata⟩ =
      .ok (heap_form_tuple trigdata.tg_relation.rd_att
        (((heap_deform_tuple new_row trigdata.tg_relation.rd_att).1.set
          (SPI_fnumber trigdata.tg_relation.rd_att start_name - 1).toNat now).set
          (SPI_fnumber trigdata.tg_relation.rd_att end_name - 1).toNat inf)
        (((heap_deform_tuple new_row trigdata.tg_relation.rd_att).2.set
          (SPI_fnumber trigdata.tg_relation.rd_att start_name - 1).toNat false).set
          (SPI_fnumber trigdata.tg_relation.rd_att end_name - 1).toNat false)) := by
  unfold generated_always_as_row_start_end
  simp only [hbefore, hrow, Bool.not_true, Bool.or_self, Bool.false_eq_true, if_false, hperiod,
    hnow, hinf]
  rcases hop with ⟨hi, hn⟩ | ⟨hu, hn, hx⟩
  · subst hn
    simp only [hi, if_true]
    exact heap_modify_two _ _ _ _ _ _ hs1 hs2 he1 he2
  · subst hn
    simp only [not_insert_of_update _ hu, hu, hx, Bool.false_eq_true, if_false, if_true]
    exact heap_modify_two _ _ _ _ _ _ hs1 hs2 he1 he2

/-! ## The comparators -/

theorem GetRowStart_supported (x : Xact) (typeid : Oid) (now : Datum)
    (h : GetRowStart x typeid = .ok now) : SupportedType typeid := by
  unfold GetRowStart at h
  unfold SupportedType
  by_cases h1 : typeid = TIMESTAMPTZOID
  · exact Or.inl h1
  · by_cases h2 : typeid = TIMESTAMPOID
    · exact Or.inr (Or.inl h2)
    · by_cases h3 : typeid = DATEOID
      · exact Or.inr (Or.inr h3)
      · simp [h1, h2, h3] at h

/-- With the transaction start value `now` of the type, CompareWithCurrentDatum
is the three-way comparison with `now`. -/
theorem CompareWithCurrentDatum_eq (x : Xact) (typeid : Oid) (now value : Datum)
    (h : GetRowStart x typeid = .ok now) :
    CompareWithCurrentDatum x typeid value =
      .ok (if value < now then -1 else if value > now then 1 else 0) := by
  have hs := GetRowStart_supported x typeid now h
  rcases hs with h1 | h1 | h1 <;> subst h1 <;>
    simp only [GetRowStart, CompareWithCurrentDatum, timestamp_cmp, date_cmp, TIMESTAMPTZOID,
      TIMESTAMPOID, DATEOID, if_true, Nat.reduceEqDiff, if_false, Except.ok.injEq] at h ⊢ <;>
    rw [h]

/-- With the infinity value `inf` of the type, CompareWithInfiniteDatum is the
three-way comparison with `inf`. -/
theorem CompareWithInfiniteDatum_eq (typeid : Oid) (inf value : Datum)
    (h : GetRowEnd typeid = .ok inf) :
    CompareWithInfiniteDatum typeid value =
      .ok (if value < inf then -1 else if value > inf then 1 else 0) := by
  have hs : SupportedType typeid := by
    unfold GetRowEnd at h
    unfold SupportedType
    by_cases h1 : typeid = TIMESTAMPTZOID
    · exact Or.inl h1
    · by_cases h2 : typeid = TIMESTAMPOID
      · exact Or.inr (Or.inl h2)
      · by_cases h3 : typeid = DATEOID
        · exact Or.inr (Or.inr h3)
        · simp [h1, h2, h3] at h
  rcases hs with h1 | h1 | h1 <;> subst h1 <;>
    simp only [GetRowEnd, CompareWithInfiniteDatum, timestamp_cmp, date_cmp, TIMESTAMPTZOID,
      TIMESTAMPOID, DATEOID, if_true, Nat.reduceEqDiff, if_false, Except.ok.injEq] at h ⊢ <;>
    rw [h]

theorem three_way_eq_zero (value now : Int) :
    (if value < now then (-1 : Int) else if value > now then 1 else 0) = 0 ↔ value = now := by
  constructor
  · intro h
    split at h
    · omega
    · split at h
      · omega
      · omega
  · intro h; subst h; simp

theorem three_way_pos (value now : Int) :
    (if value < now then (-1 : Int) else if value > now then 1 else 0) > 0 ↔ value > now := by
  constructor
  · intro h
    split at h
    · omega
    · split at h
      · assumption
      · omega
  · intro h
    rw [if_neg (by omega), if_pos h]; omega

/-! ## Errors of the last parts of write_history -/

theorem build_attrmap_by_name_error (indesc outdesc : TupleDesc) (e : Err)
    (h : build_attrmap_by_name indesc outdesc = .error e) :
    ∃ attname, e = .couldNotConvertRowType attname := by
  induction outdesc with
  | nil => simp [build_attrmap_by_name] at h
  | cons a rest ih =>
    have hfind : ∀ (l : TupleDesc) (j : Nat) (e2 : Err),
        findInputAttr a.attname a.atttypid a.atttypmod l j = .error e2 →
        ∃ attname, e2 = .couldNotConvertRowType attname := by
      intro l
      induction l with
      | nil => intro j e2 h2; simp [findInputAttr] at h2
      | cons b l2 ih2 =>
        intro j e2 h2
        simp only [findInputAttr] at h2
        split at h2
        · exact ih2 _ _ h2
        · split at h2
          · split at h2
            · simp only [Except.error.injEq] at h2; exact ⟨_, h2.symm⟩
            · simp at h2
          · exact ih2 _ _ h2
    simp only [build_attrmap_by_name] at h
    split at h
    · cases hr : build_attrmap_by_name indesc rest with
      | error e2 => rw [hr] at h; simp only [Except.error.injEq] at h; subst h; exact ih hr
      | ok m => rw [hr] at h; simp at h
    · cases hf : findInputAttr a.attname a.atttypid a.atttypmod indesc 0 with
      | error e2 =>
        rw [hf] at h; simp only [Except.error.injEq] at h; subst h; exact hfind _ _ _ hf
      | ok n =>
        rw [hf] at h
        simp only at h
        split at h
        · simp only [Except.error.injEq] at h; exact ⟨_, h.symm⟩
        · cases hr : build_attrmap_by_name indesc rest with
          | error e2 => rw [hr] at h; simp only [Except.error.injEq] at h; subst h; exact ih hr
          | ok m => rw [hr] at h; simp at h

theorem strcmpChars_self (l : List Char) : strcmpChars l l = 0 := by
  induction l with
  | nil => rfl
  | cons a rest ih => simp [strcmpChars, ih]

theorem strcmp_ne_zero (a b : String) (h : ¬ strcmp a b = 0) : a ≠ b := by
  intro hab
  apply h
  unfold strcmp
  rw [hab]
  exact strcmpChars_self _

/-- The INSERT always succeeds in the model and appends the tuple; the plan
that carries it names the relation as it is called now, unless the cache held
an entry for the relation with another schema name and another table name. -/
theorem insert_into_history_ok (history_rel : Relation) (history_tuple : HeapTuple)
    (db : DbState) :
    ∃ cache plan, insert_into_history history_rel history_tuple db =
      (.ok (), { InsertHistoryPlanHash := cache
                 inserted := db.inserted ++ [(plan, history_tuple)] }) ∧
      (plan = { schemaname := history_rel.nspname, tablename := history_rel.relname } ∨
        ∃ h, (db.InsertHistoryPlanHash.getD []).find?
            (fun h => h.history_relid = history_rel.rd_id) = some h ∧
          h.schemaname ≠ history_rel.nspname ∧ h.tablename ≠ history_rel.relname ∧
          plan = h.qplan) := by
  unfold insert_into_history
  simp only
  cases hf : (db.InsertHistoryPlanHash.getD []).find?
      (fun h => decide (h.history_relid = history_rel.rd_id)) with
  | none => exact ⟨_, _, rfl, Or.inl rfl⟩
  | some h =>
    simp only
    by_cases hc : strcmp h.schemaname history_rel.nspname = 0 ∨
        strcmp h.tablename history_rel.relname = 0
    · rw [if_pos hc]
      exact ⟨_, _, rfl, Or.inl rfl⟩
    · rw [if_neg hc]
      push_neg at hc
      exact ⟨_, _, rfl, Or.inr ⟨h, rfl, strcmp_ne_zero _ _ hc.1, strcmp_ne_zero _ _ hc.2, rfl⟩⟩

theorem insert_into_history_fst (history_rel : Relation) (history_tuple : HeapTuple)
    (db : DbState) : (insert_into_history history_rel history_tuple db).1 = .ok () := by
  obtain ⟨cache, plan, h, _⟩ := insert_into_history_ok history_rel history_tuple db
  rw [h]

theorem table_open_error (pg : Catalog) (relid : Oid) (e : Err)
    (h : table_open pg relid = .error e) : e = .couldNotOpenRelation relid := by
  unfold table_open at h
  split at h
  · simp at h
  · simp only [Except.error.injEq] at h; exact h.symm

theorem convert_tuples_by_name_error (indesc outdesc : TupleDesc) (e : Err)
    (h : convert_tuples_by_name indesc outdesc = .error e) :
    ∃ attname, e = .couldNotConvertRowType attname := by
  unfold convert_tuples_by_name at h
  cases hb : build_attrmap_by_name indesc outdesc with
  | error e2 =>
    rw [hb] at h; simp only [Except.error.injEq] at h; subst h
    exact build_attrmap_by_name_error _ _ _ hb
  | ok m =>
    rw [hb] at h
    simp only at h
    split at h <;> simp at h

theorem GetRowStart_error (x : Xact) (typeid : Oid) (e : Err)
    (h : GetRowStart x typeid = .error e) : e = .unexpectedType typeid := by
  unfold GetRowStart at h
  repeat (split at h; · simp at h)
  simp only [Except.error.injEq] at h; exact h.symm

theorem CompareWithCurrentDatum_error (x : Xact) (typeid : Oid) (value : Datum) (e : Err)
    (h : CompareWithCurrentDatum x typeid value = .error e) : e = .unexpectedType typeid := by
  unfold CompareWithCurrentDatum at h
  repeat (split at h; · simp at h)
  simp only [Except.error.injEq] at h; exact h.symm

/-- A store at an index that is not negative is the replacement of that
entry. -/
theorem arrayStore_of_pos {α : Type} (a : List α) (n : Int) (v : α) (h : 1 ≤ n) :
    arrayStore a (n - 1) v = a.set (n - 1).toNat v := by
  unfold arrayStore
  rw [if_neg (by omega)]

/-- The last part of write_history never raises the generated-always error
nor the invalid row version error. -/
theorem write_history_archive_errors (pg : Catalog) (x : Xact) (rel : Relation)
    (end_name : String) (typeid : Oid) (old_row : HeapTuple) (db : DbState) (e : Err)
    (h : (write_history_archive pg x rel end_name typeid old_row db).1 = .error e) :
    e ≠ .invalidRowVersion ∧ ∀ col detail, e ≠ .generatedAlways col detail := by
  unfold write_history_archive at h
  simp only at h
  split at h
  · cases ho : table_open pg (GetHistoryTable pg rel) with
    | error e2 =>
      rw [ho] at h; simp only [Except.error.injEq] at h; subst h
      rw [table_open_error _ _ _ ho]; simp
    | ok history_rel =>
      rw [ho] at h
      simp only at h
      cases hc : convert_tuples_by_name rel.rd_att history_rel.rd_att with
      | error e2 =>
        rw [hc] at h; simp only [Except.error.injEq] at h; subst h
        obtain ⟨attname, he⟩ := convert_tuples_by_name_error _ _ _ hc
        rw [he]; simp
      | ok map =>
        rw [hc] at h
        simp only at h
        cases hg : GetRowStart x typeid with
        | error e2 =>
          rw [hg] at h; simp only [Except.error.injEq] at h; subst h
          rw [GetRowStart_error _ _ _ hg]; simp
        | ok now =>
          rw [hg] at h
          simp only at h
          rw [insert_into_history_fst] at h
          simp at h
  · simp at h

/-- The parts of write_history after the validation never raise the
generated-always error. -/
theorem write_history_close_not_generatedAlways (pg : Catalog) (x : Xact) (rel : Relation)
    (start_num : Int) (end_name : String) (typeid : Oid) (old_row : HeapTuple)
    (only_excluded_changed : Bool) (db : DbState) (col detail : String) :
    (write_history_close pg x rel start_num end_name typeid old_row only_excluded_changed
      db).1 ≠ .error (.generatedAlways col detail) := by
  intro h
  unfold write_history_close at h
  split at h
  · simp at h
  · cases hc : CompareWithCurrentDatum x typeid
        (SPI_getbinval pg old_row rel.rd_att start_num).1 with
    | error e2 =>
      rw [hc] at h; simp only [Except.error.injEq] at h
      rw [CompareWithCurrentDatum_error _ _ _ _ hc] at h; simp at h
    | ok cmp =>
      rw [hc] at h
      simp only at h
      split at h
      · simp at h
      · split at h
        · simp at h
        · exact (write_history_archive_errors pg x rel end_name typeid old_row db _ h).2 _ _ rfl

/-! ## The entry of write_history -/

theorem write_history_insert (pg : Catalog) (x : Xact) (trigdata : TriggerData) (db : DbState)
    (hafter : TRIGGER_FIRED_AFTER trigdata.tg_event = true)
    (hrow : TRIGGER_FIRED_FOR_ROW trigdata.tg_event = true)
    (hi : TRIGGER_FIRED_BY_INSERT trigdata.tg_event = true) :
    write_history pg x ⟨some trigdata⟩ db =
      write_history_validate pg x trigdata [] trigdata.tg_trigtuple false db := by
  unfold write_history
  simp [hafter, hrow, hi]

theorem write_history_update (pg : Catalog) (x : Xact) (trigdata : TriggerData) (db : DbState)
    (b : Bool)
    (hafter : TRIGGER_FIRED_AFTER trigdata.tg_event = true)
    (hrow : TRIGGER_FIRED_FOR_ROW trigdata.tg_event = true)
    (hu : TRIGGER_FIRED_BY_UPDATE trigdata.tg_event = true)
    (hx : OnlyExcludedColumnsChanged pg trigdata.tg_relation trigdata.tg_trigtuple
      trigdata.tg_newtuple = .ok b) :
    write_history pg x ⟨some trigdata⟩ db =
      write_history_validate pg x trigdata trigdata.tg_trigtuple trigdata.tg_newtuple b db := by
  unfold write_history
  simp [hafter, hrow, hu, not_insert_of_update _ hu, hx]

theorem write_history_delete (pg : Catalog) (x : Xact) (trigdata : TriggerData) (db : DbState)
    (hafter : TRIGGER_FIRED_AFTER trigdata.tg_event = true)
    (hrow : TRIGGER_FIRED_FOR_ROW trigdata.tg_event = true)
    (hd : TRIGGER_FIRED_BY_DELETE trigdata.tg_event = true) :
    write_history pg x ⟨some trigdata⟩ db =
      write_history_validate pg x trigdata trigdata.tg_trigtuple [] false db := by
  unfold write_history
  simp [hafter, hrow, hd, not_insert_of_delete _ hd, not_update_of_delete _ hd]

/-- On a DELETE the validation of the new row is skipped. -/
theorem write_history_validate_delete (pg : Catalog) (x : Xact) (trigdata : TriggerData)
    (db : DbState) (old_row new_row : HeapTuple) (start_name end_name : String)
    (hd : TRIGGER_FIRED_BY_DELETE trigdata.tg_event = true)
    (hperiod : GetPeriodColumnNames pg trigdata.tg_relation "system_time" =
      .ok (start_name, end_name)) :
    write_history_validate pg x trigdata old_row new_row false db =
      write_history_close pg x trigdata.tg_relation
        (SPI_fnumber trigdata.tg_relation.rd_att start_name) end_name
        (SPI_gettypeid trigdata.tg_relation.rd_att
          (SPI_fnumber trigdata.tg_relation.rd_att start_name)) old_row false db := by
  unfold write_history_validate
  simp [hperiod, not_insert_of_delete _ hd, not_update_of_delete _ hd]

/-- On an effective UPDATE whose new row passes the validation, the rest runs. -/
theorem write_history_validate_update_pass (pg : Catalog) (x : Xact) (trigdata : TriggerData)
    (db : DbState) (old_row new_row : HeapTuple) (start_name end_name : String)
    (hu : TRIGGER_FIRED_BY_UPDATE trigdata.tg_event = true)
    (hperiod : GetPeriodColumnNames pg trigdata.tg_relation "system_time" =
      .ok (start_name, end_name))
    (hc1 : CompareWithCurrentDatum x
      (SPI_gettypeid trigdata.tg_relation.rd_att
        (SPI_fnumber trigdata.tg_relation.rd_att start_name))
      (SPI_getbinval pg new_row trigdata.tg_relation.rd_att
        (SPI_fnumber trigdata.tg_relation.rd_att start_name)).1 = .ok 0)
    (hc2 : CompareWithInfiniteDatum
      (SPI_gettypeid trigdata.tg_relation.rd_att
        (SPI_fnumber trigdata.tg_relation.rd_att start_name))
      (SPI_getbinval pg new_row trigdata.tg_relation.rd_att
        (SPI_fnumber trigdata.tg_relation.rd_att end_name)).1 = .ok 0) :
    write_history_validate pg x trigdata old_row new_row false db =
      write_history_close pg x trigdata.tg_relation
        (SPI_fnumber trigdata.tg_relation.rd_att start_name) end_name
        (SPI_gettypeid trigdata.tg_relation.rd_att
          (SPI_fnumber trigdata.tg_relation.rd_att start_name)) old_row false db := by
  unfold write_history_validate
  simp [hperiod, not_insert_of_update _ hu, hu, hc1, hc2]

/-- The outcome of the validation on an INSERT or an effective UPDATE, by
the two comparisons. -/
theorem write_history_validate_cases (pg : Catalog) (x : Xact) (trigdata : TriggerData)
    (db : DbState) (old_row new_row : HeapTuple) (start_name end_name : String)
    (now inf : Datum)
    (hop : TRIGGER_FIRED_BY_INSERT trigdata.tg_event = true ∨
      TRIGGER_FIRED_BY_UPDATE trigdata.tg_event = true)
    (hperiod : GetPeriodColumnNames pg trigdata.tg_relation "system_time" =
      .ok (start_name, end_name))
    (hnow : GetRowStart x (SPI_gettypeid trigdata.tg_relation.rd_att
      (SPI_fnumber trigdata.tg_relation.rd_att start_name)) = .ok now)
    (hinf : GetRowEnd (SPI_gettypeid trigdata.tg_relation.rd_att
      (SPI_fnumber trigdata.tg_relation.rd_att start_name)) = .ok inf) :
    write_history_validate pg x trigdata old_row new_row false db =
      if (SPI_getbinval pg new_row trigdata.tg_relation.rd_att
          (SPI_fnumber trigdata.tg_relation.rd_att start_name)).1 ≠ now then
        (.error (.generatedAlways start_name "ROW START"), db)
      else if (SPI_getbinval pg new_row trigdata.tg_relation.rd_att
          (SPI_fnumber trigdata.tg_relation.rd_att end_name)).1 ≠ inf then
        (.error (.generatedAlways end_name "ROW END"), db)
      else if TRIGGER_FIRED_BY_INSERT trigdata.tg_event then (.ok (), db)
      else write_history_close pg x trigdata.tg_relation
        (SPI_fnumber trigdata.tg_relation.rd_att start_name) end_name
        (SPI_gettypeid trigdata.tg_relation.rd_att
          (SPI_fnumber trigdata.tg_relation.rd_att start_name)) old_row false db := by
  unfold write_history_validate
  have hcond : (TRIGGER_FIRED_BY_INSERT trigdata.tg_event ||
      (TRIGGER_FIRED_BY_UPDATE trigdata.tg_event && !false)) = true := by
    rcases hop with h | h <;> simp [h]
  simp only [hperiod, hcond, if_true, CompareWithCurrentDatum_eq x _ now _ hnow,
    CompareWithInfiniteDatum_eq _ inf _ hinf, ne_eq, three_way_eq_zero]

/-! ## The change classifier -/

/-- The bitmap of excluded attribute numbers holds what it held at the start
and the non-negative attribute numbers of the names visited. -/
theorem excludedAttnums_mem (desc : TupleDesc) (names : List String) (acc ex : Bitmapset)
    (h : excludedAttnums desc names acc = .ok ex) (k : Int) :
    k ∈ ex ↔ k ∈ acc ∨ ∃ name ∈ names, SPI_fnumber desc name = k ∧ 0 ≤ k := by
  induction names generalizing acc with
  | nil =>
    simp only [excludedAttnums, Except.ok.injEq] at h
    subst h
    simp
  | cons name rest ih =>
    simp only [excludedAttnums] at h
    split at h
    · simp at h
    · rename_i hna
      split at h
      · rename_i hneg
        rw [ih acc h]
        constructor
        · rintro (h1 | ⟨n, hn, hk⟩)
          · exact Or.inl h1
          · exact Or.inr ⟨n, List.mem_cons_of_mem _ hn, hk⟩
        · rintro (h1 | ⟨n, hn, hk⟩)
          · exact Or.inl h1
          · rcases List.mem_cons.mp hn with hn | hn
            · subst hn
              exfalso
              rw [hk.1] at hneg
              exact absurd hk.2 (not_le.mpr hneg)
            · exact Or.inr ⟨n, hn, hk⟩
      · rename_i hneg
        rw [ih _ h]
        unfold bms_add_member
        constructor
        · rintro (h1 | ⟨n, hn, hk⟩)
          · split at h1
            · exact Or.inl h1
            · rcases List.mem_cons.mp h1 with h1 | h1
              · refine Or.inr ⟨name, List.mem_cons_self _ _, h1.symm, ?_⟩
                rw [h1]; exact not_lt.mp hneg
              · exact Or.inl h1
          · exact Or.inr ⟨n, List.mem_cons_of_mem _ hn, hk⟩
        · rintro (h1 | ⟨n, hn, hk⟩)
          · left
            split
            · exact h1
            · exact List.mem_cons_of_mem _ h1
          · rcases List.mem_cons.mp hn with hn | hn
            · subst hn
              left
              split
              · rename_i hm; rw [← hk.1]; exact hm
              · rw [← hk.1]; exact List.mem_cons_self _ _
            · exact Or.inr ⟨n, hn, hk⟩

/-- The comparison loop answers true exactly when every visited column that
is neither dropped nor excluded is unchanged. -/
theorem compareColumns_iff (pg : Catalog) (desc : TupleDesc) (ex : Bitmapset)
    (old_row new_row : HeapTuple) (l : List Nat) :
    compareColumns pg desc ex old_row new_row l = true ↔
      ∀ i ∈ l, (TupleDescAttr desc (i - 1)).attisdropped = false → (i : Int) ∉ ex →
        ((SPI_getbinval pg old_row desc i).2 = true ∧
          (SPI_getbinval pg new_row desc i).2 = true) ∨
        ((SPI_getbinval pg old_row desc i).2 = false ∧
          (SPI_getbinval pg new_row desc i).2 = false ∧
          datumIsEqual (SPI_getbinval pg old_row desc i).1 (SPI_getbinval pg new_row desc i).1
            (TupleDescAttr desc (i - 1)).attbyval (TupleDescAttr desc (i - 1)).attlen = true) := by
  induction l with
  | nil => simp [compareColumns]
  | cons i rest ih =>
    simp only [compareColumns, List.mem_cons, forall_eq_or_imp]
    by_cases hd : (TupleDescAttr desc (i - 1)).attisdropped = true
    · simp only [hd, if_true, ih]
      simp
    · simp only [hd, Bool.false_eq_true, if_false]
      have hd2 : (TupleDescAttr desc (i - 1)).attisdropped = false := by simpa using hd
      by_cases hm : (i : Int) ∈ ex
      · simp only [bms_is_member, hm, decide_True, if_true, ih]
        simp [hm]
      · simp only [bms_is_member, hm, decide_False, Bool.false_eq_true, if_false]
        simp only [hd2, hm, not_false_eq_true, forall_true_left]
        cases ho : (SPI_getbinval pg old_row desc i).2 <;>
          cases hn : (SPI_getbinval pg new_row desc i).2 <;>
          cases hq : datumIsEqual (SPI_getbinval pg old_row desc i).1
            (SPI_getbinval pg new_row desc i).1 (TupleDescAttr desc (i - 1)).attbyval
            (TupleDescAttr desc (i - 1)).attlen <;>
          simp [ih]

/-! ## The attribute map between identical descriptors -/

theorem SystemAttributeByName_neg (fname : String) (n : Int)
    (h : SystemAttributeByName fname = some n) : n < 0 := by
  unfold SystemAttributeByName at h
  repeat (split at h; · simp only [Option.some.injEq] at h; omega)
  simp at h

/-- A positive result of SPI_fnumber comes from the loop over the descriptor. -/
theorem SPI_fnumber_pos (desc : TupleDesc) (fname : String) (h : 0 < SPI_fnumber desc fname) :
    SPI_fnumber_loop fname desc 0 = some (SPI_fnumber desc fname) := by
  unfold SPI_fnumber at h ⊢
  cases hl : SPI_fnumber_loop fname desc 0 with
  | some n => rfl
  | none =>
    rw [hl] at h
    simp only at h
    cases hs : SystemAttributeByName fname with
    | some n =>
      rw [hs] at h
      have := SystemAttributeByName_neg _ _ hs
      simp only at h
      omega
    | none =>
      rw [hs] at h
      simp [SPI_ERROR_NOATTRIBUTE] at h

theorem SPI_fnumber_pos_le (desc : TupleDesc) (fname : String)
    (h : 0 < SPI_fnumber desc fname) : SPI_fnumber desc fname ≤ (desc.length : Int) := by
  have := SPI_fnumber_loop_range _ _ _ _ (SPI_fnumber_pos desc fname h)
  omega

/-- Where SPI_fnumber_loop finds a column, findInputAttr finds the same one,
if its type is the type asked for. -/
theorem findInputAttr_of_loop (attname : String) (atttypid : Oid) (atttypmod : Int)
    (l : TupleDesc) (j0 : Nat) (n : Int)
    (h : SPI_fnumber_loop attname l j0 = some n)
    (ht : (l.getD (n - 1 - j0).toNat default).atttypid = atttypid)
    (hm : (l.getD (n - 1 - j0).toNat default).atttypmod = atttypmod) :
    findInputAttr attname atttypid atttypmod l j0 = .ok n := by
  induction l generalizing j0 with
  | nil => simp [SPI_fnumber_loop] at h
  | cons a rest ih =>
    simp only [SPI_fnumber_loop] at h
    simp only [findInputAttr]
    split at h
    · rename_i hc
      simp only [Option.some.injEq] at h
      subst h
      have h0 : ((j0 : Int) + 1 - 1 - j0).toNat = 0 := by omega
      rw [h0] at ht hm
      simp only [List.getD_cons_zero] at ht hm
      simp [hc.1, hc.2, ht, hm]
    · rename_i hc
      have hr := SPI_fnumber_loop_range _ _ _ _ h
      have hidx : (n - 1 - j0).toNat = (n - 1 - ((j0 + 1 : Nat) : Int)).toNat + 1 := by
        push_cast; omega
      rw [hidx] at ht hm
      simp only [List.getD_cons_succ] at ht hm
      by_cases hd : a.attisdropped = true
      · simp only [hd, if_true]
        exact ih (j0 + 1) h ht hm
      · simp only [hd, Bool.false_eq_true, if_false]
        have hne : ¬ attname = a.attname := by
          intro heq
          apply hc
          exact ⟨heq.symm, by simpa using hd⟩
        simp only [hne, if_false]
        exact ih (j0 + 1) h ht hm

/-- The map build_attrmap_by_name makes from a descriptor to a suffix of
itself, when each live column is the one found under its name: live column
`i` maps to `i + 1`, a dropped column to 0. -/
theorem build_attrmap_by_name_suffix (desc : TupleDesc)
    (hnames : ∀ i : Nat, i < desc.length → (TupleDescAttr desc i).attisdropped = false →
      SPI_fnumber desc (TupleDescAttr desc i).attname = (i : Int) + 1)
    (out : TupleDesc) (k : Nat) (hout : desc.drop k = out) :
    ∃ m, build_attrmap_by_name desc out = .ok m ∧ m.length = out.length ∧
      ∀ i : Nat, i < out.length →
        m.getD i 0 = if (TupleDescAttr desc (k + i)).attisdropped then 0 else (k : Int) + i + 1 := by
  induction out generalizing k with
  | nil => exact ⟨[], by simp [build_attrmap_by_name]⟩
  | cons a rest ih =>
    have hk : k < desc.length := by
      by_contra hcon
      rw [List.drop_eq_nil_of_le (by omega)] at hout
      simp at hout
    have hdrop : desc.drop k = desc[k] :: desc.drop (k + 1) := List.drop_eq_getElem_cons hk
    rw [hdrop] at hout
    simp only [List.cons.injEq] at hout
    obtain ⟨ha, hrest⟩ := hout
    obtain ⟨m, hm, hlen, hget⟩ := ih (k + 1) hrest
    have hattr : TupleDescAttr desc k = a := by
      unfold TupleDescAttr
      rw [List.getD_eq_getElem _ _ hk]
      exact ha
    simp only [build_attrmap_by_name]
    by_cases hd : a.attisdropped = true
    · simp only [hd, if_true, hm]
      refine ⟨0 :: m, rfl, by simp [hlen], ?_⟩
      intro i hi
      cases i with
      | zero => simp [hattr, hd]
      | succ i =>
        simp only [List.length_cons, Nat.add_lt_add_iff_right] at hi
        simp only [List.getD_cons_succ]
        rw [hget i hi]
        have : k + 1 + i = k + (i + 1) := by omega
        rw [this]
        push_cast
        ring_nf
    · have hd2 : a.attisdropped = false := by simpa using hd
      have hf := hnames k hk (by rw [hattr]; exact hd2)
      rw [hattr] at hf
      have hloop := SPI_fnumber_pos desc a.attname (by rw [hf]; omega)
      rw [hf] at hloop
      have hidx : ((k : Int) + 1 - 1 - ((0 : Nat) : Int)).toNat = k := by simp
      have hfind := findInputAttr_of_loop a.attname a.atttypid a.atttypmod desc 0 _ hloop
        (by rw [hidx]; unfold TupleDescAttr at hattr; rw [hattr])
        (by rw [hidx]; unfold TupleDescAttr at hattr; rw [hattr])
      simp only [hd, Bool.false_eq_true, if_false, hfind, hm]
      have hnz : ¬ ((k : Int) + 1 = 0) := by omega
      simp only [hnz, if_false]
      refine ⟨((k : Int) + 1) :: m, rfl, by simp [hlen], ?_⟩
      intro i hi
      cases i with
      | zero => simp [hattr, hd2]
      | succ i =>
        simp only [List.length_cons, Nat.add_lt_add_iff_right] at hi
        simp only [List.getD_cons_succ]
        rw [hget i hi]
        have : k + 1 + i = k + (i + 1) := by omega
        rw [this]
        push_cast
        ring_nf

/-! ## The archived row -/

theorem getD_map_lt {α β : Type} (f : α → β) (l : List α) (i : Nat) (d : β) (d0 : α)
    (h : i < l.length) : (l.map f).getD i d = f (l.getD i d0) := by
  simp [List.getD_eq_getElem?_getD, List.getElem?_map, List.getElem?_eq_getElem h]

theorem heap_getattr_eta (tuple : HeapTuple) (n : Nat) (desc : TupleDesc) :
    (if (heap_getattr tuple n desc).2 = true then ((0 : Datum), true)
      else ((heap_getattr tuple n desc).1, false)) = heap_getattr tuple n desc := by
  have hz := heap_getattr_null_zero tuple n desc
  generalize heap_getattr tuple n desc = r at hz ⊢
  rcases r with ⟨d, b⟩
  cases b
  · simp
  · simp at hz; simp [hz]

/-- Reading a tuple formed from a deformed tuple with one entry replaced. -/
theorem SPI_getbinval_form_set (pg : Catalog) (desc : TupleDesc) (tuple : HeapTuple)
    (k : Nat) (v : Datum) (n : Int) (h1 : 1 ≤ n) (h2 : n ≤ (desc.length : Int))
    (hk : k < desc.length) :
    SPI_getbinval pg (heap_form_tuple desc ((heap_deform_tuple tuple desc).1.set k v)
      ((heap_deform_tuple tuple desc).2.set k false)) desc n =
      if (n - 1).toNat = k then (v, false) else heap_getattr tuple n.toNat desc := by
  rw [SPI_getbinval_form pg desc _ _ n h1 h2]
  have hlen := heap_deform_tuple_length tuple desc
  by_cases hnk : (n - 1).toNat = k
  · rw [if_pos hnk, hnk, getD_set_eq _ _ _ _ (by omega), getD_set_eq _ _ _ _ (by omega)]
    simp
  · rw [if_neg hnk, getD_set_ne _ _ _ _ _ (Ne.symm hnk), getD_set_ne _ _ _ _ _ (Ne.symm hnk)]
    unfold heap_deform_tuple
    simp only
    rw [getD_map_range _ _ _ _ (by omega), getD_map_range _ _ _ _ (by omega)]
    have : (n - 1).toNat + 1 = n.toNat := by omega
    rw [this]
    exact heap_getattr_eta tuple n.toNat desc

/-- Under the attribute map of a descriptor to itself, a live column of the
converted tuple reads as in the tuple converted. -/
theorem heap_getattr_execute_attr_map_self (desc : TupleDesc) (tuple : HeapTuple)
    (m : List Int) (hlen : m.length = desc.length)
    (hget : ∀ i : Nat, i < desc.length →
      m.getD i 0 = if (TupleDescAttr desc i).attisdropped then 0 else (i : Int) + 1)
    (n : Nat) (h1 : 1 ≤ n) (h2 : n ≤ desc.length)
    (hlive : (TupleDescAttr desc (n - 1)).attisdropped = false) :
    heap_getattr (execute_attr_map_tuple tuple m desc desc) n desc = heap_getattr tuple n desc := by
  unfold execute_attr_map_tuple
  simp only
  rw [heap_getattr_form desc _ _ n h1 h2]
  rw [getD_map_lt _ m (n - 1) true 0 (by omega), getD_map_lt _ m (n - 1) 0 0 (by omega)]
  rw [hget (n - 1) (by omega), hlive]
  simp only [Bool.false_eq_true, if_false]
  have hn : (((n - 1 : Nat) : Int) + 1).toNat = (n - 1) + 1 := by omega
  rw [hn]
  simp only [List.getD_cons_succ]
  unfold heap_deform_tuple
  simp only
  rw [getD_map_range _ _ _ _ (by omega), getD_map_range _ _ _ _ (by omega)]
  have : n - 1 + 1 = n := by omega
  rw [this]
  exact heap_getattr_eta tuple n desc

/-- The last part of write_history when the history table has the descriptor
of the table: one row is given to the INSERT; it holds the transaction start
value, not null, in the end column and the old row's value in every other
live column. -/
theorem write_history_archive_same_layout (pg : Catalog) (x : Xact) (rel : Relation)
    (end_name : String) (typeid : Oid) (old_row : HeapTuple) (db : DbState) (now : Datum)
    (history_rel : Relation)
    (hhist : OidIsValid (GetHistoryTable pg rel) = true)
    (hopen : table_open pg (GetHistoryTable pg rel) = .ok history_rel)
    (hsame : history_rel.rd_att = rel.rd_att)
    (hnames : ∀ i : Nat, i < rel.rd_att.length →
      (TupleDescAttr rel.rd_att i).attisdropped = false →
      SPI_fnumber rel.rd_att (TupleDescAttr rel.rd_att i).attname = (i : Int) + 1)
    (hnow : GetRowStart x typeid = .ok now)
    (hend : 1 ≤ SPI_fnumber rel.rd_att end_name) :
    ∃ cache plan hist,
      write_history_archive pg x rel end_name typeid old_row db =
        (.ok (), { InsertHistoryPlanHash := cache
                   inserted := db.inserted ++ [(plan, hist)] }) ∧
      (plan = { schemaname := history_rel.nspname, tablename := history_rel.relname } ∨
        ∃ h, (db.InsertHistoryPlanHash.getD []).find?
            (fun h => h.history_relid = history_rel.rd_id) = some h ∧
          h.schemaname ≠ history_rel.nspname ∧ h.tablename ≠ history_rel.relname ∧
          plan = h.qplan) ∧
      SPI_getbinval pg hist rel.rd_att (SPI_fnumber rel.rd_att end_name) = (now, false) ∧
      ∀ n : Int, 1 ≤ n → n ≤ (rel.rd_att.length : Int) → n ≠ SPI_fnumber rel.rd_att end_name →
        (TupleDescAttr rel.rd_att (n - 1).toNat).attisdropped = false →
        SPI_getbinval pg hist rel.rd_att n = SPI_getbinval pg old_row rel.rd_att n := by
  have hend2 := SPI_fnumber_pos_le rel.rd_att end_name (by omega)
  obtain ⟨m, hm, hmlen, hmget⟩ := build_attrmap_by_name_suffix rel.rd_att hnames rel.rd_att 0
    (by simp)
  have hmget2 : ∀ i : Nat, i < rel.rd_att.length →
      m.getD i 0 = if (TupleDescAttr rel.rd_att i).attisdropped then 0 else (i : Int) + 1 := by
    intro i hi
    have := hmget i hi
    simpa using this
  /- What the formed row reads, for a tuple that agrees with the old row on
  the live columns. -/
  have key : ∀ t : HeapTuple,
      (∀ n : Nat, 1 ≤ n → n ≤ rel.rd_att.length →
        (TupleDescAttr rel.rd_att (n - 1)).attisdropped = false →
        heap_getattr t n rel.rd_att = heap_getattr old_row n rel.rd_att) →
      ∃ cache plan hist,
        insert_into_history history_rel
          (heap_form_tuple rel.rd_att
            ((heap_deform_tuple t rel.rd_att).1.set
              (SPI_fnumber rel.rd_att end_name - 1).toNat now)
            ((heap_deform_tuple t rel.rd_att).2.set
              (SPI_fnumber rel.rd_att end_name - 1).toNat false)) db =
          (.ok (), { InsertHistoryPlanHash := cache
                     inserted := db.inserted ++ [(plan, hist)] }) ∧
        (plan = { schemaname := history_rel.nspname, tablename := history_rel.relname } ∨
          ∃ h, (db.InsertHistoryPlanHash.getD []).find?
              (fun h => h.history_relid = history_rel.rd_id) = some h ∧
            h.schemaname ≠ history_rel.nspname ∧ h.tablename ≠ history_rel.relname ∧
            plan = h.qplan) ∧
        SPI_getbinval pg hist rel.rd_att (SPI_fnumber rel.rd_att end_name) = (now, false) ∧
        ∀ n : Int, 1 ≤ n → n ≤ (rel.rd_att.length : Int) →
          n ≠ SPI_fnumber rel.rd_att end_name →
          (TupleDescAttr rel.rd_att (n - 1).toNat).attisdropped = false →
          SPI_getbinval pg hist rel.rd_att n = SPI_getbinval pg old_row rel.rd_att n := by
    intro t ht
    obtain ⟨cache, plan, hi, hp⟩ := insert_into_history_ok history_rel
      (heap_form_tuple rel.rd_att
        ((heap_deform_tuple t rel.rd_att).1.set (SPI_fnumber rel.rd_att end_name - 1).toNat now)
        ((heap_deform_tuple t rel.rd_att).2.set
          (SPI_fnumber rel.rd_att end_name - 1).toNat false)) db
    refine ⟨cache, plan, _, hi, hp, ?_, ?_⟩
    · rw [SPI_getbinval_form_set pg _ t _ now _ hend hend2 (by omega)]
      simp
    · intro n h1 h2 hne hlive
      rw [SPI_getbinval_form_set pg _ t _ now _ h1 h2 (by omega)]
      rw [if_neg (by omega), SPI_getbinval_user pg old_row _ n h1 h2]
      apply ht n.toNat (by omega) (by omega)
      have : n.toNat - 1 = (n - 1).toNat := by omega
      rw [this]
      exact hlive
  unfold write_history_archive convert_tuples_by_name
  simp only [hhist, if_true, hopen, hsame, hm, hnow]
  by_cases hc : check_attrmap_match rel.rd_att rel.rd_att m = true
  · simp only [hc, if_true, arrayStore_of_pos _ _ _ hend]
    exact key old_row (fun _ _ _ _ => rfl)
  · simp only [hc, Bool.false_eq_true, if_false, arrayStore_of_pos _ _ _ hend]
    exact key _ (fun n h1 h2 hlive =>
      heap_getattr_execute_attr_map_self rel.rd_att old_row m hmlen hmget2 n h1 h2 hlive)

/-- An UPDATE or DELETE that passes the validation (or skips it) and whose
old row was opened before the transaction start reaches the last part. -/
theorem write_history_reaches_archive (pg : Catalog) (x : Xact) (trigdata : TriggerData)
    (db : DbState) (start_name end_name : String) (now : Datum)
    (hafter : TRIGGER_FIRED_AFTER trigdata.tg_event = true)
    (hrow : TRIGGER_FIRED_FOR_ROW trigdata.tg_event = true)
    (hop : TRIGGER_FIRED_BY_DELETE trigdata.tg_event = true ∨
      (TRIGGER_FIRED_BY_UPDATE trigdata.tg_event = true ∧
        OnlyExcludedColumnsChanged pg trigdata.tg_relation trigdata.tg_trigtuple
          trigdata.tg_newtuple = .ok false ∧
        CompareWithCurrentDatum x
          (SPI_gettypeid trigdata.tg_relation.rd_att
            (SPI_fnumber trigdata.tg_relation.rd_att start_name))
          (SPI_getbinval pg trigdata.tg_newtuple trigdata.tg_relation.rd_att
            (SPI_fnumber trigdata.tg_relation.rd_att start_name)).1 = .ok 0 ∧
        CompareWithInfiniteDatum
          (SPI_gettypeid trigdata.tg_relation.rd_att
            (SPI_fnumber trigdata.tg_relation.rd_att start_name))
          (SPI_getbinval pg trigdata.tg_newtuple trigdata.tg_relation.rd_att
            (SPI_fnumber trigdata.tg_relation.rd_att end_name)).1 = .ok 0))
    (hperiod : GetPeriodColumnNames pg trigdata.tg_relation "system_time" =
      .ok (start_name, end_name))
    (hnow : GetRowStart x (SPI_gettypeid trigdata.tg_relation.rd_att
      (SPI_fnumber trigdata.tg_relation.rd_att start_name)) = .ok now)
    (hlt : (SPI_getbinval pg trigdata.tg_trigtuple trigdata.tg_relation.rd_att
      (SPI_fnumber trigdata.tg_relation.rd_att start_name)).1 < now) :
    write_history pg x ⟨some trigdata⟩ db =
      write_history_archive pg x trigdata.tg_relation end_name
        (SPI_gettypeid trigdata.tg_relation.rd_att
          (SPI_fnumber trigdata.tg_relation.rd_att start_name)) trigdata.tg_trigtuple db := by
  have hclose : write_history pg x ⟨some trigdata⟩ db =
      write_history_close pg x trigdata.tg_relation
        (SPI_fnumber trigdata.tg_relation.rd_att start_name) end_name
        (SPI_gettypeid trigdata.tg_relation.rd_att
          (SPI_fnumber trigdata.tg_relation.rd_att start_name)) trigdata.tg_trigtuple false
        db := by
    rcases hop with hd | ⟨hu, hx, hc1, hc2⟩
    · rw [write_history_delete pg x trigdata db hafter hrow hd]
      exact write_history_validate_delete pg x trigdata db _ _ start_name end_name hd hperiod
    · rw [write_history_update pg x trigdata db false hafter hrow hu hx]
      exact write_history_validate_update_pass pg x trigdata db _ _ start_name end_name hu
        hperiod hc1 hc2
  rw [hclose]
  unfold write_history_close
  simp only [Bool.false_eq_true, if_false, CompareWithCurrentDatum_eq x _ now _ hnow,
    three_way_eq_zero, three_way_pos]
  have hne : ¬ (SPI_getbinval pg trigdata.tg_trigtuple trigdata.tg_relation.rd_att
      (SPI_fnumber trigdata.tg_relation.rd_att start_name)).1 = now := ne_of_lt hlt
  have hng : ¬ (SPI_getbinval pg trigdata.tg_trigtuple trigdata.tg_relation.rd_att
      (SPI_fnumber trigdata.tg_relation.rd_att start_name)).1 > now := not_lt_of_gt hlt
  rw [if_neg hne, if_neg hng]

/-! ## Columns an only-excluded UPDATE leaves alone -/

/-- The column SPI_fnumber_loop finds has the name asked for and is not dropped. -/
theorem SPI_fnumber_loop_found (fname : String) (l : TupleDesc) (res : Nat) (n : Int)
    (h : SPI_fnumber_loop fname l res = some n) :
    (l.getD (n - 1 - res).toNat default).attname = fname ∧
    (l.getD (n - 1 - res).toNat default).attisdropped = false := by
  induction l generalizing res with
  | nil => simp [SPI_fnumber_loop] at h
  | cons a rest ih =>
    simp only [SPI_fnumber_loop] at h
    split at h
    · rename_i hc
      simp only [Option.some.injEq] at h
      subst h
      have h0 : ((res : Int) + 1 - 1 - res).toNat = 0 := by omega
      rw [h0]
      simpa using hc
    · have hr := SPI_fnumber_loop_range _ _ _ _ h
      have hidx : (n - 1 - res).toNat = (n - 1 - ((res + 1 : Nat) : Int)).toNat + 1 := by
        push_cast; omega
      rw [hidx]
      simp only [List.getD_cons_succ]
      exact ih (res + 1) h

/-- A user column found by name has that name and is not dropped. -/
theorem SPI_fnumber_found (desc : TupleDesc) (fname : String) (h : 0 < SPI_fnumber desc fname) :
    (TupleDescAttr desc (SPI_fnumber desc fname - 1).toNat).attname = fname ∧
    (TupleDescAttr desc (SPI_fnumber desc fname - 1).toNat).attisdropped = false := by
  have := SPI_fnumber_loop_found fname desc 0 _ (SPI_fnumber_pos desc fname h)
  simpa [TupleDescAttr] using this

/-- When OnlyExcludedColumnsChanged answers true, a user column that is not
among the configured excluded column names reads the same in both rows. -/
theorem OnlyExcludedColumnsChanged_true_column (pg : Catalog) (rel : Relation)
    (old_row new_row : HeapTuple) (fname : String)
    (h : OnlyExcludedColumnsChanged pg rel old_row new_row = .ok true)
    (hpos : 1 ≤ SPI_fnumber rel.rd_att fname)
    (hnot : fname ∉ excludedColumnNames pg rel.rd_id) :
    SPI_getbinval pg new_row rel.rd_att (SPI_fnumber rel.rd_att fname) =
      SPI_getbinval pg old_row rel.rd_att (SPI_fnumber rel.rd_att fname) := by
  have hle := SPI_fnumber_pos_le rel.rd_att fname (by omega)
  obtain ⟨hname, hlive⟩ := SPI_fnumber_found rel.rd_att fname (by omega)
  unfold OnlyExcludedColumnsChanged at h
  simp only at h
  cases hex : excludedAttnums rel.rd_att (excludedColumnNames pg rel.rd_id) [] with
  | error e => rw [hex] at h; simp at h
  | ok ex =>
    rw [hex] at h
    simp only at h
    split at h
    · simp at h
    · simp only [Except.ok.injEq] at h
      rw [compareColumns_iff] at h
      have hcast : ((SPI_fnumber rel.rd_att fname).toNat : Int) = SPI_fnumber rel.rd_att fname := by
        omega
      have hidx : (SPI_fnumber rel.rd_att fname).toNat - 1 =
          (SPI_fnumber rel.rd_att fname - 1).toNat := by omega
      have hmem : (SPI_fnumber rel.rd_att fname).toNat ∈ List.range' 1 rel.rd_att.length := by
        rw [List.mem_range'_1]; omega
      have hnotin : (((SPI_fnumber rel.rd_att fname).toNat : Nat) : Int) ∉ ex := by
        rw [hcast, excludedAttnums_mem _ _ _ _ hex]
        rintro (h1 | ⟨name, hn, hk, _⟩)
        · simp at h1
        · have hfound := (SPI_fnumber_found rel.rd_att name (by rw [hk]; omega)).1
          rw [hk, hname] at hfound
          rw [hfound] at hnot
          exact hnot hn
      have hcol := h _ hmem (by rw [hidx]; exact hlive) hnotin
      rw [hcast] at hcol
      rw [SPI_getbinval_user pg old_row _ _ hpos hle, SPI_getbinval_user pg new_row _ _ hpos hle]
        at hcol ⊢
      have hz1 := heap_getattr_null_zero old_row (SPI_fnumber rel.rd_att fname).toNat rel.rd_att
      have hz2 := heap_getattr_null_zero new_row (SPI_fnumber rel.rd_att fname).toNat rel.rd_att
      rcases hcol with ⟨ho, hn⟩ | ⟨ho, hn, hq⟩
      · exact Prod.ext (by rw [hz1 ho, hz2 hn]) (by rw [ho, hn])
      · refine Prod.ext ?_ (by rw [ho, hn])
        unfold datumIsEqual at hq
        simp only [ite_self, beq_iff_eq] at hq
        exact hq.symm

/-! ## Facts the scenarios use -/

/-- Event 12 is BEFORE ROW INSERT, 14 BEFORE ROW UPDATE, 4 AFTER ROW INSERT,
6 AFTER ROW UPDATE, 5 AFTER ROW DELETE. -/
theorem scenario_events :
    (TRIGGER_FIRED_BEFORE 12 = true ∧ TRIGGER_FIRED_FOR_ROW 12 = true ∧
      TRIGGER_FIRED_BY_INSERT 12 = true) ∧
    (TRIGGER_FIRED_BEFORE 14 = true ∧ TRIGGER_FIRED_FOR_ROW 14 = true ∧
      TRIGGER_FIRED_BY_UPDATE 14 = true) ∧
    (TRIGGER_FIRED_AFTER 4 = true ∧ TRIGGER_FIRED_FOR_ROW 4 = true ∧
      TRIGGER_FIRED_BY_INSERT 4 = true) ∧
    (TRIGGER_FIRED_AFTER 6 = true ∧ TRIGGER_FIRED_FOR_ROW 6 = true ∧
      TRIGGER_FIRED_BY_UPDATE 6 = true) ∧
    (TRIGGER_FIRED_AFTER 5 = true ∧ TRIGGER_FIRED_FOR_ROW 5 = true ∧
      TRIGGER_FIRED_BY_DELETE 5 = true) := by
  decide

theorem OnlyExcludedColumnsChanged_no_names (pg : Catalog) (rel : Relation)
    (old_row new_row : HeapTuple) (hnone : excludedColumnNames pg rel.rd_id = []) :
    OnlyExcludedColumnsChanged pg rel old_row new_row = .ok false := by
  unfold OnlyExcludedColumnsChanged
  simp [hnone, excludedAttnums]

/-- Whether OnlyExcludedColumnsChanged raises does not depend on the rows. -/
theorem OnlyExcludedColumnsChanged_ok_indep (pg : Catalog) (rel : Relation)
    (a b a2 b2 : HeapTuple) (c : Bool)
    (h : OnlyExcludedColumnsChanged pg rel a b = .ok c) :
    ∃ c2, OnlyExcludedColumnsChanged pg rel a2 b2 = .ok c2 := by
  unfold OnlyExcludedColumnsChanged at h ⊢
  simp only at h ⊢
  cases hex : excludedAttnums rel.rd_att (excludedColumnNames pg rel.rd_id) [] with
  | error e => rw [hex] at h; simp at h
  | ok ex =>
    simp only
    split
    · exact ⟨_, rfl⟩
    · exact ⟨_, rfl⟩

theorem CompareWithCurrentDatum_now (x : Xact) (typeid : Oid) (now : Datum)
    (h : GetRowStart x typeid = .ok now) : CompareWithCurrentDatum x typeid now = .ok 0 := by
  rw [CompareWithCurrentDatum_eq x typeid now now h]
  simp

theorem CompareWithInfiniteDatum_inf (typeid : Oid) (inf : Datum)
    (h : GetRowEnd typeid = .ok inf) : CompareWithInfiniteDatum typeid inf = .ok 0 := by
  rw [CompareWithInfiniteDatum_eq typeid inf inf h]
  simp

/-- A DELETE, or an UPDATE that is not only-excluded, whose old row has the
transaction start value in the start column, is a no-op of write_history. -/
theorem write_history_same_start (pg : Catalog) (x : Xact) (trigdata : TriggerData)
    (db : DbState) (start_name end_name : String)
    (hafter : TRIGGER_FIRED_AFTER trigdata.tg_event = true)
    (hrow : TRIGGER_FIRED_FOR_ROW trigdata.tg_event = true)
    (hop : TRIGGER_FIRED_BY_DELETE trigdata.tg_event = true ∨
      (TRIGGER_FIRED_BY_UPDATE trigdata.tg_event = true ∧
        OnlyExcludedColumnsChanged pg trigdata.tg_relation trigdata.tg_trigtuple
          trigdata.tg_newtuple = .ok false ∧
        CompareWithCurrentDatum x
          (SPI_gettypeid trigdata.tg_relation.rd_att
            (SPI_fnumber trigdata.tg_relation.rd_att start_name))
          (SPI_getbinval pg trigdata.tg_newtuple trigdata.tg_relation.rd_att
            (SPI_fnumber trigdata.tg_relation.rd_att start_name)).1 = .ok 0 ∧
        CompareWithInfiniteDatum
          (SPI_gettypeid trigdata.tg_relation.rd_att
            (SPI_fnumber trigdata.tg_relation.rd_att start_name))
          (SPI_getbinval pg trigdata.tg_newtuple trigdata.tg_relation.rd_att
            (SPI_fnumber trigdata.tg_relation.rd_att end_name)).1 = .ok 0))
    (hperiod : GetPeriodColumnNames pg trigdata.tg_relation "system_time" =
      .ok (start_name, end_name))
    (hcmp : CompareWithCurrentDatum x
      (SPI_gettypeid trigdata.tg_relation.rd_att
        (SPI_fnumber trigdata.tg_relation.rd_att start_name))
      (SPI_getbinval pg trigdata.tg_trigtuple trigdata.tg_relation.rd_att
        (SPI_fnumber trigdata.tg_relation.rd_att start_name)).1 = .ok 0) :
    write_history pg x ⟨some trigdata⟩ db = (.ok (), db) := by
  have hclose : write_history pg x ⟨some trigdata⟩ db =
      write_history_close pg x trigdata.tg_relation
        (SPI_fnumber trigdata.tg_relation.rd_att start_name) end_name
        (SPI_gettypeid trigdata.tg_relation.rd_att
          (SPI_fnumber trigdata.tg_relation.rd_att start_name)) trigdata.tg_trigtuple false
        db := by
    rcases hop with hd | ⟨hu, hx, hc1, hc2⟩
    · rw [write_history_delete pg x trigdata db hafter hrow hd]
      exact write_history_validate_delete pg x trigdata db _ _ start_name end_name hd hperiod
    · rw [write_history_update pg x trigdata db false hafter hrow hu hx]
      exact write_history_validate_update_pass pg x trigdata db _ _ start_name end_name hu
        hperiod hc1 hc2
  rw [hclose]
  unfold write_history_close
  simp [hcmp]

/-- An UPDATE classified as only-excluded is a no-op of write_history. -/
theorem write_history_only_excluded (pg : Catalog) (x : Xact) (trigdata : TriggerData)
    (db : DbState) (start_name end_name : String)
    (hafter : TRIGGER_FIRED_AFTER trigdata.tg_event = true)
    (hrow : TRIGGER_FIRED_FOR_ROW trigdata.tg_event = true)
    (hu : TRIGGER_FIRED_BY_UPDATE trigdata.tg_event = true)
    (hx : OnlyExcludedColumnsChanged pg trigdata.tg_relation trigdata.tg_trigtuple
      trigdata.tg_newtuple = .ok true)
    (hperiod : GetPeriodColumnNames pg trigdata.tg_relation "system_time" =
      .ok (start_name, end_name)) :
    write_history pg x ⟨some trigdata⟩ db = (.ok (), db) := by
  rw [write_history_update pg x _ db true hafter hrow hu hx]
  unfold write_history_validate write_history_close
  simp [hperiod, not_insert_of_update _ hu]

/-- An UPDATE classified as only-excluded leaves the BEFORE ROW trigger with
the new row as it came. -/
theorem generated_always_only_excluded (pg : Catalog) (x : Xact) (trigdata : TriggerData)
    (hbefore : TRIGGER_FIRED_BEFORE trigdata.tg_event = true)
    (hrow : TRIGGER_FIRED_FOR_ROW trigdata.tg_event = true)
    (hu : TRIGGER_FIRED_BY_UPDATE trigdata.tg_event = true)
    (hx : OnlyExcludedColumnsChanged pg trigdata.tg_relation trigdata.tg_trigtuple
      trigdata.tg_newtuple = .ok true) :
    generated_always_as_row_start_end pg x ⟨some trigdata⟩ = .ok trigdata.tg_newtuple := by
  unfold generated_always_as_row_start_end
  simp [hbefore, hrow, hu, not_insert_of_update _ hu, hx]

/-! ## C1: the BEFORE ROW trigger stamps the period columns -/

/-- C1. For every INSERT, and every UPDATE that OnlyExcludedColumnsChanged
does not classify as only-excluded, on a table whose two system_time period
columns have a supported type, generated_always_as_row_start_end returns a
row whose start column holds GetRowStart of the type and whose end column
holds GetRowEnd of the type, both not null, whatever the incoming row held
there. -/
theorem C1_generated_always_stamps_period (pg : Catalog) (x : Xact) (trigdata : TriggerData)
    (start_name end_name : String)
    (hbefore : TRIGGER_FIRED_BEFORE trigdata.tg_event = true)
    (hrow : TRIGGER_FIRED_FOR_ROW trigdata.tg_event = true)
    (hop : TRIGGER_FIRED_BY_INSERT trigdata.tg_event = true ∨
      (TRIGGER_FIRED_BY_UPDATE trigdata.tg_event = true ∧
        OnlyExcludedColumnsChanged pg trigdata.tg_relation trigdata.tg_trigtuple
          trigdata.tg_newtuple = .ok false))
    (hperiod : GetPeriodColumnNames pg trigdata.tg_relation "system_time" =
      .ok (start_name, end_name))
    (hstype : SupportedType (SPI_gettypeid trigdata.tg_relation.rd_att
      (SPI_fnumber trigdata.tg_relation.rd_att start_name)))
    (hetype : SupportedType (SPI_gettypeid trigdata.tg_relation.rd_att
      (SPI_fnumber trigdata.tg_relation.rd_att end_name)))
    (hne : SPI_fnumber trigdata.tg_relation.rd_att start_name ≠
      SPI_fnumber trigdata.tg_relation.rd_att end_name) :
    ∃ row now inf,
      generated_always_as_row_start_end pg x ⟨some trigdata⟩ = .ok row ∧
      GetRowStart x (SPI_gettypeid trigdata.tg_relation.rd_att
        (SPI_fnumber trigdata.tg_relation.rd_att start_name)) = .ok now ∧
      GetRowEnd (SPI_gettypeid trigdata.tg_relation.rd_att
        (SPI_fnumber trigdata.tg_relation.rd_att start_name)) = .ok inf ∧
      SPI_getbinval pg row trigdata.tg_relation.rd_att
        (SPI_fnumber trigdata.tg_relation.rd_att start_name) = (now, false) ∧
      SPI_getbinval pg row trigdata.tg_relation.rd_att
        (SPI_fnumber trigdata.tg_relation.rd_att end_name) = (inf, false) := by
  obtain ⟨now, hnow⟩ := SupportedType_GetRowStart x _ hstype
  obtain ⟨inf, hinf⟩ := SupportedType_GetRowEnd _ hstype
  obtain ⟨hs1, hs2⟩ := SupportedType_fnumber_range _ _ hstype
  obtain ⟨he1, he2⟩ := SupportedType_fnumber_range _ _ hetype
  have hlen := heap_deform_tuple_length
  have hop2 : ∃ new_row,
      (TRIGGER_FIRED_BY_INSERT trigdata.tg_event = true ∧ new_row = trigdata.tg_trigtuple) ∨
      (TRIGGER_FIRED_BY_UPDATE trigdata.tg_event = true ∧ new_row = trigdata.tg_newtuple ∧
        OnlyExcludedColumnsChanged pg trigdata.tg_relation trigdata.tg_trigtuple
          trigdata.tg_newtuple = .ok false) := by
    rcases hop with hi | ⟨hu, hx⟩
    · exact ⟨_, Or.inl ⟨hi, rfl⟩⟩
    · exact ⟨_, Or.inr ⟨hu, rfl, hx⟩⟩
  obtain ⟨new_row, hop3⟩ := hop2
  refine ⟨_, now, inf, generated_always_stamps pg x trigdata new_row start_name end_name now inf
    hbefore hrow hop3 hperiod hnow hinf he1 he2 hs1 hs2, hnow, hinf, ?_, ?_⟩
  · exact SPI_getbinval_stamped_first pg _ _ _ _ _ now inf false (hlen _ _).1 (hlen _ _).2
      hs1 hs2 he1 hne
  · exact SPI_getbinval_stamped_last pg _ _ _ _ _ now inf false (hlen _ _).1 (hlen _ _).2
      he1 he2

/-- C1 at an INSERT into the sample table that supplies a null start and an
arbitrary end. -/
theorem C1_generated_always_stamps_period_witness :
    ∃ row now inf,
      generated_always_as_row_start_end sampleCatalog ⟨700, 701, 702⟩
        ⟨some { tg_event := 12, tg_relation := sampleRel,
                tg_trigtuple := [some 1, none, none, some 5] }⟩ = .ok row ∧
      GetRowStart ⟨700, 701, 702⟩ (SPI_gettypeid sampleRel.rd_att
        (SPI_fnumber sampleRel.rd_att "s")) = .ok now ∧
      GetRowEnd (SPI_gettypeid sampleRel.rd_att (SPI_fnumber sampleRel.rd_att "s")) = .ok inf ∧
      SPI_getbinval sampleCatalog row sampleRel.rd_att (SPI_fnumber sampleRel.rd_att "s") =
        (now, false) ∧
      SPI_getbinval sampleCatalog row sampleRel.rd_att (SPI_fnumber sampleRel.rd_att "e") =
        (inf, false) :=
  C1_generated_always_stamps_period sampleCatalog ⟨700, 701, 702⟩
    { tg_event := 12, tg_relation := sampleRel, tg_trigtuple := [some 1, none, none, some 5] }
    "s" "e" (by decide) (by decide) (Or.inl (by decide)) (by decide) (by decide) (by decide)
    (by decide)

/-! ## C2: the validation of the period columns by write_history -/

/-- C2, as the claim states it, fails: on an INSERT in a transaction whose
start value is 0 (2000-01-01 00:00:00 UTC), a new row whose start column is
null, hence is not the transaction start value, passes the validation and
write_history returns without an error (the null flag SPI_getbinval reports
is discarded and the zero datum of the null is compared). -/
theorem C2_null_start_passes_validation :
    SPI_getbinval sampleCatalog [some 1, none, none, some DT_NOEND] sampleRel.rd_att
      (SPI_fnumber sampleRel.rd_att "s") = (0, true) ∧
    GetRowStart ⟨0, 0, 0⟩ (SPI_gettypeid sampleRel.rd_att (SPI_fnumber sampleRel.rd_att "s")) =
      .ok 0 ∧
    write_history sampleCatalog ⟨0, 0, 0⟩
      ⟨some { tg_event := 4, tg_relation := sampleRel,
              tg_trigtuple := [some 1, none, none, some DT_NOEND] }⟩ {} = (.ok (), {}) := by
  decide

/-- C2, amended. For every INSERT, and every UPDATE not classified as
only-excluded, whose new row has non-null period columns holding `s` (start)
and `e` (end): write_history raises the generated-always error if and only if
`s` is not the transaction start value or `e` is not the infinity value; the
error names the start column when the start mismatches and the end column when
only the end mismatches; and the database state is left as it was (no history
row is inserted) when it is raised. -/
theorem C2_validation_rejects_written_period (pg : Catalog) (x : Xact) (trigdata : TriggerData)
    (db : DbState) (new_row : HeapTuple) (start_name end_name : String) (now inf s e : Datum)
    (hafter : TRIGGER_FIRED_AFTER trigdata.tg_event = true)
    (hrow : TRIGGER_FIRED_FOR_ROW trigdata.tg_event = true)
    (hop : (TRIGGER_FIRED_BY_INSERT trigdata.tg_event = true ∧ new_row = trigdata.tg_trigtuple) ∨
      (TRIGGER_FIRED_BY_UPDATE trigdata.tg_event = true ∧ new_row = trigdata.tg_newtuple ∧
        OnlyExcludedColumnsChanged pg trigdata.tg_relation trigdata.tg_trigtuple
          trigdata.tg_newtuple = .ok false))
    (hperiod : GetPeriodColumnNames pg trigdata.tg_relation "system_time" =
      .ok (start_name, end_name))
    (hnow : GetRowStart x (SPI_gettypeid trigdata.tg_relation.rd_att
      (SPI_fnumber trigdata.tg_relation.rd_att start_name)) = .ok now)
    (hinf : GetRowEnd (SPI_gettypeid trigdata.tg_relation.rd_att
      (SPI_fnumber trigdata.tg_relation.rd_att start_name)) = .ok inf)
    (hs : SPI_getbinval pg new_row trigdata.tg_relation.rd_att
      (SPI_fnumber trigdata.tg_relation.rd_att start_name) = (s, false))
    (he : SPI_getbinval pg new_row trigdata.tg_relation.rd_att
      (SPI_fnumber trigdata.tg_relation.rd_att end_name) = (e, false)) :
    ((∃ col detail, (write_history pg x ⟨some trigdata⟩ db).1 =
        .error (.generatedAlways col detail)) ↔ (s ≠ now ∨ e ≠ inf)) ∧
    (s ≠ now → write_history pg x ⟨some trigdata⟩ db =
      (.error (.generatedAlways start_name "ROW START"), db)) ∧
    (s = now → e ≠ inf → write_history pg x ⟨some trigdata⟩ db =
      (.error (.generatedAlways end_name "ROW END"), db)) := by
  have hop2 : TRIGGER_FIRED_BY_INSERT trigdata.tg_event = true ∨
      TRIGGER_FIRED_BY_UPDATE trigdata.tg_event = true := by
    rcases hop with h | h
    · exact Or.inl h.1
    · exact Or.inr h.1
  have hw : write_history pg x ⟨some trigdata⟩ db =
      write_history_validate pg x trigdata
        (if TRIGGER_FIRED_BY_INSERT trigdata.tg_event then [] else trigdata.tg_trigtuple)
        new_row false db := by
    rcases hop with ⟨hi, hn⟩ | ⟨hu, hn, hx⟩
    · subst hn; rw [write_history_insert pg x trigdata db hafter hrow hi]; simp [hi]
    · subst hn
      rw [write_history_update pg x trigdata db false hafter hrow hu hx]
      simp [not_insert_of_update _ hu]
  rw [hw, write_history_validate_cases pg x trigdata db _ new_row start_name end_name now inf
    hop2 hperiod hnow hinf, hs, he]
  simp only
  refine ⟨?_, ?_, ?_⟩
  · constructor
    · rintro ⟨col, detail, h⟩
      by_contra hcon
      push_neg at hcon
      simp only [hcon.1, hcon.2, ne_eq, not_true_eq_false, if_false] at h
      split at h
      · simp at h
      · exact write_history_close_not_generatedAlways _ _ _ _ _ _ _ _ _ _ _ h
    · intro h
      by_cases h1 : s = now
      · have h2 : e ≠ inf := by
          rcases h with h | h
          · exact absurd h1 h
          · exact h
        exact ⟨end_name, "ROW END", by simp [h1, h2]⟩
      · exact ⟨start_name, "ROW START", by simp [h1]⟩
  · intro h1; simp [h1]
  · intro h1 h2; simp [h1, h2]

/-- C2 (amended) at an UPDATE of the sample table whose new row carries a
written end column (999 instead of infinity): the error is raised, for the end
column, and nothing is inserted. -/
theorem C2_validation_rejects_written_period_witness :
    (∃ col detail, (write_history sampleCatalog ⟨700, 701, 702⟩
        ⟨some { tg_event := 6, tg_relation := sampleRel,
                tg_trigtuple := [some 1, some 10, some 500, some DT_NOEND],
                tg_newtuple := [some 1, some 10, some 700, some 999] }⟩ {}).1 =
        .error (.generatedAlways col detail)) ∧
    write_history sampleCatalog ⟨700, 701, 702⟩
        ⟨some { tg_event := 6, tg_relation := sampleRel,
                tg_trigtuple := [some 1, some 10, some 500, some DT_NOEND],
                tg_newtuple := [some 1, some 10, some 700, some 999] }⟩ {} =
      (.error (.generatedAlways "e" "ROW END"), {}) :=
  have h := C2_validation_rejects_written_period sampleCatalog ⟨700, 701, 702⟩
    { tg_event := 6, tg_relation := sampleRel,
      tg_trigtuple := [some 1, some 10, some 500, some DT_NOEND],
      tg_newtuple := [some 1, some 10, some 700, some 999] } {}
    [some 1, some 10, some 700, some 999] "s" "e" 700 DT_NOEND 700 999
    (by decide) (by decide) (Or.inr ⟨by decide, rfl, by decide⟩) (by decide) (by decide)
    (by decide) (by decide) (by decide)
  ⟨h.1.mpr (Or.inr (by decide)), h.2.2 rfl (by decide)⟩

/-! ## C3: the invalid row version error -/

/-- C3, as the claim states it, fails: an UPDATE that changes only the
excluded column `last_login` of a row whose start (900) is greater than the
transaction start (700) is classified as only-excluded, and write_history
returns without an error. -/
theorem C3_only_excluded_update_raises_nothing :
    SPI_getbinval sampleCatalogExcluded [some 1, some 10, some 900, some DT_NOEND]
      sampleRel.rd_att (SPI_fnumber sampleRel.rd_att "s") = (900, false) ∧
    GetRowStart ⟨700, 701, 702⟩
      (SPI_gettypeid sampleRel.rd_att (SPI_fnumber sampleRel.rd_att "s")) = .ok 700 ∧
    OnlyExcludedColumnsChanged sampleCatalogExcluded sampleRel
      [some 1, some 10, some 900, some DT_NOEND] [some 1, some 20, some 900, some DT_NOEND] =
      .ok true ∧
    write_history sampleCatalogExcluded ⟨700, 701, 702⟩
      ⟨some { tg_event := 6, tg_relation := sampleRel,
              tg_trigtuple := [some 1, some 10, some 900, some DT_NOEND],
              tg_newtuple := [some 1, some 20, some 900, some DT_NOEND] }⟩ {} = (.ok (), {}) := by
  decide

/-- C3, amended. Given a row whose old start value is greater than the
transaction start value, every DELETE, and every UPDATE that is not classified
as only-excluded and whose new row passes the validation of the period
columns, raises the invalid row version error in write_history and leaves the
database state as it was (no history row is inserted). -/
theorem C3_later_start_is_invalid_row_version (pg : Catalog) (x : Xact)
    (trigdata : TriggerData) (db : DbState) (start_name end_name : String) (now v : Datum)
    (hafter : TRIGGER_FIRED_AFTER trigdata.tg_event = true)
    (hrow : TRIGGER_FIRED_FOR_ROW trigdata.tg_event = true)
    (hop : TRIGGER_FIRED_BY_DELETE trigdata.tg_event = true ∨
      (TRIGGER_FIRED_BY_UPDATE trigdata.tg_event = true ∧
        OnlyExcludedColumnsChanged pg trigdata.tg_relation trigdata.tg_trigtuple
          trigdata.tg_newtuple = .ok false ∧
        CompareWithCurrentDatum x
          (SPI_gettypeid trigdata.tg_relation.rd_att
            (SPI_fnumber trigdata.tg_relation.rd_att start_name))
          (SPI_getbinval pg trigdata.tg_newtuple trigdata.tg_relation.rd_att
            (SPI_fnumber trigdata.tg_relation.rd_att start_name)).1 = .ok 0 ∧
        CompareWithInfiniteDatum
          (SPI_gettypeid trigdata.tg_relation.rd_att
            (SPI_fnumber trigdata.tg_relation.rd_att start_name))
          (SPI_getbinval pg trigdata.tg_newtuple trigdata.tg_relation.rd_att
            (SPI_fnumber trigdata.tg_relation.rd_att end_name)).1 = .ok 0))
    (hperiod : GetPeriodColumnNames pg trigdata.tg_relation "system_time" =
      .ok (start_name, end_name))
    (hnow : GetRowStart x (SPI_gettypeid trigdata.tg_relation.rd_att
      (SPI_fnumber trigdata.tg_relation.rd_att start_name)) = .ok now)
    (hold : SPI_getbinval pg trigdata.tg_trigtuple trigdata.tg_relation.rd_att
      (SPI_fnumber trigdata.tg_relation.rd_att start_name) = (v, false))
    (hgt : v > now) :
    write_history pg x ⟨some trigdata⟩ db = (.error .invalidRowVersion, db) := by
  have hclose : write_history pg x ⟨some trigdata⟩ db =
      write_history_close pg x trigdata.tg_relation
        (SPI_fnumber trigdata.tg_relation.rd_att start_name) end_name
        (SPI_gettypeid trigdata.tg_relation.rd_att
          (SPI_fnumber trigdata.tg_relation.rd_att start_name)) trigdata.tg_trigtuple false
        db := by
    rcases hop with hd | ⟨hu, hx, hc1, hc2⟩
    · rw [write_history_delete pg x trigdata db hafter hrow hd]
      exact write_history_validate_delete pg x trigdata db _ _ start_name end_name hd hperiod
    · rw [write_history_update pg x trigdata db false hafter hrow hu hx]
      exact write_history_validate_update_pass pg x trigdata db _ _ start_name end_name hu
        hperiod hc1 hc2
  rw [hclose]
  unfold write_history_close
  simp only [Bool.false_eq_true, if_false, CompareWithCurrentDatum_eq x _ now _ hnow, hold,
    three_way_eq_zero, three_way_pos]
  have hne : ¬ v = now := by
    intro h
    rw [h] at hgt
    exact lt_irrefl _ hgt
  rw [if_neg hne, if_pos hgt]

/-- C3 (amended) at a DELETE of a row of the sample table opened at 900 by a
transaction that started at 700. -/
theorem C3_later_start_is_invalid_row_version_witness :
    write_history sampleCatalog ⟨700, 701, 702⟩
      ⟨some { tg_event := 5, tg_relation := sampleRel,
              tg_trigtuple := [some 1, some 10, some 900, some DT_NOEND] }⟩ {} =
      (.error .invalidRowVersion, {}) :=
  C3_later_start_is_invalid_row_version sampleCatalog ⟨700, 701, 702⟩
    { tg_event := 5, tg_relation := sampleRel,
      tg_trigtuple := [some 1, some 10, some 900, some DT_NOEND] } {} "s" "e" 700 900
    (by decide) (by decide) (Or.inl (by decide)) (by decide) (by decide) (by decide)
    (by decide)

/-! ## C4: a row opened by this transaction is not archived -/

/-- C4. For every DELETE, and every UPDATE that is not only-excluded and
passed the validation of the period columns, if the comparison of the old
row's start column with the transaction start value gives 0, write_history
returns successfully and leaves the database state as it was (no history row
is inserted), whatever the catalog says about a history table. -/
theorem C4_same_start_is_no_op (pg : Catalog) (x : Xact) (trigdata : TriggerData)
    (db : DbState) (start_name end_name : String)
    (hafter : TRIGGER_FIRED_AFTER trigdata.tg_event = true)
    (hrow : TRIGGER_FIRED_FOR_ROW trigdata.tg_event = true)
    (hop : TRIGGER_FIRED_BY_DELETE trigdata.tg_event = true ∨
      (TRIGGER_FIRED_BY_UPDATE trigdata.tg_event = true ∧
        OnlyExcludedColumnsChanged pg trigdata.tg_relation trigdata.tg_trigtuple
          trigdata.tg_newtuple = .ok false ∧
        CompareWithCurrentDatum x
          (SPI_gettypeid trigdata.tg_relation.rd_att
            (SPI_fnumber trigdata.tg_relation.rd_att start_name))
          (SPI_getbinval pg trigdata.tg_newtuple trigdata.tg_relation.rd_att
            (SPI_fnumber trigdata.tg_relation.rd_att start_name)).1 = .ok 0 ∧
        CompareWithInfiniteDatum
          (SPI_gettypeid trigdata.tg_relation.rd_att
            (SPI_fnumber trigdata.tg_relation.rd_att start_name))
          (SPI_getbinval pg trigdata.tg_newtuple trigdata.tg_relation.rd_att
            (SPI_fnumber trigdata.tg_relation.rd_att end_name)).1 = .ok 0))
    (hperiod : GetPeriodColumnNames pg trigdata.tg_relation "system_time" =
      .ok (start_name, end_name))
    (hcmp : CompareWithCurrentDatum x
      (SPI_gettypeid trigdata.tg_relation.rd_att
        (SPI_fnumber trigdata.tg_relation.rd_att start_name))
      (SPI_getbinval pg trigdata.tg_trigtuple trigdata.tg_relation.rd_att
        (SPI_fnumber trigdata.tg_relation.rd_att start_name)).1 = .ok 0) :
    write_history pg x ⟨some trigdata⟩ db = (.ok (), db) :=
  write_history_same_start pg x trigdata db start_name end_name hafter hrow hop hperiod hcmp

/-- C4 at an UPDATE of the sample table (which has a history table) in the
transaction that opened the row. -/
theorem C4_same_start_is_no_op_witness :
    write_history sampleCatalog ⟨700, 701, 702⟩
      ⟨some { tg_event := 6, tg_relation := sampleRel,
              tg_trigtuple := [some 1, some 10, some 700, some DT_NOEND],
              tg_newtuple := [some 2, some 10, some 700, some DT_NOEND] }⟩ {} = (.ok (), {}) :=
  C4_same_start_is_no_op sampleCatalog ⟨700, 701, 702⟩
    { tg_event := 6, tg_relation := sampleRel,
      tg_trigtuple := [some 1, some 10, some 700, some DT_NOEND],
      tg_newtuple := [some 2, some 10, some 700, some DT_NOEND] } {} "s" "e"
    (by decide) (by decide) (Or.inr ⟨by decide, by decide, by decide, by decide⟩) (by decide)
    (by decide)

/-! ## C7 and C8: OnlyExcludedColumnsChanged -/

/-- C7. When no excluded columns are configured for the table (the query for
the excluded column names returns no row), OnlyExcludedColumnsChanged returns
false for every pair of old and new rows, identical pairs included. -/
theorem C7_no_excluded_columns_is_false (pg : Catalog) (rel : Relation)
    (old_row new_row : HeapTuple)
    (hnone : excludedColumnNames pg rel.rd_id = []) :
    OnlyExcludedColumnsChanged pg rel old_row new_row = .ok false ∧
    OnlyExcludedColumnsChanged pg rel old_row old_row = .ok false := by
  exact ⟨OnlyExcludedColumnsChanged_no_names pg rel old_row new_row hnone,
    OnlyExcludedColumnsChanged_no_names pg rel old_row old_row hnone⟩

/-- C7 at the sample table, whose catalog row lists no excluded column. -/
theorem C7_no_excluded_columns_is_false_witness :
    OnlyExcludedColumnsChanged sampleCatalog sampleRel
      [some 1, some 10, some 500, some DT_NOEND] [some 1, some 20, some 500, some DT_NOEND] =
      .ok false ∧
    OnlyExcludedColumnsChanged sampleCatalog sampleRel
      [some 1, some 10, some 500, some DT_NOEND] [some 1, some 10, some 500, some DT_NOEND] =
      .ok false :=
  C7_no_excluded_columns_is_false sampleCatalog sampleRel
    [some 1, some 10, some 500, some DT_NOEND] [some 1, some 20, some 500, some DT_NOEND]
    (by decide)

/-- C8. When the set of excluded attribute numbers the function builds is
non-empty, OnlyExcludedColumnsChanged returns true if and only if every column
that is neither dropped nor in that set is equal between the old and the new
row, where two nulls are equal, a null and a non-null are unequal, and two
non-nulls are compared by datumIsEqual.  The set holds exactly the attribute
numbers of the configured excluded column names. -/
theorem C8_true_iff_other_columns_equal (pg : Catalog) (rel : Relation)
    (old_row new_row : HeapTuple) (ex : Bitmapset)
    (hex : excludedAttnums rel.rd_att (excludedColumnNames pg rel.rd_id) [] = .ok ex)
    (hne : ex ≠ []) :
    (∀ k : Int, k ∈ ex ↔
      ∃ name ∈ excludedColumnNames pg rel.rd_id, SPI_fnumber rel.rd_att name = k ∧ 0 ≤ k) ∧
    ∃ b, OnlyExcludedColumnsChanged pg rel old_row new_row = .ok b ∧
      (b = true ↔
        ∀ i : Nat, 1 ≤ i → i ≤ rel.rd_att.length →
          (TupleDescAttr rel.rd_att (i - 1)).attisdropped = false → (i : Int) ∉ ex →
          ((SPI_getbinval pg old_row rel.rd_att i).2 = true ∧
            (SPI_getbinval pg new_row rel.rd_att i).2 = true) ∨
          ((SPI_getbinval pg old_row rel.rd_att i).2 = false ∧
            (SPI_getbinval pg new_row rel.rd_att i).2 = false ∧
            datumIsEqual (SPI_getbinval pg old_row rel.rd_att i).1
              (SPI_getbinval pg new_row rel.rd_att i).1
              (TupleDescAttr rel.rd_att (i - 1)).attbyval
              (TupleDescAttr rel.rd_att (i - 1)).attlen = true)) := by
  refine ⟨fun k => ?_, ?_⟩
  · rw [excludedAttnums_mem _ _ _ _ hex k]
    simp
  · unfold OnlyExcludedColumnsChanged
    simp only [hex, hne, if_false]
    refine ⟨_, rfl, ?_⟩
    rw [compareColumns_iff]
    constructor
    · intro h i h1 h2
      exact h i (by rw [List.mem_range'_1]; omega)
    · intro h i hi
      rw [List.mem_range'_1] at hi
      exact h i hi.1 (by omega)

/-- C8 at the sample table with `last_login` excluded. -/
theorem C8_true_iff_other_columns_equal_witness :
    (∀ k : Int, k ∈ [(2 : Int)] ↔
      ∃ name ∈ excludedColumnNames sampleCatalogExcluded sampleRel.rd_id,
        SPI_fnumber sampleRel.rd_att name = k ∧ 0 ≤ k) ∧
    ∃ b, OnlyExcludedColumnsChanged sampleCatalogExcluded sampleRel
        [some 1, some 10, some 500, some DT_NOEND] [some 1, some 20, some 500, some DT_NOEND] =
        .ok b ∧
      (b = true ↔
        ∀ i : Nat, 1 ≤ i → i ≤ sampleRel.rd_att.length →
          (TupleDescAttr sampleRel.rd_att (i - 1)).attisdropped = false →
          (i : Int) ∉ [(2 : Int)] →
          ((SPI_getbinval sampleCatalogExcluded [some 1, some 10, some 500, some DT_NOEND]
              sampleRel.rd_att i).2 = true ∧
            (SPI_getbinval sampleCatalogExcluded [some 1, some 20, some 500, some DT_NOEND]
              sampleRel.rd_att i).2 = true) ∨
          ((SPI_getbinval sampleCatalogExcluded [some 1, some 10, some 500, some DT_NOEND]
              sampleRel.rd_att i).2 = false ∧
            (SPI_getbinval sampleCatalogExcluded [some 1, some 20, some 500, some DT_NOEND]
              sampleRel.rd_att i).2 = false ∧
            datumIsEqual
              (SPI_getbinval sampleCatalogExcluded [some 1, some 10, some 500, some DT_NOEND]
                sampleRel.rd_att i).1
              (SPI_getbinval sampleCatalogExcluded [some 1, some 20, some 500, some DT_NOEND]
                sampleRel.rd_att i).1
              (TupleDescAttr sampleRel.rd_att (i - 1)).attbyval
              (TupleDescAttr sampleRel.rd_att (i - 1)).attlen = true)) :=
  C8_true_iff_other_columns_equal sampleCatalogExcluded sampleRel
    [some 1, some 10, some 500, some DT_NOEND] [some 1, some 20, some 500, some DT_NOEND] [2]
    (by decide) (by decide)

/-! ## C5: the archived row when the history table has the same layout -/

/-- C5. For every DELETE, and every UPDATE that is not only-excluded and
passed the validation, with the old row's start before the transaction start,
a history table associated and having the tuple descriptor of the versioned
table (whose live columns have distinct names, the end column among them):
write_history gives exactly one row to the INSERT into the history table; that
row holds the transaction start value, not null, in the period end column and
equals the old row in every other column (every attribute that is not
dropped). -/
theorem C5_archives_old_row_closed (pg : Catalog) (x : Xact) (trigdata : TriggerData)
    (db : DbState) (start_name end_name : String) (now : Datum) (history_rel : Relation)
    (hafter : TRIGGER_FIRED_AFTER trigdata.tg_event = true)
    (hrow : TRIGGER_FIRED_FOR_ROW trigdata.tg_event = true)
    (hop : TRIGGER_FIRED_BY_DELETE trigdata.tg_event = true ∨
      (TRIGGER_FIRED_BY_UPDATE trigdata.tg_event = true ∧
        OnlyExcludedColumnsChanged pg trigdata.tg_relation trigdata.tg_trigtuple
          trigdata.tg_newtuple = .ok false ∧
        CompareWithCurrentDatum x
          (SPI_gettypeid trigdata.tg_relation.rd_att
            (SPI_fnumber trigdata.tg_relation.rd_att start_name))
          (SPI_getbinval pg trigdata.tg_newtuple trigdata.tg_relation.rd_att
            (SPI_fnumber trigdata.tg_relation.rd_att start_name)).1 = .ok 0 ∧
        CompareWithInfiniteDatum
          (SPI_gettypeid trigdata.tg_relation.rd_att
            (SPI_fnumber trigdata.tg_relation.rd_att start_name))
          (SPI_getbinval pg trigdata.tg_newtuple trigdata.tg_relation.rd_att
            (SPI_fnumber trigdata.tg_relation.rd_att end_name)).1 = .ok 0))
    (hperiod : GetPeriodColumnNames pg trigdata.tg_relation "system_time" =
      .ok (start_name, end_name))
    (hnow : GetRowStart x (SPI_gettypeid trigdata.tg_relation.rd_att
      (SPI_fnumber trigdata.tg_relation.rd_att start_name)) = .ok now)
    (hlt : (SPI_getbinval pg trigdata.tg_trigtuple trigdata.tg_relation.rd_att
      (SPI_fnumber trigdata.tg_relation.rd_att start_name)).1 < now)
    (hhist : OidIsValid (GetHistoryTable pg trigdata.tg_relation) = true)
    (hopen : table_open pg (GetHistoryTable pg trigdata.tg_relation) = .ok history_rel)
    (hsame : history_rel.rd_att = trigdata.tg_relation.rd_att)
    (hnames : ∀ i : Nat, i < trigdata.tg_relation.rd_att.length →
      (TupleDescAttr trigdata.tg_relation.rd_att i).attisdropped = false →
      SPI_fnumber trigdata.tg_relation.rd_att
        (TupleDescAttr trigdata.tg_relation.rd_att i).attname = (i : Int) + 1)
    (hend : 1 ≤ SPI_fnumber trigdata.tg_relation.rd_att end_name) :
    ∃ cache plan hist,
      write_history pg x ⟨some trigdata⟩ db =
        (.ok (), { InsertHistoryPlanHash := cache
                   inserted := db.inserted ++ [(plan, hist)] }) ∧
      (plan = { schemaname := history_rel.nspname, tablename := history_rel.relname } ∨
        ∃ h, (db.InsertHistoryPlanHash.getD []).find?
            (fun h => h.history_relid = history_rel.rd_id) = some h ∧
          h.schemaname ≠ history_rel.nspname ∧ h.tablename ≠ history_rel.relname ∧
          plan = h.qplan) ∧
      SPI_getbinval pg hist trigdata.tg_relation.rd_att
        (SPI_fnumber trigdata.tg_relation.rd_att end_name) = (now, false) ∧
      ∀ n : Int, 1 ≤ n → n ≤ (trigdata.tg_relation.rd_att.length : Int) →
        n ≠ SPI_fnumber trigdata.tg_relation.rd_att end_name →
        (TupleDescAttr trigdata.tg_relation.rd_att (n - 1).toNat).attisdropped = false →
        SPI_getbinval pg hist trigdata.tg_relation.rd_att n =
          SPI_getbinval pg trigdata.tg_trigtuple trigdata.tg_relation.rd_att n := by
  rw [write_history_reaches_archive pg x trigdata db start_name end_name now hafter hrow hop
    hperiod hnow hlt]
  exact write_history_archive_same_layout pg x trigdata.tg_relation end_name _
    trigdata.tg_trigtuple db now history_rel hhist hopen hsame hnames hnow hend

/-- C5 at a DELETE from the sample table of a row opened at 500, in a
transaction that started at 700. -/
theorem C5_archives_old_row_closed_witness :
    ∃ cache plan hist,
      write_history sampleCatalog ⟨700, 701, 702⟩
        ⟨some { tg_event := 5, tg_relation := sampleRel,
                tg_trigtuple := [some 1, none, some 500, some DT_NOEND] }⟩ {} =
        (.ok (), { InsertHistoryPlanHash := cache
                   inserted := ({} : DbState).inserted ++ [(plan, hist)] }) ∧
      (plan = { schemaname := sampleHistoryRel.nspname
                tablename := sampleHistoryRel.relname } ∨
        ∃ h, (({} : DbState).InsertHistoryPlanHash.getD []).find?
            (fun h => h.history_relid = sampleHistoryRel.rd_id) = some h ∧
          h.schemaname ≠ sampleHistoryRel.nspname ∧ h.tablename ≠ sampleHistoryRel.relname ∧
          plan = h.qplan) ∧
      SPI_getbinval sampleCatalog hist sampleRel.rd_att (SPI_fnumber sampleRel.rd_att "e") =
        (700, false) ∧
      ∀ n : Int, 1 ≤ n → n ≤ (sampleRel.rd_att.length : Int) →
        n ≠ SPI_fnumber sampleRel.rd_att "e" →
        (TupleDescAttr sampleRel.rd_att (n - 1).toNat).attisdropped = false →
        SPI_getbinval sampleCatalog hist sampleRel.rd_att n =
          SPI_getbinval sampleCatalog [some 1, none, some 500, some DT_NOEND]
            sampleRel.rd_att n :=
  C5_archives_old_row_closed sampleCatalog ⟨700, 701, 702⟩
    { tg_event := 5, tg_relation := sampleRel,
      tg_trigtuple := [some 1, none, some 500, some DT_NOEND] } {} "s" "e" 700
    sampleHistoryRel (by decide) (by decide) (Or.inl (by decide)) (by decide) (by decide)
    (by decide) (by decide) (by decide) (by decide) (by decide) (by decide)

/-! ## C6: an UPDATE of excluded columns only -/

/-- C6, as the claim states it, fails: when the period start column `s` is
itself configured as an excluded column, an UPDATE that changes `s` only is
classified as only-excluded, both triggers leave the new row as it is, and its
start column (123) is not the old row's (500). -/
theorem C6_excluded_period_column_changes :
    OnlyExcludedColumnsChanged sampleCatalogExcludedStart sampleRel
      [some 1, some 10, some 500, some DT_NOEND] [some 1, some 10, some 123, some DT_NOEND] =
      .ok true ∧
    generated_always_as_row_start_end sampleCatalogExcludedStart ⟨700, 701, 702⟩
      ⟨some { tg_event := 14, tg_relation := sampleRel,
              tg_trigtuple := [some 1, some 10, some 500, some DT_NOEND],
              tg_newtuple := [some 1, some 10, some 123, some DT_NOEND] }⟩ =
      .ok [some 1, some 10, some 123, some DT_NOEND] ∧
    write_history sampleCatalogExcludedStart ⟨700, 701, 702⟩
      ⟨some { tg_event := 6, tg_relation := sampleRel,
              tg_trigtuple := [some 1, some 10, some 500, some DT_NOEND],
              tg_newtuple := [some 1, some 10, some 123, some DT_NOEND] }⟩ {} = (.ok (), {}) ∧
    SPI_getbinval sampleCatalogExcludedStart [some 1, some 10, some 123, some DT_NOEND]
      sampleRel.rd_att (SPI_fnumber sampleRel.rd_att "s") ≠
    SPI_getbinval sampleCatalogExcludedStart [some 1, some 10, some 500, some DT_NOEND]
      sampleRel.rd_att (SPI_fnumber sampleRel.rd_att "s") := by
  decide

/-- C6, amended. For every UPDATE that OnlyExcludedColumnsChanged classifies
as only-excluded, on a table with a system_time period:
generated_always_as_row_start_end returns the new row unmodified,
write_history returns successfully and leaves the database state as it was (no
history row), and, when neither period column is among the configured excluded
columns, the new row's period start and end columns equal the old row's. -/
theorem C6_only_excluded_update_is_ignored (pg : Catalog) (x : Xact) (rel : Relation)
    (old_row new_row : HeapTuple) (db : DbState) (before_event after_event : Nat)
    (start_name end_name : String)
    (hbefore : TRIGGER_FIRED_BEFORE before_event = true)
    (hbrow : TRIGGER_FIRED_FOR_ROW before_event = true)
    (hbupd : TRIGGER_FIRED_BY_UPDATE before_event = true)
    (hafter : TRIGGER_FIRED_AFTER after_event = true)
    (harow : TRIGGER_FIRED_FOR_ROW after_event = true)
    (haupd : TRIGGER_FIRED_BY_UPDATE after_event = true)
    (hx : OnlyExcludedColumnsChanged pg rel old_row new_row = .ok true)
    (hperiod : GetPeriodColumnNames pg rel "system_time" = .ok (start_name, end_name))
    (hs : 1 ≤ SPI_fnumber rel.rd_att start_name)
    (he : 1 ≤ SPI_fnumber rel.rd_att end_name) :
    generated_always_as_row_start_end pg x
      ⟨some { tg_event := before_event, tg_relation := rel, tg_trigtuple := old_row,
              tg_newtuple := new_row }⟩ = .ok new_row ∧
    write_history pg x
      ⟨some { tg_event := after_event, tg_relation := rel, tg_trigtuple := old_row,
              tg_newtuple := new_row }⟩ db = (.ok (), db) ∧
    (start_name ∉ excludedColumnNames pg rel.rd_id →
      end_name ∉ excludedColumnNames pg rel.rd_id →
      SPI_getbinval pg new_row rel.rd_att (SPI_fnumber rel.rd_att start_name) =
        SPI_getbinval pg old_row rel.rd_att (SPI_fnumber rel.rd_att start_name) ∧
      SPI_getbinval pg new_row rel.rd_att (SPI_fnumber rel.rd_att end_name) =
        SPI_getbinval pg old_row rel.rd_att (SPI_fnumber rel.rd_att end_name)) := by
  refine ⟨?_, ?_, ?_⟩
  · exact generated_always_only_excluded pg x _ hbefore hbrow hbupd hx
  · exact write_history_only_excluded pg x _ db start_name end_name hafter harow haupd hx
      hperiod
  · intro hsx hex
    exact ⟨OnlyExcludedColumnsChanged_true_column pg rel old_row new_row start_name hx hs hsx,
      OnlyExcludedColumnsChanged_true_column pg rel old_row new_row end_name hx he hex⟩

/-- C6 (amended) at an UPDATE of the sample table that changes `last_login`,
the excluded column, only. -/
theorem C6_only_excluded_update_is_ignored_witness :
    generated_always_as_row_start_end sampleCatalogExcluded ⟨700, 701, 702⟩
      ⟨some { tg_event := 14, tg_relation := sampleRel,
              tg_trigtuple := [some 1, some 10, some 500, some DT_NOEND],
              tg_newtuple := [some 1, some 20, some 500, some DT_NOEND] }⟩ =
      .ok [some 1, some 20, some 500, some DT_NOEND] ∧
    write_history sampleCatalogExcluded ⟨700, 701, 702⟩
      ⟨some { tg_event := 6, tg_relation := sampleRel,
              tg_trigtuple := [some 1, some 10, some 500, some DT_NOEND],
              tg_newtuple := [some 1, some 20, some 500, some DT_NOEND] }⟩ {} = (.ok (), {}) ∧
    SPI_getbinval sampleCatalogExcluded [some 1, some 20, some 500, some DT_NOEND]
        sampleRel.rd_att (SPI_fnumber sampleRel.rd_att "s") =
      SPI_getbinval sampleCatalogExcluded [some 1, some 10, some 500, some DT_NOEND]
        sampleRel.rd_att (SPI_fnumber sampleRel.rd_att "s") ∧
    SPI_getbinval sampleCatalogExcluded [some 1, some 20, some 500, some DT_NOEND]
        sampleRel.rd_att (SPI_fnumber sampleRel.rd_att "e") =
      SPI_getbinval sampleCatalogExcluded [some 1, some 10, some 500, some DT_NOEND]
        sampleRel.rd_att (SPI_fnumber sampleRel.rd_att "e") :=
  have h := C6_only_excluded_update_is_ignored sampleCatalogExcluded ⟨700, 701, 702⟩ sampleRel
    [some 1, some 10, some 500, some DT_NOEND] [some 1, some 20, some 500, some DT_NOEND] {}
    14 6 "s" "e" (by decide) (by decide) (by decide) (by decide) (by decide) (by decide)
    (by decide) (by decide) (by decide) (by decide)
  ⟨h.1, h.2.1, h.2.2 (by decide) (by decide)⟩

/-! ## C9: insert, update, delete -/

/-- C9, as the claim states it, fails: nothing orders t3 after t2.  When the
row is deleted by the transaction that updated it (t3 = t2 = 200), the DELETE
adds no second history row. -/
theorem C9_delete_in_updating_transaction_adds_nothing :
    generated_always_as_row_start_end sampleCatalog ⟨100, 100, 100⟩
      ⟨some { tg_event := 12, tg_relation := sampleRel,
              tg_trigtuple := [some 1, some 10, none, none] }⟩ =
      .ok [some 1, some 10, some 100, some DT_NOEND] ∧
    write_history sampleCatalog ⟨100, 100, 100⟩
      ⟨some { tg_event := 4, tg_relation := sampleRel,
              tg_trigtuple := [some 1, some 10, some 100, some DT_NOEND] }⟩ {} = (.ok (), {}) ∧
    generated_always_as_row_start_end sampleCatalog ⟨200, 200, 200⟩
      ⟨some { tg_event := 14, tg_relation := sampleRel,
              tg_trigtuple := [some 1, some 10, some 100, some DT_NOEND],
              tg_newtuple := [some 2, some 10, some 100, some DT_NOEND] }⟩ =
      .ok [some 2, some 10, some 200, some DT_NOEND] ∧
    write_history sampleCatalog ⟨200, 200, 200⟩
      ⟨some { tg_event := 6, tg_relation := sampleRel,
              tg_trigtuple := [some 1, some 10, some 100, some DT_NOEND],
              tg_newtuple := [some 2, some 10, some 200, some DT_NOEND] }⟩ {} =
      (.ok (), { InsertHistoryPlanHash := some [⟨200, "public", "account_history",
                   ⟨"public", "account_history"⟩⟩]
                 inserted := [(⟨"public", "account_history"⟩,
                   [some 1, some 10, some 100, some 200])] }) ∧
    write_history sampleCatalog ⟨200, 200, 200⟩
      ⟨some { tg_event := 5, tg_relation := sampleRel,
              tg_trigtuple := [some 2, some 10, some 200, some DT_NOEND] }⟩
      { InsertHistoryPlanHash := some [⟨200, "public", "account_history",
          ⟨"public", "account_history"⟩⟩]
        inserted := [(⟨"public", "account_history"⟩, [some 1, some 10, some 100, some 200])] } =
      (.ok (), { InsertHistoryPlanHash := some [⟨200, "public", "account_history",
                   ⟨"public", "account_history"⟩⟩]
                 inserted := [(⟨"public", "account_history"⟩,
                   [some 1, some 10, some 100, some 200])] }) := by
  decide

/-- C9, amended (t3 > t2 added). For a table with a system_time period of a
supported type, no excluded columns, and a history table with the same tuple
descriptor: the INSERT of a row in a transaction with start t1 leaves the row
with start t1 and end infinity and adds no history row; its UPDATE in a
transaction with start t2 > t1 leaves the live row with start t2 and end
infinity and adds exactly one history row, equal to the pre-update row except
for its end, which is t2; its DELETE in a transaction with start t3 > t2 adds a
second history row with start t2 and end t3. -/
theorem C9_insert_update_delete_scenario (pg : Catalog) (rel history_rel : Relation)
    (x1 x2 x3 : Xact) (db : DbState) (inserted_row updated_row : HeapTuple)
    (start_name end_name : String) (sn en : Int) (typeid : Oid) (t1 t2 t3 inf : Datum)
    (hperiod : GetPeriodColumnNames pg rel "system_time" = .ok (start_name, end_name))
    (hsn : sn = SPI_fnumber rel.rd_att start_name)
    (hen : en = SPI_fnumber rel.rd_att end_name)
    (hty : typeid = SPI_gettypeid rel.rd_att sn)
    (hetype : SupportedType (SPI_gettypeid rel.rd_att en))
    (hne : sn ≠ en)
    (hnoexcl : excludedColumnNames pg rel.rd_id = [])
    (hhist : OidIsValid (GetHistoryTable pg rel) = true)
    (hopen : table_open pg (GetHistoryTable pg rel) = .ok history_rel)
    (hsame : history_rel.rd_att = rel.rd_att)
    (hnames : ∀ i : Nat, i < rel.rd_att.length →
      (TupleDescAttr rel.rd_att i).attisdropped = false →
      SPI_fnumber rel.rd_att (TupleDescAttr rel.rd_att i).attname = (i : Int) + 1)
    (ht1 : GetRowStart x1 typeid = .ok t1) (ht2 : GetRowStart x2 typeid = .ok t2)
    (ht3 : GetRowStart x3 typeid = .ok t3) (hinf : GetRowEnd typeid = .ok inf)
    (h12 : t1 < t2) (h23 : t2 < t3) :
    ∃ r1 r2 cache1 plan1 hist1 cache2 plan2 hist2,
      generated_always_as_row_start_end pg x1
        ⟨some { tg_event := 12, tg_relation := rel, tg_trigtuple := inserted_row }⟩ = .ok r1 ∧
      SPI_getbinval pg r1 rel.rd_att sn = (t1, false) ∧
      SPI_getbinval pg r1 rel.rd_att en = (inf, false) ∧
      write_history pg x1
        ⟨some { tg_event := 4, tg_relation := rel, tg_trigtuple := r1 }⟩ db = (.ok (), db) ∧
      generated_always_as_row_start_end pg x2
        ⟨some { tg_event := 14, tg_relation := rel, tg_trigtuple := r1,
                tg_newtuple := updated_row }⟩ = .ok r2 ∧
      SPI_getbinval pg r2 rel.rd_att sn = (t2, false) ∧
      SPI_getbinval pg r2 rel.rd_att en = (inf, false) ∧
      write_history pg x2
        ⟨some { tg_event := 6, tg_relation := rel, tg_trigtuple := r1, tg_newtuple := r2 }⟩ db =
        (.ok (), { InsertHistoryPlanHash := cache1
                   inserted := db.inserted ++ [(plan1, hist1)] }) ∧
      SPI_getbinval pg hist1 rel.rd_att en = (t2, false) ∧
      (∀ n : Int, 1 ≤ n → n ≤ (rel.rd_att.length : Int) → n ≠ en →
        (TupleDescAttr rel.rd_att (n - 1).toNat).attisdropped = false →
        SPI_getbinval pg hist1 rel.rd_att n = SPI_getbinval pg r1 rel.rd_att n) ∧
      write_history pg x3
        ⟨some { tg_event := 5, tg_relation := rel, tg_trigtuple := r2 }⟩
        { InsertHistoryPlanHash := cache1, inserted := db.inserted ++ [(plan1, hist1)] } =
        (.ok (), { InsertHistoryPlanHash := cache2
                   inserted := db.inserted ++ [(plan1, hist1), (plan2, hist2)] }) ∧
      SPI_getbinval pg hist2 rel.rd_att sn = (t2, false) ∧
      SPI_getbinval pg hist2 rel.rd_att en = (t3, false) := by
  subst hsn hen hty
  have hst := GetRowStart_supported x1 _ t1 ht1
  obtain ⟨hs1, hs2⟩ := SupportedType_fnumber_range _ _ hst
  obtain ⟨he1, he2⟩ := SupportedType_fnumber_range _ _ hetype
  have hlen := heap_deform_tuple_length
  obtain ⟨⟨hbi1, hbi2, hbi3⟩, ⟨hbu1, hbu2, hbu3⟩, ⟨hai1, hai2, hai3⟩, ⟨hau1, hau2, hau3⟩,
    ⟨had1, had2, had3⟩⟩ := scenario_events
  obtain ⟨_, hslive⟩ := SPI_fnumber_found rel.rd_att start_name (by omega)
  /- the INSERT -/
  have hgen1 := generated_always_stamps pg x1
    { tg_event := 12, tg_relation := rel, tg_trigtuple := inserted_row } inserted_row
    start_name end_name t1 inf hbi1 hbi2 (Or.inl ⟨hbi3, rfl⟩) hperiod ht1 hinf he1 he2 hs1 hs2
  obtain ⟨r1, hr1⟩ : ∃ r1, r1 = heap_form_tuple rel.rd_att
      (((heap_deform_tuple inserted_row rel.rd_att).1.set
        (SPI_fnumber rel.rd_att start_name - 1).toNat t1).set
        (SPI_fnumber rel.rd_att end_name - 1).toNat inf)
      (((heap_deform_tuple inserted_row rel.rd_att).2.set
        (SPI_fnumber rel.rd_att start_name - 1).toNat false).set
        (SPI_fnumber rel.rd_att end_name - 1).toNat false) := ⟨_, rfl⟩
  have hr1s : SPI_getbinval pg r1 rel.rd_att (SPI_fnumber rel.rd_att start_name) = (t1, false) := by
    rw [hr1]
    exact SPI_getbinval_stamped_first pg _ _ _ _ _ t1 inf false (hlen _ _).1 (hlen _ _).2
      hs1 hs2 he1 hne
  have hr1e : SPI_getbinval pg r1 rel.rd_att (SPI_fnumber rel.rd_att end_name) = (inf, false) := by
    rw [hr1]
    exact SPI_getbinval_stamped_last pg _ _ _ _ _ t1 inf false (hlen _ _).1 (hlen _ _).2 he1 he2
  have hwh1 : write_history pg x1
      ⟨some { tg_event := 4, tg_relation := rel, tg_trigtuple := r1 }⟩ db = (.ok (), db) := by
    rw [write_history_insert pg x1 _ db hai1 hai2 hai3,
      write_history_validate_cases pg x1 _ db _ _ start_name end_name t1 inf (Or.inl hai3)
        hperiod ht1 hinf]
    simp only [hr1s, hr1e, ne_eq, not_true_eq_false, if_false]
    rw [if_pos hai3]
  /- the UPDATE -/
  have hgen2 := generated_always_stamps pg x2
    { tg_event := 14, tg_relation := rel, tg_trigtuple := r1, tg_newtuple := updated_row }
    updated_row start_name end_name t2 inf hbu1 hbu2
    (Or.inr ⟨hbu3, rfl, OnlyExcludedColumnsChanged_no_names pg rel _ _ hnoexcl⟩) hperiod ht2 hinf
    he1 he2 hs1 hs2
  obtain ⟨r2, hr2⟩ : ∃ r2, r2 = heap_form_tuple rel.rd_att
      (((heap_deform_tuple updated_row rel.rd_att).1.set
        (SPI_fnumber rel.rd_att start_name - 1).toNat t2).set
        (SPI_fnumber rel.rd_att end_name - 1).toNat inf)
      (((heap_deform_tuple updated_row rel.rd_att).2.set
        (SPI_fnumber rel.rd_att start_name - 1).toNat false).set
        (SPI_fnumber rel.rd_att end_name - 1).toNat false) := ⟨_, rfl⟩
  have hr2s : SPI_getbinval pg r2 rel.rd_att (SPI_fnumber rel.rd_att start_name) = (t2, false) := by
    rw [hr2]
    exact SPI_getbinval_stamped_first pg _ _ _ _ _ t2 inf false (hlen _ _).1 (hlen _ _).2
      hs1 hs2 he1 hne
  have hr2e : SPI_getbinval pg r2 rel.rd_att (SPI_fnumber rel.rd_att end_name) = (inf, false) := by
    rw [hr2]
    exact SPI_getbinval_stamped_last pg _ _ _ _ _ t2 inf false (hlen _ _).1 (hlen _ _).2 he1 he2
  have hwh2 := write_history_reaches_archive pg x2
    { tg_event := 6, tg_relation := rel, tg_trigtuple := r1, tg_newtuple := r2 } db
    start_name end_name t2 hau1 hau2
    (Or.inr ⟨hau3, OnlyExcludedColumnsChanged_no_names pg rel _ _ hnoexcl,
      by simp only [hr2s]; exact CompareWithCurrentDatum_now x2 _ t2 ht2,
      by simp only [hr2e]; exact CompareWithInfiniteDatum_inf _ inf hinf⟩)
    hperiod ht2 (by simp only [hr1s]; exact h12)
  obtain ⟨cache1, plan1, hist1, harch1, _, hh1e, hh1o⟩ :=
    write_history_archive_same_layout pg x2 rel end_name _ r1 db t2 history_rel hhist hopen
      hsame hnames ht2 he1
  /- the DELETE -/
  have hwh3 := write_history_reaches_archive pg x3
    { tg_event := 5, tg_relation := rel, tg_trigtuple := r2 }
    { InsertHistoryPlanHash := cache1, inserted := db.inserted ++ [(plan1, hist1)] }
    start_name end_name t3 had1 had2 (Or.inl had3) hperiod ht3 (by simp only [hr2s]; exact h23)
  obtain ⟨cache2, plan2, hist2, harch2, _, hh2e, hh2o⟩ :=
    write_history_archive_same_layout pg x3 rel end_name _ r2
      { InsertHistoryPlanHash := cache1, inserted := db.inserted ++ [(plan1, hist1)] }
      t3 history_rel hhist hopen hsame hnames ht3 he1
  refine ⟨r1, r2, cache1, plan1, hist1, cache2, plan2, hist2, ?_, hr1s, hr1e, hwh1, ?_, hr2s,
    hr2e, ?_, hh1e, hh1o, ?_, ?_, hh2e⟩
  · rw [hr1]; exact hgen1
  · rw [hr2]; exact hgen2
  · rw [hwh2]; exact harch1
  · rw [hwh3, harch2]; simp
  · rw [hh2o _ hs1 hs2 hne hslive]; exact hr2s

/-- C9 (amended) on the sample table with t1 = 100, t2 = 200, t3 = 300. -/
theorem C9_insert_update_delete_scenario_witness :
    ∃ r1 r2 cache1 plan1 hist1 cache2 plan2 hist2,
      generated_always_as_row_start_end sampleCatalog ⟨100, 100, 100⟩
        ⟨some { tg_event := 12, tg_relation := sampleRel,
                tg_trigtuple := [some 1, some 10, none, none] }⟩ = .ok r1 ∧
      SPI_getbinval sampleCatalog r1 sampleRel.rd_att 3 = (100, false) ∧
      SPI_getbinval sampleCatalog r1 sampleRel.rd_att 4 = (DT_NOEND, false) ∧
      write_history sampleCatalog ⟨100, 100, 100⟩
        ⟨some { tg_event := 4, tg_relation := sampleRel, tg_trigtuple := r1 }⟩ {} =
        (.ok (), {}) ∧
      generated_always_as_row_start_end sampleCatalog ⟨200, 200, 200⟩
        ⟨some { tg_event := 14, tg_relation := sampleRel, tg_trigtuple := r1,
                tg_newtuple := [some 2, some 10, some 100, some DT_NOEND] }⟩ = .ok r2 ∧
      SPI_getbinval sampleCatalog r2 sampleRel.rd_att 3 = (200, false) ∧
      SPI_getbinval sampleCatalog r2 sampleRel.rd_att 4 = (DT_NOEND, false) ∧
      write_history sampleCatalog ⟨200, 200, 200⟩
        ⟨some { tg_event := 6, tg_relation := sampleRel, tg_trigtuple := r1,
                tg_newtuple := r2 }⟩ {} =
        (.ok (), { InsertHistoryPlanHash := cache1
                   inserted := ({} : DbState).inserted ++ [(plan1, hist1)] }) ∧
      SPI_getbinval sampleCatalog hist1 sampleRel.rd_att 4 = (200, false) ∧
      (∀ n : Int, 1 ≤ n → n ≤ (sampleRel.rd_att.length : Int) → n ≠ 4 →
        (TupleDescAttr sampleRel.rd_att (n - 1).toNat).attisdropped = false →
        SPI_getbinval sampleCatalog hist1 sampleRel.rd_att n =
          SPI_getbinval sampleCatalog r1 sampleRel.rd_att n) ∧
      write_history sampleCatalog ⟨300, 300, 300⟩
        ⟨some { tg_event := 5, tg_relation := sampleRel, tg_trigtuple := r2 }⟩
        { InsertHistoryPlanHash := cache1
          inserted := ({} : DbState).inserted ++ [(plan1, hist1)] } =
        (.ok (), { InsertHistoryPlanHash := cache2
                   inserted := ({} : DbState).inserted ++ [(plan1, hist1), (plan2, hist2)] }) ∧
      SPI_getbinval sampleCatalog hist2 sampleRel.rd_att 3 = (200, false) ∧
      SPI_getbinval sampleCatalog hist2 sampleRel.rd_att 4 = (300, false) :=
  C9_insert_update_delete_scenario sampleCatalog sampleRel sampleHistoryRel ⟨100, 100, 100⟩
    ⟨200, 200, 200⟩ ⟨300, 300, 300⟩ {} [some 1, some 10, none, none]
    [some 2, some 10, some 100, some DT_NOEND] "s" "e" 3 4 1184 100 200 300 DT_NOEND
    (by decide) (by decide) (by decide) (by decide) (by decide) (by decide) (by decide)
    (by decide) (by decide) (by decide) (by decide) (by decide) (by decide) (by decide)
    (by decide) (by decide) (by decide)

/-! ## C10: two updates in one transaction -/

/-- C10, as the claim states it, fails: two updates of one row in one
transaction that change the excluded column `last_login` only are both
classified as only-excluded and produce no history row at all. -/
theorem C10_two_only_excluded_updates_add_nothing :
    generated_always_as_row_start_end sampleCatalogExcluded ⟨700, 701, 702⟩
      ⟨some { tg_event := 14, tg_relation := sampleRel,
              tg_trigtuple := [some 1, some 10, some 500, some DT_NOEND],
              tg_newtuple := [some 1, some 20, some 500, some DT_NOEND] }⟩ =
      .ok [some 1, some 20, some 500, some DT_NOEND] ∧
    write_history sampleCatalogExcluded ⟨700, 701, 702⟩
      ⟨some { tg_event := 6, tg_relation := sampleRel,
              tg_trigtuple := [some 1, some 10, some 500, some DT_NOEND],
              tg_newtuple := [some 1, some 20, some 500, some DT_NOEND] }⟩ {} = (.ok (), {}) ∧
    generated_always_as_row_start_end sampleCatalogExcluded ⟨700, 701, 702⟩
      ⟨some { tg_event := 14, tg_relation := sampleRel,
              tg_trigtuple := [some 1, some 20, some 500, some DT_NOEND],
              tg_newtuple := [some 1, some 30, some 500, some DT_NOEND] }⟩ =
      .ok [some 1, some 30, some 500, some DT_NOEND] ∧
    write_history sampleCatalogExcluded ⟨700, 701, 702⟩
      ⟨some { tg_event := 6, tg_relation := sampleRel,
              tg_trigtuple := [some 1, some 20, some 500, some DT_NOEND],
              tg_newtuple := [some 1, some 30, some 500, some DT_NOEND] }⟩ {} = (.ok (), {}) := by
  decide

/-! ## The attribute map between a table and a history table of another layout -/

/-- The map build_attrmap_by_name makes when every live output column has a
live input column of its name, type and type modifier: the number SPI_fnumber
gives for the name, and 0 for a dropped output column. -/
theorem build_attrmap_by_name_named (indesc out : TupleDesc)
    (hcols : ∀ a ∈ out, a.attisdropped = false →
      0 < SPI_fnumber indesc a.attname ∧
      (TupleDescAttr indesc (SPI_fnumber indesc a.attname - 1).toNat).atttypid = a.atttypid ∧
      (TupleDescAttr indesc (SPI_fnumber indesc a.attname - 1).toNat).atttypmod =
        a.atttypmod) :
    build_attrmap_by_name indesc out =
      .ok (out.map (fun a => if a.attisdropped then 0 else SPI_fnumber indesc a.attname)) := by
  induction out with
  | nil => simp [build_attrmap_by_name]
  | cons a rest ih =>
    have ihr := ih (fun b hb hd => hcols b (List.mem_cons_of_mem _ hb) hd)
    simp only [build_attrmap_by_name, ihr, List.map_cons]
    by_cases hd : a.attisdropped = true
    · simp [hd]
    · have hd2 : a.attisdropped = false := by simpa using hd
      obtain ⟨hpos, ht, hm⟩ := hcols a (List.mem_cons_self _ _) hd2
      have hloop := SPI_fnumber_pos indesc a.attname hpos
      have hidx : (SPI_fnumber indesc a.attname - 1 - ((0 : Nat) : Int)).toNat =
          (SPI_fnumber indesc a.attname - 1).toNat := by simp
      have hfind := findInputAttr_of_loop a.attname a.atttypid a.atttypmod indesc 0 _ hloop
        (by rw [hidx]; exact ht) (by rw [hidx]; exact hm)
      have hnz : ¬ SPI_fnumber indesc a.attname = 0 := by omega
      simp [hd2, hfind, hnz]

/-- When check_attrmap_loop answers true, every entry of the map is its own
position or 0. -/
theorem check_attrmap_loop_true (indesc outdesc : TupleDesc) (l : List Int) (i0 : Nat)
    (h : check_attrmap_loop indesc outdesc l i0 = true) (j : Nat) (hj : j < l.length) :
    l.getD j 0 = (i0 : Int) + j + 1 ∨ l.getD j 0 = 0 := by
  induction l generalizing i0 j with
  | nil => simp at hj
  | cons a rest ih =>
    simp only [check_attrmap_loop] at h
    split at h
    · simp at h
    · split at h
      · rename_i ha
        cases j with
        | zero => left; simp [ha]
        | succ j =>
          simp only [List.length_cons, Nat.add_lt_add_iff_right] at hj
          simp only [List.getD_cons_succ]
          rcases ih (i0 + 1) h j hj with h1 | h1
          · left; rw [h1]; push_cast; ring
          · right; exact h1
      · split at h
        · rename_i ha
          cases j with
          | zero => right; simp [ha.1]
          | succ j =>
            simp only [List.length_cons, Nat.add_lt_add_iff_right] at hj
            simp only [List.getD_cons_succ]
            rcases ih (i0 + 1) h j hj with h1 | h1
            · left; rw [h1]; push_cast; ring
            · right; exact h1
        · simp at h

/-- A tuple that stores as many attributes as the descriptor has reads the
same under any descriptor of that length. -/
theorem SPI_getbinval_same_length (pg : Catalog) (tuple : HeapTuple) (d1 d2 : TupleDesc)
    (n : Int) (h1 : tuple.length = d1.length) (h2 : d1.length = d2.length) :
    SPI_getbinval pg tuple d1 n = SPI_getbinval pg tuple d2 n := by
  unfold SPI_getbinval heap_getattr
  rw [h2]
  by_cases hr : n > (d2.length : Int) ∨ n = 0 ∨ n ≤ FirstLowInvalidHeapAttributeNumber
  · simp [hr]
  · simp only [hr, if_false]
    by_cases hp : n > 0
    · simp only [hp, if_true]
      have : ¬ n.toNat > tuple.length := by
        push_neg at hr
        omega
      simp [this]
    · simp [hp]

theorem heap_form_tuple_length (desc : TupleDesc) (values : List Datum) (nulls : List Bool) :
    (heap_form_tuple desc values nulls).length = desc.length := by
  simp [heap_form_tuple]

/-- A column of a converted tuple reads as the input column its map entry
names. -/
theorem heap_getattr_execute_attr_map (indesc outdesc : TupleDesc) (tuple : HeapTuple)
    (m : List Int) (hlen : m.length = outdesc.length) (n : Nat) (h1 : 1 ≤ n)
    (h2 : n ≤ outdesc.length) (hk1 : 1 ≤ m.getD (n - 1) 0)
    (hk2 : m.getD (n - 1) 0 ≤ (indesc.length : Int)) :
    heap_getattr (execute_attr_map_tuple tuple m indesc outdesc) n outdesc =
      heap_getattr tuple (m.getD (n - 1) 0).toNat indesc := by
  unfold execute_attr_map_tuple
  simp only
  rw [heap_getattr_form outdesc _ _ n h1 h2]
  rw [getD_map_lt _ m (n - 1) true 0 (by omega), getD_map_lt _ m (n - 1) 0 0 (by omega)]
  have hk : (m.getD (n - 1) 0).toNat = ((m.getD (n - 1) 0).toNat - 1) + 1 := by omega
  rw [hk]
  simp only [List.getD_cons_succ]
  unfold heap_deform_tuple
  simp only
  rw [getD_map_range _ _ _ _ (by omega), getD_map_range _ _ _ _ (by omega)]
  exact heap_getattr_eta tuple _ indesc

/-- The last part of write_history for a history table of any layout whose
live columns all exist, with the same type, in the table: one row is given to
the INSERT; read by the history table's descriptor it holds the transaction
start value, not null, in the end column and, in every other live column, what
the old row holds in the table column of the same name. -/
theorem write_history_archive_by_name (pg : Catalog) (x : Xact) (rel : Relation)
    (end_name : String) (typeid : Oid) (old_row : HeapTuple) (db : DbState) (now : Datum)
    (history_rel : Relation)
    (hhist : OidIsValid (GetHistoryTable pg rel) = true)
    (hopen : table_open pg (GetHistoryTable pg rel) = .ok history_rel)
    (hcols : ∀ a ∈ history_rel.rd_att, a.attisdropped = false →
      0 < SPI_fnumber rel.rd_att a.attname ∧
      (TupleDescAttr rel.rd_att (SPI_fnumber rel.rd_att a.attname - 1).toNat).atttypid =
        a.atttypid ∧
      (TupleDescAttr rel.rd_att (SPI_fnumber rel.rd_att a.attname - 1).toNat).atttypmod =
        a.atttypmod)
    (hnow : GetRowStart x typeid = .ok now)
    (hend : 1 ≤ SPI_fnumber history_rel.rd_att end_name) :
    ∃ cache plan hist,
      write_history_archive pg x rel end_name typeid old_row db =
        (.ok (), { InsertHistoryPlanHash := cache
                   inserted := db.inserted ++ [(plan, hist)] }) ∧
      SPI_getbinval pg hist history_rel.rd_att (SPI_fnumber history_rel.rd_att end_name) =
        (now, false) ∧
      ∀ n : Int, 1 ≤ n → n ≤ (history_rel.rd_att.length : Int) →
        n ≠ SPI_fnumber history_rel.rd_att end_name →
        (TupleDescAttr history_rel.rd_att (n - 1).toNat).attisdropped = false →
        SPI_getbinval pg hist history_rel.rd_att n =
          SPI_getbinval pg old_row rel.rd_att
            (SPI_fnumber rel.rd_att (TupleDescAttr history_rel.rd_att (n - 1).toNat).attname) := by
  have hend2 := SPI_fnumber_pos_le history_rel.rd_att end_name (by omega)
  have hm := build_attrmap_by_name_named rel.rd_att history_rel.rd_att hcols
  obtain ⟨m, hmdef⟩ : ∃ m, m = history_rel.rd_att.map
      (fun a => if a.attisdropped then 0 else SPI_fnumber rel.rd_att a.attname) := ⟨_, rfl⟩
  rw [← hmdef] at hm
  have hmlen : m.length = history_rel.rd_att.length := by rw [hmdef]; simp
  /- the map entry of a live history column -/
  have hentry : ∀ n : Int, 1 ≤ n → n ≤ (history_rel.rd_att.length : Int) →
      (TupleDescAttr history_rel.rd_att (n - 1).toNat).attisdropped = false →
      m.getD (n - 1).toNat 0 =
        SPI_fnumber rel.rd_att (TupleDescAttr history_rel.rd_att (n - 1).toNat).attname ∧
      (TupleDescAttr history_rel.rd_att (n - 1).toNat) ∈ history_rel.rd_att := by
    intro n h1 h2 hlive
    have hlt : (n - 1).toNat < history_rel.rd_att.length := by omega
    have hmem : (TupleDescAttr history_rel.rd_att (n - 1).toNat) ∈ history_rel.rd_att := by
      unfold TupleDescAttr
      rw [List.getD_eq_getElem _ _ hlt]
      exact List.getElem_mem _
    refine ⟨?_, hmem⟩
    rw [hmdef, getD_map_lt _ history_rel.rd_att (n - 1).toNat 0 default hlt]
    unfold TupleDescAttr at hlive ⊢
    rw [hlive]
    simp only [Bool.false_eq_true, if_false]
  unfold write_history_archive convert_tuples_by_name
  simp only [hhist, if_true, hopen, hm, hnow]
  by_cases hc : check_attrmap_match rel.rd_att history_rel.rd_att m = true
  · /- no conversion: the old row is deformed by the table's descriptor -/
    have hlen : rel.rd_att.length = history_rel.rd_att.length := by
      unfold check_attrmap_match at hc
      by_contra hcon
      simp [hcon] at hc
    have hloop : check_attrmap_loop rel.rd_att history_rel.rd_att m 0 = true := by
      unfold check_attrmap_match at hc
      simpa [hlen] using hc
    simp only [hc, if_true, arrayStore_of_pos _ _ _ hend]
    obtain ⟨cache, plan, hi, _⟩ := insert_into_history_ok history_rel
      (heap_form_tuple rel.rd_att
        ((heap_deform_tuple old_row rel.rd_att).1.set
          (SPI_fnumber history_rel.rd_att end_name - 1).toNat now)
        ((heap_deform_tuple old_row rel.rd_att).2.set
          (SPI_fnumber history_rel.rd_att end_name - 1).toNat false)) db
    refine ⟨cache, plan, _, hi, ?_, ?_⟩
    · rw [← SPI_getbinval_same_length pg _ rel.rd_att history_rel.rd_att _
        (heap_form_tuple_length _ _ _) hlen]
      rw [SPI_getbinval_form_set pg _ old_row _ now _ hend (by omega) (by omega)]
      simp
    · intro n h1 h2 hne hlive
      rw [← SPI_getbinval_same_length pg _ rel.rd_att history_rel.rd_att _
        (heap_form_tuple_length _ _ _) hlen]
      rw [SPI_getbinval_form_set pg _ old_row _ now _ h1 (by omega) (by omega)]
      rw [if_neg (by omega)]
      obtain ⟨he, hmem⟩ := hentry n h1 h2 hlive
      have hpos := (hcols _ hmem hlive).1
      rcases check_attrmap_loop_true _ _ m 0 hloop (n - 1).toNat (by omega) with h0 | h0
      · have hk : SPI_fnumber rel.rd_att
            (TupleDescAttr history_rel.rd_att (n - 1).toNat).attname = n := by
          rw [← he, h0]; push_cast; omega
        rw [hk, SPI_getbinval_user pg old_row _ n h1 (by omega)]
      · rw [he] at h0
        omega
  · /- conversion by the map -/
    simp only [hc, Bool.false_eq_true, if_false, arrayStore_of_pos _ _ _ hend]
    obtain ⟨cache, plan, hi, _⟩ := insert_into_history_ok history_rel
      (heap_form_tuple history_rel.rd_att
        ((heap_deform_tuple (execute_attr_map_tuple old_row m rel.rd_att history_rel.rd_att)
          history_rel.rd_att).1.set (SPI_fnumber history_rel.rd_att end_name - 1).toNat now)
        ((heap_deform_tuple (execute_attr_map_tuple old_row m rel.rd_att history_rel.rd_att)
          history_rel.rd_att).2.set
          (SPI_fnumber history_rel.rd_att end_name - 1).toNat false)) db
    refine ⟨cache, plan, _, hi, ?_, ?_⟩
    · rw [SPI_getbinval_form_set pg _ _ _ now _ hend hend2 (by omega)]
      simp
    · intro n h1 h2 hne hlive
      rw [SPI_getbinval_form_set pg _ _ _ now _ h1 h2 (by omega)]
      rw [if_neg (by omega)]
      obtain ⟨he, hmem⟩ := hentry n h1 h2 hlive
      have hpos := (hcols _ hmem hlive).1
      have hle := SPI_fnumber_pos_le rel.rd_att _ hpos
      have hidx : n.toNat - 1 = (n - 1).toNat := by omega
      rw [heap_getattr_execute_attr_map rel.rd_att history_rel.rd_att old_row m hmlen n.toNat
        (by omega) (by omega) (by rw [hidx, he]; omega) (by rw [hidx, he]; exact hle)]
      rw [hidx, he, SPI_getbinval_user pg old_row _ _ (by omega) hle]

/-! ## C10: two updates, for a history table of any layout -/

/-- C10, amended (the first update is effective). A row opened before the
transaction start is updated twice in one transaction, each update running
through generated_always_as_row_start_end and then write_history, on a table
with a system_time period of a supported type.  When the first update is not
classified as only-excluded and the period start column is not an excluded
column: both calls of the BEFORE ROW trigger return a row; the second call of
write_history, whatever the second update changes and whatever the state,
adds nothing and raises no error; and the first call of write_history, for
every history table that opens, has the end column and has only columns of the
table (in any order), adds exactly one row, which holds the transaction start
in the end column and in every other live column the value the row had before
the transaction in the column of that name. -/
theorem C10_two_updates_one_history_row (pg : Catalog) (rel : Relation)
    (x : Xact) (row0 update1 update2 : HeapTuple)
    (start_name end_name : String) (sn en : Int) (typeid : Oid) (now inf : Datum)
    (hperiod : GetPeriodColumnNames pg rel "system_time" = .ok (start_name, end_name))
    (hsn : sn = SPI_fnumber rel.rd_att start_name)
    (hen : en = SPI_fnumber rel.rd_att end_name)
    (hty : typeid = SPI_gettypeid rel.rd_att sn)
    (hetype : SupportedType (SPI_gettypeid rel.rd_att en))
    (hne : sn ≠ en)
    (hfirst : OnlyExcludedColumnsChanged pg rel row0 update1 = .ok false)
    (hsx : start_name ∉ excludedColumnNames pg rel.rd_id)
    (hnow : GetRowStart x typeid = .ok now) (hinf : GetRowEnd typeid = .ok inf)
    (hearlier : (SPI_getbinval pg row0 rel.rd_att sn).1 < now) :
    ∃ r1 r2,
      generated_always_as_row_start_end pg x
        ⟨some { tg_event := 14, tg_relation := rel, tg_trigtuple := row0,
                tg_newtuple := update1 }⟩ = .ok r1 ∧
      generated_always_as_row_start_end pg x
        ⟨some { tg_event := 14, tg_relation := rel, tg_trigtuple := r1,
                tg_newtuple := update2 }⟩ = .ok r2 ∧
      (∀ db1 : DbState, write_history pg x
        ⟨some { tg_event := 6, tg_relation := rel, tg_trigtuple := r1, tg_newtuple := r2 }⟩
        db1 = (.ok (), db1)) ∧
      (∀ (db : DbState) (history_rel : Relation),
        OidIsValid (GetHistoryTable pg rel) = true →
        table_open pg (GetHistoryTable pg rel) = .ok history_rel →
        (∀ a ∈ history_rel.rd_att, a.attisdropped = false →
          0 < SPI_fnumber rel.rd_att a.attname ∧
          (TupleDescAttr rel.rd_att (SPI_fnumber rel.rd_att a.attname - 1).toNat).atttypid =
            a.atttypid ∧
          (TupleDescAttr rel.rd_att (SPI_fnumber rel.rd_att a.attname - 1).toNat).atttypmod =
            a.atttypmod) →
        1 ≤ SPI_fnumber history_rel.rd_att end_name →
        ∃ cache plan hist,
          write_history pg x
            ⟨some { tg_event := 6, tg_relation := rel, tg_trigtuple := row0,
                    tg_newtuple := r1 }⟩ db =
            (.ok (), { InsertHistoryPlanHash := cache
                       inserted := db.inserted ++ [(plan, hist)] }) ∧
          SPI_getbinval pg hist history_rel.rd_att (SPI_fnumber history_rel.rd_att end_name) =
            (now, false) ∧
          ∀ n : Int, 1 ≤ n → n ≤ (history_rel.rd_att.length : Int) →
            n ≠ SPI_fnumber history_rel.rd_att end_name →
            (TupleDescAttr history_rel.rd_att (n - 1).toNat).attisdropped = false →
            SPI_getbinval pg hist history_rel.rd_att n =
              SPI_getbinval pg row0 rel.rd_att
                (SPI_fnumber rel.rd_att
                  (TupleDescAttr history_rel.rd_att (n - 1).toNat).attname)) := by
  subst hsn hen hty
  have hst := GetRowStart_supported x _ now hnow
  obtain ⟨hs1, hs2⟩ := SupportedType_fnumber_range _ _ hst
  obtain ⟨he1, he2⟩ := SupportedType_fnumber_range _ _ hetype
  have hlen := heap_deform_tuple_length
  obtain ⟨_, ⟨hbu1, hbu2, hbu3⟩, _, ⟨hau1, hau2, hau3⟩, _⟩ := scenario_events
  /- the first update -/
  have hgen1 := generated_always_stamps pg x
    { tg_event := 14, tg_relation := rel, tg_trigtuple := row0, tg_newtuple := update1 }
    update1 start_name end_name now inf hbu1 hbu2 (Or.inr ⟨hbu3, rfl, hfirst⟩) hperiod hnow hinf
    he1 he2 hs1 hs2
  obtain ⟨r1, hr1⟩ : ∃ r1, r1 = heap_form_tuple rel.rd_att
      (((heap_deform_tuple update1 rel.rd_att).1.set
        (SPI_fnumber rel.rd_att start_name - 1).toNat now).set
        (SPI_fnumber rel.rd_att end_name - 1).toNat inf)
      (((heap_deform_tuple update1 rel.rd_att).2.set
        (SPI_fnumber rel.rd_att start_name - 1).toNat false).set
        (SPI_fnumber rel.rd_att end_name - 1).toNat false) := ⟨_, rfl⟩
  have hr1s : SPI_getbinval pg r1 rel.rd_att (SPI_fnumber rel.rd_att start_name) =
      (now, false) := by
    rw [hr1]
    exact SPI_getbinval_stamped_first pg _ _ _ _ _ now inf false (hlen _ _).1 (hlen _ _).2
      hs1 hs2 he1 hne
  have hr1e : SPI_getbinval pg r1 rel.rd_att (SPI_fnumber rel.rd_att end_name) =
      (inf, false) := by
    rw [hr1]
    exact SPI_getbinval_stamped_last pg _ _ _ _ _ now inf false (hlen _ _).1 (hlen _ _).2
      he1 he2
  have hx1 : OnlyExcludedColumnsChanged pg rel row0 r1 = .ok false := by
    obtain ⟨c, hc⟩ := OnlyExcludedColumnsChanged_ok_indep pg rel row0 update1 row0 r1 false
      hfirst
    cases c with
    | false => exact hc
    | true =>
      exfalso
      have := OnlyExcludedColumnsChanged_true_column pg rel row0 r1 start_name hc hs1 hsx
      rw [hr1s] at this
      rw [← this] at hearlier
      exact lt_irrefl _ hearlier
  have hwh1 : ∀ db : DbState, write_history pg x
      ⟨some { tg_event := 6, tg_relation := rel, tg_trigtuple := row0, tg_newtuple := r1 }⟩ db =
      write_history_archive pg x rel end_name
        (SPI_gettypeid rel.rd_att (SPI_fnumber rel.rd_att start_name)) row0 db := by
    intro db
    exact write_history_reaches_archive pg x
      { tg_event := 6, tg_relation := rel, tg_trigtuple := row0, tg_newtuple := r1 } db
      start_name end_name now hau1 hau2
      (Or.inr ⟨hau3, hx1,
        by simp only [hr1s]; exact CompareWithCurrentDatum_now x _ now hnow,
        by simp only [hr1e]; exact CompareWithInfiniteDatum_inf _ inf hinf⟩)
      hperiod hnow hearlier
  /- the second update -/
  obtain ⟨b, hb⟩ := OnlyExcludedColumnsChanged_ok_indep pg rel row0 update1 r1 update2 false
    hfirst
  have hsecond : ∃ r2,
      generated_always_as_row_start_end pg x
        ⟨some { tg_event := 14, tg_relation := rel, tg_trigtuple := r1,
                tg_newtuple := update2 }⟩ = .ok r2 ∧
      ∀ db1 : DbState, write_history pg x
        ⟨some { tg_event := 6, tg_relation := rel, tg_trigtuple := r1, tg_newtuple := r2 }⟩
        db1 = (.ok (), db1) := by
    cases b with
    | true =>
      refine ⟨update2, generated_always_only_excluded pg x
        { tg_event := 14, tg_relation := rel, tg_trigtuple := r1, tg_newtuple := update2 }
        hbu1 hbu2 hbu3 hb, ?_⟩
      intro db1
      exact write_history_only_excluded pg x
        { tg_event := 6, tg_relation := rel, tg_trigtuple := r1, tg_newtuple := update2 } db1
        start_name end_name hau1 hau2 hau3 hb hperiod
    | false =>
      have hgen2 := generated_always_stamps pg x
        { tg_event := 14, tg_relation := rel, tg_trigtuple := r1, tg_newtuple := update2 }
        update2 start_name end_name now inf hbu1 hbu2 (Or.inr ⟨hbu3, rfl, hb⟩) hperiod hnow
        hinf he1 he2 hs1 hs2
      obtain ⟨r2, hr2⟩ : ∃ r2, r2 = heap_form_tuple rel.rd_att
          (((heap_deform_tuple update2 rel.rd_att).1.set
            (SPI_fnumber rel.rd_att start_name - 1).toNat now).set
            (SPI_fnumber rel.rd_att end_name - 1).toNat inf)
          (((heap_deform_tuple update2 rel.rd_att).2.set
            (SPI_fnumber rel.rd_att start_name - 1).toNat false).set
            (SPI_fnumber rel.rd_att end_name - 1).toNat false) := ⟨_, rfl⟩
      have hr2s : SPI_getbinval pg r2 rel.rd_att (SPI_fnumber rel.rd_att start_name) =
          (now, false) := by
        rw [hr2]
        exact SPI_getbinval_stamped_first pg _ _ _ _ _ now inf false (hlen _ _).1
          (hlen _ _).2 hs1 hs2 he1 hne
      have hr2e : SPI_getbinval pg r2 rel.rd_att (SPI_fnumber rel.rd_att end_name) =
          (inf, false) := by
        rw [hr2]
        exact SPI_getbinval_stamped_last pg _ _ _ _ _ now inf false (hlen _ _).1 (hlen _ _).2
          he1 he2
      refine ⟨r2, by rw [hr2]; exact hgen2, ?_⟩
      intro db1
      obtain ⟨c, hc⟩ := OnlyExcludedColumnsChanged_ok_indep pg rel row0 update1 r1 r2 false
        hfirst
      cases c with
      | true =>
        exact write_history_only_excluded pg x
          { tg_event := 6, tg_relation := rel, tg_trigtuple := r1, tg_newtuple := r2 } db1
          start_name end_name hau1 hau2 hau3 hc hperiod
      | false =>
        exact write_history_same_start pg x
          { tg_event := 6, tg_relation := rel, tg_trigtuple := r1, tg_newtuple := r2 } db1
          start_name end_name hau1 hau2
          (Or.inr ⟨hau3, hc,
            by simp only [hr2s]; exact CompareWithCurrentDatum_now x _ now hnow,
            by simp only [hr2e]; exact CompareWithInfiniteDatum_inf _ inf hinf⟩)
          hperiod (by simp only [hr1s]; exact CompareWithCurrentDatum_now x _ now hnow)
  obtain ⟨r2, hg2, hw2⟩ := hsecond
  refine ⟨r1, r2, by rw [hr1]; exact hgen1, hg2, hw2, ?_⟩
  intro db history_rel hhist hopen hcols hend
  obtain ⟨cache, plan, hist, harch, hhe, hho⟩ :=
    write_history_archive_by_name pg x rel end_name _ row0 db now history_rel hhist hopen
      hcols hnow hend
  exact ⟨cache, plan, hist, (hwh1 db).trans harch, hhe, hho⟩

/-- C10 (amended) on the sample table with the history table
`account_log (e, id, s)`: a row opened at 500 is updated twice in the
transaction that started at 700, first in `id`, then in `last_login`.  The
first update adds one row with end 700, id 1 and start 500; the second adds
nothing. -/
theorem C10_two_updates_one_history_row_witness :
    ∃ r1 r2,
      generated_always_as_row_start_end sampleCatalogReordered ⟨700, 701, 702⟩
        ⟨some { tg_event := 14, tg_relation := sampleRel,
                tg_trigtuple := [some 1, some 10, some 500, some DT_NOEND],
                tg_newtuple := [some 2, some 10, some 500, some DT_NOEND] }⟩ = .ok r1 ∧
      generated_always_as_row_start_end sampleCatalogReordered ⟨700, 701, 702⟩
        ⟨some { tg_event := 14, tg_relation := sampleRel, tg_trigtuple := r1,
                tg_newtuple := [some 2, some 30, some 700, some DT_NOEND] }⟩ = .ok r2 ∧
      (∀ db1 : DbState, write_history sampleCatalogReordered ⟨700, 701, 702⟩
        ⟨some { tg_event := 6, tg_relation := sampleRel, tg_trigtuple := r1,
                tg_newtuple := r2 }⟩ db1 = (.ok (), db1)) ∧
      ∃ cache plan hist,
        write_history sampleCatalogReordered ⟨700, 701, 702⟩
          ⟨some { tg_event := 6, tg_relation := sampleRel,
                  tg_trigtuple := [some 1, some 10, some 500, some DT_NOEND],
                  tg_newtuple := r1 }⟩ {} =
          (.ok (), { InsertHistoryPlanHash := cache
                     inserted := ({} : DbState).inserted ++ [(plan, hist)] }) ∧
        SPI_getbinval sampleCatalogReordered hist sampleHistoryRelReordered.rd_att 1 =
          (700, false) ∧
        SPI_getbinval sampleCatalogReordered hist sampleHistoryRelReordered.rd_att 2 =
          (1, false) ∧
        SPI_getbinval sampleCatalogReordered hist sampleHistoryRelReordered.rd_att 3 =
          (500, false) := by
  obtain ⟨r1, r2, h1, h2, h3, h4⟩ := C10_two_updates_one_history_row sampleCatalogReordered
    sampleRel ⟨700, 701, 702⟩ [some 1, some 10, some 500, some DT_NOEND]
    [some 2, some 10, some 500, some DT_NOEND] [some 2, some 30, some 700, some DT_NOEND]
    "s" "e" 3 4 1184 700 DT_NOEND
    (by decide) (by decide) (by decide) (by decide) (by decide) (by decide) (by decide)
    (by decide) (by decide) (by decide) (by decide)
  obtain ⟨cache, plan, hist, hw, he, ho⟩ := h4 {} sampleHistoryRelReordered (by decide)
    (by decide) (by decide) (by decide)
  exact ⟨r1, r2, h1, h2, h3, cache, plan, hist, hw, he,
    (ho 2 (by decide) (by decide) (by decide) (by decide)).trans (by decide),
    (ho 3 (by decide) (by decide) (by decide) (by decide)).trans (by decide)⟩

/-! ## C11: the archived row when the history table has another layout -/

/-- C11. For every DELETE, and every UPDATE that is not only-excluded and
passed the validation, with the old row's start before the transaction start
and a history table associated whose layout may differ from the table's
(columns in another order, columns of the table missing), every live history
column having a column of the table with its name and type: the row
write_history gives to the INSERT holds, read by the history table's
descriptor, the transaction start value (not null) in the history column named
as the period end column, and in every other live history column the old row's
value of the table column of the same name. -/
theorem C11_archives_by_column_name (pg : Catalog) (x : Xact) (trigdata : TriggerData)
    (db : DbState) (start_name end_name : String) (now : Datum) (history_rel : Relation)
    (hafter : TRIGGER_FIRED_AFTER trigdata.tg_event = true)
    (hrow : TRIGGER_FIRED_FOR_ROW trigdata.tg_event = true)
    (hop : TRIGGER_FIRED_BY_DELETE trigdata.tg_event = true ∨
      (TRIGGER_FIRED_BY_UPDATE trigdata.tg_event = true ∧
        OnlyExcludedColumnsChanged pg trigdata.tg_relation trigdata.tg_trigtuple
          trigdata.tg_newtuple = .ok false ∧
        CompareWithCurrentDatum x
          (SPI_gettypeid trigdata.tg_relation.rd_att
            (SPI_fnumber trigdata.tg_relation.rd_att start_name))
          (SPI_getbinval pg trigdata.tg_newtuple trigdata.tg_relation.rd_att
            (SPI_fnumber trigdata.tg_relation.rd_att start_name)).1 = .ok 0 ∧
        CompareWithInfiniteDatum
          (SPI_gettypeid trigdata.tg_relation.rd_att
            (SPI_fnumber trigdata.tg_relation.rd_att start_name))
          (SPI_getbinval pg trigdata.tg_newtuple trigdata.tg_relation.rd_att
            (SPI_fnumber trigdata.tg_relation.rd_att end_name)).1 = .ok 0))
    (hperiod : GetPeriodColumnNames pg trigdata.tg_relation "system_time" =
      .ok (start_name, end_name))
    (hnow : GetRowStart x (SPI_gettypeid trigdata.tg_relation.rd_att
      (SPI_fnumber trigdata.tg_relation.rd_att start_name)) = .ok now)
    (hlt : (SPI_getbinval pg trigdata.tg_trigtuple trigdata.tg_relation.rd_att
      (SPI_fnumber trigdata.tg_relation.rd_att start_name)).1 < now)
    (hhist : OidIsValid (GetHistoryTable pg trigdata.tg_relation) = true)
    (hopen : table_open pg (GetHistoryTable pg trigdata.tg_relation) = .ok history_rel)
    (hcols : ∀ a ∈ history_rel.rd_att, a.attisdropped = false →
      0 < SPI_fnumber trigdata.tg_relation.rd_att a.attname ∧
      (TupleDescAttr trigdata.tg_relation.rd_att
        (SPI_fnumber trigdata.tg_relation.rd_att a.attname - 1).toNat).atttypid = a.atttypid ∧
      (TupleDescAttr trigdata.tg_relation.rd_att
        (SPI_fnumber trigdata.tg_relation.rd_att a.attname - 1).toNat).atttypmod =
        a.atttypmod)
    (hend : 1 ≤ SPI_fnumber history_rel.rd_att end_name) :
    ∃ cache plan hist,
      write_history pg x ⟨some trigdata⟩ db =
        (.ok (), { InsertHistoryPlanHash := cache
                   inserted := db.inserted ++ [(plan, hist)] }) ∧
      SPI_getbinval pg hist history_rel.rd_att (SPI_fnumber history_rel.rd_att end_name) =
        (now, false) ∧
      ∀ n : Int, 1 ≤ n → n ≤ (history_rel.rd_att.length : Int) →
        n ≠ SPI_fnumber history_rel.rd_att end_name →
        (TupleDescAttr history_rel.rd_att (n - 1).toNat).attisdropped = false →
        SPI_getbinval pg hist history_rel.rd_att n =
          SPI_getbinval pg trigdata.tg_trigtuple trigdata.tg_relation.rd_att
            (SPI_fnumber trigdata.tg_relation.rd_att
              (TupleDescAttr history_rel.rd_att (n - 1).toNat).attname) := by
  rw [write_history_reaches_archive pg x trigdata db start_name end_name now hafter hrow hop
    hperiod hnow hlt]
  exact write_history_archive_by_name pg x trigdata.tg_relation end_name _
    trigdata.tg_trigtuple db now history_rel hhist hopen hcols hnow hend

/-- C11 at a DELETE from the sample table, archived into the history table
`account_log (e, id, s)`: reordered columns, no `last_login`. -/
theorem C11_archives_by_column_name_witness :
    ∃ cache plan hist,
      write_history sampleCatalogReordered ⟨700, 701, 702⟩
        ⟨some { tg_event := 5, tg_relation := sampleRel,
                tg_trigtuple := [some 1, some 10, some 500, some DT_NOEND] }⟩ {} =
        (.ok (), { InsertHistoryPlanHash := cache
                   inserted := ({} : DbState).inserted ++ [(plan, hist)] }) ∧
      SPI_getbinval sampleCatalogReordered hist sampleHistoryRelReordered.rd_att
        (SPI_fnumber sampleHistoryRelReordered.rd_att "e") = (700, false) ∧
      ∀ n : Int, 1 ≤ n → n ≤ (sampleHistoryRelReordered.rd_att.length : Int) →
        n ≠ SPI_fnumber sampleHistoryRelReordered.rd_att "e" →
        (TupleDescAttr sampleHistoryRelReordered.rd_att (n - 1).toNat).attisdropped = false →
        SPI_getbinval sampleCatalogReordered hist sampleHistoryRelReordered.rd_att n =
          SPI_getbinval sampleCatalogReordered [some 1, some 10, some 500, some DT_NOEND]
            sampleRel.rd_att
            (SPI_fnumber sampleRel.rd_att
              (TupleDescAttr sampleHistoryRelReordered.rd_att (n - 1).toNat).attname) :=
  C11_archives_by_column_name sampleCatalogReordered ⟨700, 701, 702⟩
    { tg_event := 5, tg_relation := sampleRel,
      tg_trigtuple := [some 1, some 10, some 500, some DT_NOEND] } {} "s" "e" 700
    sampleHistoryRelReordered (by decide) (by decide) (Or.inl (by decide)) (by decide)
    (by decide) (by decide) (by decide) (by decide) (by decide) (by decide)

/-! ## What write_history does before it asks for the history table -/

theorem write_history_archive_no_history (pg : Catalog) (x : Xact) (rel : Relation)
    (end_name : String) (typeid : Oid) (old_row : HeapTuple) (db : DbState)
    (hno : GetHistoryTable pg rel = InvalidOid) :
    write_history_archive pg x rel end_name typeid old_row db = (.ok (), db) := by
  unfold write_history_archive
  simp [hno, OidIsValid]

theorem SPI_getbinval_catalog (pg pg2 : Catalog) (tuple : HeapTuple) (desc : TupleDesc) (n : Int)
    (hsys : pg2.heap_getsysattr = pg.heap_getsysattr) :
    SPI_getbinval pg2 tuple desc n = SPI_getbinval pg tuple desc n := by
  unfold SPI_getbinval
  rw [hsys]

theorem compareColumns_catalog (pg pg2 : Catalog) (desc : TupleDesc) (ex : Bitmapset)
    (old_row new_row : HeapTuple) (l : List Nat)
    (hsys : pg2.heap_getsysattr = pg.heap_getsysattr) :
    compareColumns pg2 desc ex old_row new_row l = compareColumns pg desc ex old_row new_row l := by
  induction l with
  | nil => rfl
  | cons i rest ih =>
    simp only [compareColumns, ih, SPI_getbinval_catalog pg pg2 _ _ _ hsys]

/-- OnlyExcludedColumnsChanged reads the catalog of excluded columns only. -/
theorem OnlyExcludedColumnsChanged_catalog (pg pg2 : Catalog) (rel : Relation)
    (old_row new_row : HeapTuple)
    (hstp : pg2.system_time_periods = pg.system_time_periods)
    (hsys : pg2.heap_getsysattr = pg.heap_getsysattr) :
    OnlyExcludedColumnsChanged pg2 rel old_row new_row =
      OnlyExcludedColumnsChanged pg rel old_row new_row := by
  unfold OnlyExcludedColumnsChanged excludedColumnNames
  simp only [hstp, compareColumns_catalog pg pg2 _ _ _ _ _ hsys]

theorem GetPeriodColumnNames_catalog (pg pg2 : Catalog) (rel : Relation) (period_name : String)
    (hper : pg2.periods = pg.periods) :
    GetPeriodColumnNames pg2 rel period_name = GetPeriodColumnNames pg rel period_name := by
  unfold GetPeriodColumnNames periodRows
  rw [hper]

/-- Two catalogs that agree on the system attributes: the middle part of
write_history gives the same result with the state unchanged, or reaches the
last part in both. -/
theorem write_history_close_split (pg pg2 : Catalog) (x : Xact) (rel : Relation)
    (start_num : Int) (end_name : String) (typeid : Oid) (old_row : HeapTuple) (b : Bool)
    (db : DbState) (hsys : pg2.heap_getsysattr = pg.heap_getsysattr) :
    (write_history_close pg2 x rel start_num end_name typeid old_row b db =
        write_history_close pg x rel start_num end_name typeid old_row b db ∧
      (write_history_close pg x rel start_num end_name typeid old_row b db).2 = db) ∨
    (write_history_close pg x rel start_num end_name typeid old_row b db =
        write_history_archive pg x rel end_name typeid old_row db ∧
      write_history_close pg2 x rel start_num end_name typeid old_row b db =
        write_history_archive pg2 x rel end_name typeid old_row db) := by
  unfold write_history_close
  rw [SPI_getbinval_catalog pg pg2 _ _ _ hsys]
  cases b with
  | true => left; simp
  | false =>
    simp only [Bool.false_eq_true, if_false]
    cases hc : CompareWithCurrentDatum x typeid (SPI_getbinval pg old_row rel.rd_att start_num).1 with
    | error e => left; simp
    | ok cmp =>
      simp only
      by_cases h0 : cmp = 0
      · left; simp [h0]
      · by_cases h1 : cmp > 0
        · left; simp [h0, h1]
        · right; simp [h0, h1]

/-- The same for the part of write_history that starts with the period lookup. -/
theorem write_history_validate_split (pg pg2 : Catalog) (x : Xact) (trigdata : TriggerData)
    (old_row new_row : HeapTuple) (b : Bool) (db : DbState)
    (hper : pg2.periods = pg.periods)
    (hsys : pg2.heap_getsysattr = pg.heap_getsysattr) :
    (write_history_validate pg2 x trigdata old_row new_row b db =
        write_history_validate pg x trigdata old_row new_row b db ∧
      (write_history_validate pg x trigdata old_row new_row b db).2 = db) ∨
    ∃ end_name typeid,
      write_history_validate pg x trigdata old_row new_row b db =
        write_history_archive pg x trigdata.tg_relation end_name typeid old_row db ∧
      write_history_validate pg2 x trigdata old_row new_row b db =
        write_history_archive pg2 x trigdata.tg_relation end_name typeid old_row db := by
  unfold write_history_validate
  simp only [GetPeriodColumnNames_catalog pg pg2 _ _ hper,
    SPI_getbinval_catalog pg pg2 _ _ _ hsys]
  cases hp : GetPeriodColumnNames pg trigdata.tg_relation "system_time" with
  | error e => left; simp
  | ok names =>
    obtain ⟨start_name, end_name⟩ := names
    simp only
    have hclose := write_history_close_split pg pg2 x trigdata.tg_relation
      (SPI_fnumber trigdata.tg_relation.rd_att start_name) end_name
      (SPI_gettypeid trigdata.tg_relation.rd_att
        (SPI_fnumber trigdata.tg_relation.rd_att start_name)) old_row b db hsys
    have hreach : (write_history_close pg2 x trigdata.tg_relation
          (SPI_fnumber trigdata.tg_relation.rd_att start_name) end_name
          (SPI_gettypeid trigdata.tg_relation.rd_att
            (SPI_fnumber trigdata.tg_relation.rd_att start_name)) old_row b db =
        write_history_close pg x trigdata.tg_relation
          (SPI_fnumber trigdata.tg_relation.rd_att start_name) end_name
          (SPI_gettypeid trigdata.tg_relation.rd_att
            (SPI_fnumber trigdata.tg_relation.rd_att start_name)) old_row b db ∧
        (write_history_close pg x trigdata.tg_relation
          (SPI_fnumber trigdata.tg_relation.rd_att start_name) end_name
          (SPI_gettypeid trigdata.tg_relation.rd_att
            (SPI_fnumber trigdata.tg_relation.rd_att start_name)) old_row b db).2 = db) ∨
      ∃ en ty,
        write_history_close pg x trigdata.tg_relation
          (SPI_fnumber trigdata.tg_relation.rd_att start_name) end_name
          (SPI_gettypeid trigdata.tg_relation.rd_att
            (SPI_fnumber trigdata.tg_relation.rd_att start_name)) old_row b db =
          write_history_archive pg x trigdata.tg_relation en ty old_row db ∧
        write_history_close pg2 x trigdata.tg_relation
          (SPI_fnumber trigdata.tg_relation.rd_att start_name) end_name
          (SPI_gettypeid trigdata.tg_relation.rd_att
            (SPI_fnumber trigdata.tg_relation.rd_att start_name)) old_row b db =
          write_history_archive pg2 x trigdata.tg_relation en ty old_row db := by
      rcases hclose with h | h
      · exact Or.inl h
      · exact Or.inr ⟨_, _, h⟩
    by_cases hcond : (TRIGGER_FIRED_BY_INSERT trigdata.tg_event ||
        (TRIGGER_FIRED_BY_UPDATE trigdata.tg_event && !b)) = true
    · simp only [hcond, if_true]
      cases hc1 : CompareWithCurrentDatum x
          (SPI_gettypeid trigdata.tg_relation.rd_att
            (SPI_fnumber trigdata.tg_relation.rd_att start_name))
          (SPI_getbinval pg new_row trigdata.tg_relation.rd_att
            (SPI_fnumber trigdata.tg_relation.rd_att start_name)).1 with
      | error e => left; simp
      | ok c =>
        simp only
        by_cases hc0 : c ≠ 0
        · left; simp [hc0]
        · simp only [hc0, if_false]
          cases hc2 : CompareWithInfiniteDatum
              (SPI_gettypeid trigdata.tg_relation.rd_att
                (SPI_fnumber trigdata.tg_relation.rd_att start_name))
              (SPI_getbinval pg new_row trigdata.tg_relation.rd_att
                (SPI_fnumber trigdata.tg_relation.rd_att end_name)).1 with
          | error e => left; simp
          | ok c2 =>
            simp only
            by_cases hc20 : c2 ≠ 0
            · left; simp [hc20]
            · simp only [hc20, if_false]
              by_cases hi : TRIGGER_FIRED_BY_INSERT trigdata.tg_event = true
              · left; simp [hi]
              · simp only [hi, if_false]
                exact hreach
    · simp only [hcond, if_false]
      exact hreach

/-- Two catalogs that agree on the periods, the excluded columns and the
system attributes: write_history gives the same result with the state
unchanged, or reaches the last part (the history table) in both. -/
theorem write_history_split (pg pg2 : Catalog) (x : Xact) (fcinfo : FunctionCallInfo)
    (db : DbState)
    (hper : pg2.periods = pg.periods)
    (hstp : pg2.system_time_periods = pg.system_time_periods)
    (hsys : pg2.heap_getsysattr = pg.heap_getsysattr) :
    (write_history pg2 x fcinfo db = write_history pg x fcinfo db ∧
      (write_history pg x fcinfo db).2 = db) ∨
    ∃ trigdata end_name typeid old_row,
      fcinfo.context = some trigdata ∧
      write_history pg x fcinfo db =
        write_history_archive pg x trigdata.tg_relation end_name typeid old_row db ∧
      write_history pg2 x fcinfo db =
        write_history_archive pg2 x trigdata.tg_relation end_name typeid old_row db := by
  have hv : ∀ (trigdata : TriggerData) (old_row new_row : HeapTuple) (b : Bool),
      (write_history_validate pg2 x trigdata old_row new_row b db =
          write_history_validate pg x trigdata old_row new_row b db ∧
        (write_history_validate pg x trigdata old_row new_row b db).2 = db) ∨
      ∃ td end_name typeid old,
        some trigdata = some td ∧
        write_history_validate pg x trigdata old_row new_row b db =
          write_history_archive pg x td.tg_relation end_name typeid old db ∧
        write_history_validate pg2 x trigdata old_row new_row b db =
          write_history_archive pg2 x td.tg_relation end_name typeid old db := by
    intro trigdata old_row new_row b
    rcases write_history_validate_split pg pg2 x trigdata old_row new_row b db hper hsys with
      h | ⟨en, ty, h⟩
    · exact Or.inl h
    · exact Or.inr ⟨trigdata, en, ty, _, rfl, h⟩
  unfold write_history
  cases hctx : fcinfo.context with
  | none => left; simp
  | some trigdata =>
    simp only
    by_cases hproto : (!TRIGGER_FIRED_AFTER trigdata.tg_event ||
        !TRIGGER_FIRED_FOR_ROW trigdata.tg_event) = true
    · left; simp [hproto]
    · simp only [hproto, if_false]
      by_cases hi : TRIGGER_FIRED_BY_INSERT trigdata.tg_event = true
      · simp only [hi, if_true]
        exact hv _ _ _ _
      · simp only [hi, if_false]
        by_cases hu : TRIGGER_FIRED_BY_UPDATE trigdata.tg_event = true
        · simp only [hu, if_true, OnlyExcludedColumnsChanged_catalog pg pg2 _ _ _ hstp hsys]
          cases hx : OnlyExcludedColumnsChanged pg trigdata.tg_relation trigdata.tg_trigtuple
              trigdata.tg_newtuple with
          | error e => left; simp
          | ok b =>
            simp only
            exact hv _ _ _ _
        · simp only [hu, if_false]
          by_cases hd : TRIGGER_FIRED_BY_DELETE trigdata.tg_event = true
          · simp only [hd, if_true]
            exact hv _ _ _ _
          · left; simp [hd]

/-! ## C12: a table without system versioning -/

/-- C12. When the catalog associates no history table with the table
(GetHistoryTable returns InvalidOid): write_history leaves the database state
as it was (no row is inserted) whatever the call; an UPDATE or DELETE that
passes the earlier checks with the old row's start before the transaction
start returns successfully; and the generated-always error and the invalid
row version error are raised exactly when they are raised under a catalog
that differs in the system versioning (and the relations) only. -/
theorem C12_no_history_table_no_archiving (pg : Catalog) (x : Xact)
    (fcinfo : FunctionCallInfo) (db : DbState)
    (hno : ∀ trigdata, fcinfo.context = some trigdata →
      GetHistoryTable pg trigdata.tg_relation = InvalidOid) :
    (write_history pg x fcinfo db).2 = db ∧
    (∀ (trigdata : TriggerData) (start_name end_name : String) (now : Datum),
      fcinfo.context = some trigdata →
      TRIGGER_FIRED_AFTER trigdata.tg_event = true →
      TRIGGER_FIRED_FOR_ROW trigdata.tg_event = true →
      (TRIGGER_FIRED_BY_DELETE trigdata.tg_event = true ∨
        (TRIGGER_FIRED_BY_UPDATE trigdata.tg_event = true ∧
          OnlyExcludedColumnsChanged pg trigdata.tg_relation trigdata.tg_trigtuple
            trigdata.tg_newtuple = .ok false ∧
          CompareWithCurrentDatum x
            (SPI_gettypeid trigdata.tg_relation.rd_att
              (SPI_fnumber trigdata.tg_relation.rd_att start_name))
            (SPI_getbinval pg trigdata.tg_newtuple trigdata.tg_relation.rd_att
              (SPI_fnumber trigdata.tg_relation.rd_att start_name)).1 = .ok 0 ∧
          CompareWithInfiniteDatum
            (SPI_gettypeid trigdata.tg_relation.rd_att
              (SPI_fnumber trigdata.tg_relation.rd_att start_name))
            (SPI_getbinval pg trigdata.tg_newtuple trigdata.tg_relation.rd_att
              (SPI_fnumber trigdata.tg_relation.rd_att end_name)).1 = .ok 0)) →
      GetPeriodColumnNames pg trigdata.tg_relation "system_time" = .ok (start_name, end_name) →
      GetRowStart x (SPI_gettypeid trigdata.tg_relation.rd_att
        (SPI_fnumber trigdata.tg_relation.rd_att start_name)) = .ok now →
      (SPI_getbinval pg trigdata.tg_trigtuple trigdata.tg_relation.rd_att
        (SPI_fnumber trigdata.tg_relation.rd_att start_name)).1 < now →
      write_history pg x fcinfo db = (.ok (), db)) ∧
    (∀ (pg2 : Catalog) (e : Err),
      pg2.periods = pg.periods →
      pg2.system_time_periods = pg.system_time_periods →
      pg2.heap_getsysattr = pg.heap_getsysattr →
      (e = .invalidRowVersion ∨ ∃ col detail, e = .generatedAlways col detail) →
      ((write_history pg x fcinfo db).1 = .error e ↔
        (write_history pg2 x fcinfo db).1 = .error e)) := by
  refine ⟨?_, ?_, ?_⟩
  · rcases write_history_split pg pg x fcinfo db rfl rfl rfl with
      h | ⟨td, en, ty, old, hctx, h, _⟩
    · exact h.2
    · rw [h, write_history_archive_no_history pg x _ en ty old db (hno td hctx)]
  · intro trigdata start_name end_name now hctx hafter hrow hop hperiod hnow hlt
    have hf : fcinfo = ⟨some trigdata⟩ := by
      cases fcinfo
      simp only at hctx
      rw [hctx]
    rw [hf, write_history_reaches_archive pg x trigdata db start_name end_name now hafter hrow
      hop hperiod hnow hlt]
    exact write_history_archive_no_history pg x _ _ _ _ db (hno _ hctx)
  · intro pg2 e hper hstp hsys he
    rcases write_history_split pg pg2 x fcinfo db hper hstp hsys with
      h | ⟨td, en, ty, old, hctx, h1, h2⟩
    · rw [h.1]
    · rw [h1, h2, write_history_archive_no_history pg x _ en ty old db (hno td hctx)]
      constructor
      · intro h; simp at h
      · intro h
        exfalso
        have := write_history_archive_errors pg2 x _ en ty old db e h
        rcases he with he | ⟨col, detail, he⟩
        · exact this.1 he
        · exact this.2 col detail he

/-- C12 at a DELETE from the sample table, without system versioning, of a
row opened at 500 in a transaction that started at 700. -/
theorem C12_no_history_table_no_archiving_witness :
    (write_history sampleCatalogNoHistory ⟨700, 701, 702⟩
      ⟨some { tg_event := 5, tg_relation := sampleRel,
              tg_trigtuple := [some 1, some 10, some 500, some DT_NOEND] }⟩ {}).2 = {} ∧
    write_history sampleCatalogNoHistory ⟨700, 701, 702⟩
      ⟨some { tg_event := 5, tg_relation := sampleRel,
              tg_trigtuple := [some 1, some 10, some 500, some DT_NOEND] }⟩ {} = (.ok (), {}) :=
  have h := C12_no_history_table_no_archiving sampleCatalogNoHistory ⟨700, 701, 702⟩
    ⟨some { tg_event := 5, tg_relation := sampleRel,
            tg_trigtuple := [some 1, some 10, some 500, some DT_NOEND] }⟩ {}
    (fun _ _ => rfl)
  ⟨h.1, h.2.1 { tg_event := 5, tg_relation := sampleRel,
                tg_trigtuple := [some 1, some 10, some 500, some DT_NOEND] } "s" "e" 700 rfl
      (by decide) (by decide) (Or.inl (by decide)) (by decide) (by decide) (by decide)⟩

/-! ## The kinds of error each part raises -/

theorem GetPeriodColumnNames_error (pg : Catalog) (rel : Relation) (period_name : String)
    (e : Err) (h : GetPeriodColumnNames pg rel period_name = .error e) :
    e = .periodNotFound period_name rel.relname := by
  unfold GetPeriodColumnNames at h
  split at h
  · simp only [Except.error.injEq] at h; exact h.symm
  · simp at h

theorem GetRowEnd_error (typeid : Oid) (e : Err) (h : GetRowEnd typeid = .error e) :
    e = .unexpectedType typeid := by
  unfold GetRowEnd at h
  repeat (split at h; · simp at h)
  simp only [Except.error.injEq] at h; exact h.symm

theorem CompareWithInfiniteDatum_error (typeid : Oid) (value : Datum) (e : Err)
    (h : CompareWithInfiniteDatum typeid value = .error e) : e = .unexpectedType typeid := by
  unfold CompareWithInfiniteDatum at h
  repeat (split at h; · simp at h)
  simp only [Except.error.injEq] at h; exact h.symm

theorem excludedAttnums_error (desc : TupleDesc) (names : List String) (acc : Bitmapset)
    (e : Err) (h : excludedAttnums desc names acc = .error e) :
    ∃ attname, e = .undefinedColumn attname := by
  induction names generalizing acc with
  | nil => simp [excludedAttnums] at h
  | cons name rest ih =>
    simp only [excludedAttnums] at h
    split at h
    · simp only [Except.error.injEq] at h; exact ⟨_, h.symm⟩
    · split at h
      · exact ih _ h
      · exact ih _ h

theorem OnlyExcludedColumnsChanged_error (pg : Catalog) (rel : Relation)
    (old_row new_row : HeapTuple) (e : Err)
    (h : OnlyExcludedColumnsChanged pg rel old_row new_row = .error e) :
    ∃ attname, e = .undefinedColumn attname := by
  unfold OnlyExcludedColumnsChanged at h
  simp only at h
  cases hex : excludedAttnums rel.rd_att (excludedColumnNames pg rel.rd_id) [] with
  | error e2 =>
    rw [hex] at h
    simp only [Except.error.injEq] at h
    subst h
    exact excludedAttnums_error _ _ _ _ hex
  | ok ex =>
    rw [hex] at h
    simp only at h
    split at h <;> simp at h

theorem heap_modify_loop_error (numberOfAttributes : Nat) (l : List (Int × Datum × Bool))
    (vn : List Datum × List Bool) (e : Err)
    (h : heap_modify_loop numberOfAttributes l vn = .error e) :
    ∃ attnum, e = .invalidColumnNumber attnum := by
  induction l generalizing vn with
  | nil => simp [heap_modify_loop] at h
  | cons c rest ih =>
    obtain ⟨attnum, v, n⟩ := c
    obtain ⟨values, isnull⟩ := vn
    simp only [heap_modify_loop] at h
    split at h
    · simp only [Except.error.injEq] at h; exact ⟨_, h.symm⟩
    · exact ih _ h

theorem heap_modify_tuple_by_cols_error (tuple : HeapTuple) (tupleDesc : TupleDesc)
    (replCols : List Int) (replValues : List Datum) (replIsnull : List Bool) (e : Err)
    (h : heap_modify_tuple_by_cols tuple tupleDesc replCols replValues replIsnull = .error e) :
    ∃ attnum, e = .invalidColumnNumber attnum := by
  unfold heap_modify_tuple_by_cols at h
  cases hl : heap_modify_loop tupleDesc.length (replCols.zip (replValues.zip replIsnull))
      (heap_deform_tuple tuple tupleDesc) with
  | error e2 =>
    rw [hl] at h
    simp only [Except.error.injEq] at h
    subst h
    exact heap_modify_loop_error _ _ _ _ hl
  | ok vn =>
    rw [hl] at h
    simp at h

/-- The last part of write_history raises no trigger protocol violation. -/
theorem write_history_archive_not_protocol (pg : Catalog) (x : Xact) (rel : Relation)
    (end_name : String) (typeid : Oid) (old_row : HeapTuple) (db : DbState) (e : Err)
    (h : (write_history_archive pg x rel end_name typeid old_row db).1 = .error e) :
    e.isProtocolViolation = false := by
  unfold write_history_archive at h
  simp only at h
  split at h
  · cases ho : table_open pg (GetHistoryTable pg rel) with
    | error e2 =>
      rw [ho] at h; simp only [Except.error.injEq] at h; subst h
      rw [table_open_error _ _ _ ho]; rfl
    | ok history_rel =>
      rw [ho] at h
      simp only at h
      cases hc : convert_tuples_by_name rel.rd_att history_rel.rd_att with
      | error e2 =>
        rw [hc] at h; simp only [Except.error.injEq] at h; subst h
        obtain ⟨attname, he⟩ := convert_tuples_by_name_error _ _ _ hc
        rw [he]; rfl
      | ok map =>
        rw [hc] at h
        simp only at h
        cases hg : GetRowStart x typeid with
        | error e2 =>
          rw [hg] at h; simp only [Except.error.injEq] at h; subst h
          rw [GetRowStart_error _ _ _ hg]; rfl
        | ok now =>
          rw [hg] at h
          simp only at h
          rw [insert_into_history_fst] at h
          simp at h
  · simp at h

theorem write_history_close_not_protocol (pg : Catalog) (x : Xact) (rel : Relation)
    (start_num : Int) (end_name : String) (typeid : Oid) (old_row : HeapTuple) (b : Bool)
    (db : DbState) (e : Err)
    (h : (write_history_close pg x rel start_num end_name typeid old_row b db).1 = .error e) :
    e.isProtocolViolation = false := by
  unfold write_history_close at h
  split at h
  · simp at h
  · cases hc : CompareWithCurrentDatum x typeid
        (SPI_getbinval pg old_row rel.rd_att start_num).1 with
    | error e2 =>
      rw [hc] at h; simp only [Except.error.injEq] at h; subst h
      rw [CompareWithCurrentDatum_error _ _ _ _ hc]; rfl
    | ok cmp =>
      rw [hc] at h
      simp only at h
      split at h
      · simp at h
      · split at h
        · simp only [Except.error.injEq] at h; subst h; rfl
        · exact write_history_archive_not_protocol pg x rel end_name typeid old_row db e h

theorem write_history_validate_not_protocol (pg : Catalog) (x : Xact) (trigdata : TriggerData)
    (old_row new_row : HeapTuple) (b : Bool) (db : DbState) (e : Err)
    (h : (write_history_validate pg x trigdata old_row new_row b db).1 = .error e) :
    e.isProtocolViolation = false := by
  unfold write_history_validate at h
  simp only at h
  cases hp : GetPeriodColumnNames pg trigdata.tg_relation "system_time" with
  | error e2 =>
    rw [hp] at h; simp only [Except.error.injEq] at h; subst h
    rw [GetPeriodColumnNames_error _ _ _ _ hp]; rfl
  | ok names =>
    obtain ⟨start_name, end_name⟩ := names
    rw [hp] at h
    simp only at h
    split at h
    · cases hc1 : CompareWithCurrentDatum x
          (SPI_gettypeid trigdata.tg_relation.rd_att
            (SPI_fnumber trigdata.tg_relation.rd_att start_name))
          (SPI_getbinval pg new_row trigdata.tg_relation.rd_att
            (SPI_fnumber trigdata.tg_relation.rd_att start_name)).1 with
      | error e2 =>
        rw [hc1] at h; simp only [Except.error.injEq] at h; subst h
        rw [CompareWithCurrentDatum_error _ _ _ _ hc1]; rfl
      | ok c =>
        rw [hc1] at h
        simp only at h
        split at h
        · simp only [Except.error.injEq] at h; subst h; rfl
        · cases hc2 : CompareWithInfiniteDatum
              (SPI_gettypeid trigdata.tg_relation.rd_att
                (SPI_fnumber trigdata.tg_relation.rd_att start_name))
              (SPI_getbinval pg new_row trigdata.tg_relation.rd_att
                (SPI_fnumber trigdata.tg_relation.rd_att end_name)).1 with
          | error e2 =>
            rw [hc2] at h; simp only [Except.error.injEq] at h; subst h
            rw [CompareWithInfiniteDatum_error _ _ _ hc2]; rfl
          | ok c2 =>
            rw [hc2] at h
            simp only at h
            split at h
            · simp only [Except.error.injEq] at h; subst h; rfl
            · split at h
              · simp at h
              · exact write_history_close_not_protocol _ _ _ _ _ _ _ _ _ e h
    · exact write_history_close_not_protocol _ _ _ _ _ _ _ _ _ e h

/-- On an INSERT the part of write_history that starts with the period
lookup leaves the state as it was and raises no invalid row version error. -/
theorem write_history_validate_insert_outcome (pg : Catalog) (x : Xact)
    (trigdata : TriggerData) (old_row new_row : HeapTuple) (db : DbState)
    (hi : TRIGGER_FIRED_BY_INSERT trigdata.tg_event = true) :
    ∃ o, write_history_validate pg x trigdata old_row new_row false db = (o, db) ∧
      o ≠ .error .invalidRowVersion := by
  unfold write_history_validate
  simp only [hi, Bool.true_or, if_true]
  cases hp : GetPeriodColumnNames pg trigdata.tg_relation "system_time" with
  | error e =>
    refine ⟨_, rfl, ?_⟩
    rw [GetPeriodColumnNames_error _ _ _ _ hp]
    simp
  | ok names =>
    obtain ⟨start_name, end_name⟩ := names
    simp only
    cases hc1 : CompareWithCurrentDatum x
        (SPI_gettypeid trigdata.tg_relation.rd_att
          (SPI_fnumber trigdata.tg_relation.rd_att start_name))
        (SPI_getbinval pg new_row trigdata.tg_relation.rd_att
          (SPI_fnumber trigdata.tg_relation.rd_att start_name)).1 with
    | error e =>
      refine ⟨_, rfl, ?_⟩
      rw [CompareWithCurrentDatum_error _ _ _ _ hc1]
      simp
    | ok c =>
      simp only
      by_cases hc0 : c ≠ 0
      · rw [if_pos hc0]
        exact ⟨_, rfl, by simp⟩
      · rw [if_neg hc0]
        cases hc2 : CompareWithInfiniteDatum
            (SPI_gettypeid trigdata.tg_relation.rd_att
              (SPI_fnumber trigdata.tg_relation.rd_att start_name))
            (SPI_getbinval pg new_row trigdata.tg_relation.rd_att
              (SPI_fnumber trigdata.tg_relation.rd_att end_name)).1 with
        | error e =>
          refine ⟨_, rfl, ?_⟩
          rw [CompareWithInfiniteDatum_error _ _ _ hc2]
          simp
        | ok c2 =>
          simp only
          by_cases hc20 : c2 ≠ 0
          · rw [if_pos hc20]
            exact ⟨_, rfl, by simp⟩
          · rw [if_neg hc20]
            exact ⟨_, rfl, by simp⟩

/-! ## C13: the outcomes of write_history on an INSERT -/

/-- C13. For every INSERT, write_history leaves the database state as it was
(it inserts nothing into a history table) and never raises the invalid row
version error; fired AFTER ROW on a table with a system_time period of a
supported type, its only outcomes are success and the generated-always
error. -/
theorem C13_insert_only_validates (pg : Catalog) (x : Xact) (trigdata : TriggerData)
    (db : DbState)
    (hi : TRIGGER_FIRED_BY_INSERT trigdata.tg_event = true) :
    (write_history pg x ⟨some trigdata⟩ db).2 = db ∧
    (write_history pg x ⟨some trigdata⟩ db).1 ≠ .error .invalidRowVersion ∧
    (∀ (start_name end_name : String) (now : Datum),
      TRIGGER_FIRED_AFTER trigdata.tg_event = true →
      TRIGGER_FIRED_FOR_ROW trigdata.tg_event = true →
      GetPeriodColumnNames pg trigdata.tg_relation "system_time" = .ok (start_name, end_name) →
      GetRowStart x (SPI_gettypeid trigdata.tg_relation.rd_att
        (SPI_fnumber trigdata.tg_relation.rd_att start_name)) = .ok now →
      (write_history pg x ⟨some trigdata⟩ db = (.ok (), db) ∨
        ∃ col detail, write_history pg x ⟨some trigdata⟩ db =
          (.error (.generatedAlways col detail), db))) := by
  have hout : ∃ o, write_history pg x ⟨some trigdata⟩ db = (o, db) ∧
      o ≠ .error .invalidRowVersion := by
    unfold write_history
    by_cases hproto : (!TRIGGER_FIRED_AFTER trigdata.tg_event ||
        !TRIGGER_FIRED_FOR_ROW trigdata.tg_event) = true
    · simp only [hproto, if_true]
      exact ⟨_, rfl, by simp⟩
    · simp only [hproto, hi, if_true, if_false]
      exact write_history_validate_insert_outcome pg x trigdata _ _ db hi
  obtain ⟨o, ho, hne⟩ := hout
  refine ⟨by rw [ho], by rw [ho]; exact hne, ?_⟩
  intro start_name end_name now hafter hrow hperiod hnow
  obtain ⟨inf, hinf⟩ := SupportedType_GetRowEnd _ (GetRowStart_supported x _ now hnow)
  rw [write_history_insert pg x trigdata db hafter hrow hi,
    write_history_validate_cases pg x trigdata db _ _ start_name end_name now inf (Or.inl hi)
      hperiod hnow hinf]
  split
  · exact Or.inr ⟨_, _, rfl⟩
  · split
    · exact Or.inr ⟨_, _, rfl⟩
    · exact Or.inl rfl

/-- C13 at an INSERT into the sample table of a row with a written start
column: the generated-always error, nothing inserted. -/
theorem C13_insert_only_validates_witness :
    (write_history sampleCatalog ⟨700, 701, 702⟩
      ⟨some { tg_event := 4, tg_relation := sampleRel,
              tg_trigtuple := [some 1, some 10, some 900, some DT_NOEND] }⟩ {}).2 = {} ∧
    (write_history sampleCatalog ⟨700, 701, 702⟩
      ⟨some { tg_event := 4, tg_relation := sampleRel,
              tg_trigtuple := [some 1, some 10, some 900, some DT_NOEND] }⟩ {}).1 ≠
      .error .invalidRowVersion ∧
    (write_history sampleCatalog ⟨700, 701, 702⟩
        ⟨some { tg_event := 4, tg_relation := sampleRel,
                tg_trigtuple := [some 1, some 10, some 900, some DT_NOEND] }⟩ {} =
        (.ok (), {}) ∨
      ∃ col detail, write_history sampleCatalog ⟨700, 701, 702⟩
        ⟨some { tg_event := 4, tg_relation := sampleRel,
                tg_trigtuple := [some 1, some 10, some 900, some DT_NOEND] }⟩ {} =
        (.error (.generatedAlways col detail), {})) :=
  have h := C13_insert_only_validates sampleCatalog ⟨700, 701, 702⟩
    { tg_event := 4, tg_relation := sampleRel,
      tg_trigtuple := [some 1, some 10, some 900, some DT_NOEND] } {} (by decide)
  ⟨h.1, h.2.1, h.2.2 "s" "e" 700 (by decide) (by decide) (by decide) (by decide)⟩

/-! ## C14: a table without a system_time period -/

/-- C14, as the claim states it, fails on an UPDATE in two ways, both with
no system_time period in the catalog.  With `last_login` listed as excluded,
an UPDATE of `last_login` only is classified as only-excluded and
generated_always_as_row_start_end returns the new row before the period is
looked up.  With the excluded name `nope`, which is no column of the table,
the classification itself fails, before the period is looked up, and both
functions raise the undefined column error, not the period not found
error. -/
theorem C14_only_excluded_update_skips_period_lookup :
    periodRows sampleCatalogNoPeriod sampleRel.rd_id "system_time" = [] ∧
    generated_always_as_row_start_end sampleCatalogNoPeriod ⟨700, 701, 702⟩
      ⟨some { tg_event := 14, tg_relation := sampleRel,
              tg_trigtuple := [some 1, some 10, some 500, some DT_NOEND],
              tg_newtuple := [some 1, some 20, some 500, some DT_NOEND] }⟩ =
      .ok [some 1, some 20, some 500, some DT_NOEND] ∧
    periodRows sampleCatalogNoPeriodUnknownExcluded sampleRel.rd_id "system_time" = [] ∧
    generated_always_as_row_start_end sampleCatalogNoPeriodUnknownExcluded ⟨700, 701, 702⟩
      ⟨some { tg_event := 14, tg_relation := sampleRel,
              tg_trigtuple := [some 1, some 10, some 500, some DT_NOEND],
              tg_newtuple := [some 2, some 10, some 500, some DT_NOEND] }⟩ =
      .error (.undefinedColumn "nope") ∧
    write_history sampleCatalogNoPeriodUnknownExcluded ⟨700, 701, 702⟩
      ⟨some { tg_event := 6, tg_relation := sampleRel,
              tg_trigtuple := [some 1, some 10, some 500, some DT_NOEND],
              tg_newtuple := [some 2, some 10, some 700, some DT_NOEND] }⟩ {} =
      (.error (.undefinedColumn "nope"), {}) := by
  decide

/-- C14, amended. If the catalog holds no system_time period for the table:
every INSERT given to generated_always_as_row_start_end (fired BEFORE ROW),
and every UPDATE given to it that OnlyExcludedColumnsChanged classifies as not
only-excluded, fails with the period not found error; every INSERT and DELETE
given to write_history (fired AFTER ROW), and every UPDATE given to it that
OnlyExcludedColumnsChanged classifies (either way), fails with the period not
found error and leaves the database state as it was.  An UPDATE on which
OnlyExcludedColumnsChanged itself fails makes both functions fail with that
error, and an UPDATE classified as only-excluded is returned as it came by
generated_always_as_row_start_end. -/
theorem C14_missing_period_is_an_error (pg : Catalog) (x : Xact) (rel : Relation)
    (old_row new_row : HeapTuple) (db : DbState) (before_event after_event : Nat)
    (hnone : periodRows pg rel.rd_id "system_time" = []) :
    (TRIGGER_FIRED_BEFORE before_event = true → TRIGGER_FIRED_FOR_ROW before_event = true →
      (TRIGGER_FIRED_BY_INSERT before_event = true ∨
        (TRIGGER_FIRED_BY_UPDATE before_event = true ∧
          OnlyExcludedColumnsChanged pg rel old_row new_row = .ok false)) →
      generated_always_as_row_start_end pg x
        ⟨some { tg_event := before_event, tg_relation := rel, tg_trigtuple := old_row,
                tg_newtuple := new_row }⟩ = .error (.periodNotFound "system_time" rel.relname)) ∧
    (TRIGGER_FIRED_AFTER after_event = true → TRIGGER_FIRED_FOR_ROW after_event = true →
      (TRIGGER_FIRED_BY_INSERT after_event = true ∨
        (TRIGGER_FIRED_BY_UPDATE after_event = true ∧
          ∃ b, OnlyExcludedColumnsChanged pg rel old_row new_row = .ok b) ∨
        TRIGGER_FIRED_BY_DELETE after_event = true) →
      write_history pg x
        ⟨some { tg_event := after_event, tg_relation := rel, tg_trigtuple := old_row,
                tg_newtuple := new_row }⟩ db =
        (.error (.periodNotFound "system_time" rel.relname), db)) ∧
    (∀ e, OnlyExcludedColumnsChanged pg rel old_row new_row = .error e →
      (TRIGGER_FIRED_BEFORE before_event = true → TRIGGER_FIRED_FOR_ROW before_event = true →
        TRIGGER_FIRED_BY_UPDATE before_event = true →
        generated_always_as_row_start_end pg x
          ⟨some { tg_event := before_event, tg_relation := rel, tg_trigtuple := old_row,
                  tg_newtuple := new_row }⟩ = .error e) ∧
      (TRIGGER_FIRED_AFTER after_event = true → TRIGGER_FIRED_FOR_ROW after_event = true →
        TRIGGER_FIRED_BY_UPDATE after_event = true →
        write_history pg x
          ⟨some { tg_event := after_event, tg_relation := rel, tg_trigtuple := old_row,
                  tg_newtuple := new_row }⟩ db = (.error e, db))) ∧
    (OnlyExcludedColumnsChanged pg rel old_row new_row = .ok true →
      TRIGGER_FIRED_BEFORE before_event = true → TRIGGER_FIRED_FOR_ROW before_event = true →
      TRIGGER_FIRED_BY_UPDATE before_event = true →
      generated_always_as_row_start_end pg x
        ⟨some { tg_event := before_event, tg_relation := rel, tg_trigtuple := old_row,
                tg_newtuple := new_row }⟩ = .ok new_row) := by
  have hperiod : GetPeriodColumnNames pg rel "system_time" =
      .error (.periodNotFound "system_time" rel.relname) := by
    unfold GetPeriodColumnNames
    rw [hnone]
  have hval : ∀ (trigdata : TriggerData) (o n : HeapTuple) (b : Bool),
      trigdata.tg_relation = rel →
      write_history_validate pg x trigdata o n b db =
        (.error (.periodNotFound "system_time" rel.relname), db) := by
    intro trigdata o n b hrel
    unfold write_history_validate
    simp only [hrel, hperiod]
  refine ⟨?_, ?_, ?_, ?_⟩
  · intro hbefore hrow hop
    unfold generated_always_as_row_start_end
    simp only [hbefore, hrow, Bool.not_true, Bool.or_self, Bool.false_eq_true, if_false, hperiod]
    rcases hop with hi | ⟨hu, hx⟩
    · simp only [hi, if_true]
    · simp only [not_insert_of_update _ hu, hu, hx, Bool.false_eq_true, if_false, if_true]
  · intro hafter hrow hop
    rcases hop with hi | ⟨hu, b, hx⟩ | hd
    · rw [write_history_insert pg x _ db hafter hrow hi]
      exact hval _ _ _ _ rfl
    · rw [write_history_update pg x _ db b hafter hrow hu hx]
      exact hval _ _ _ _ rfl
    · rw [write_history_delete pg x _ db hafter hrow hd]
      exact hval _ _ _ _ rfl
  · intro e hx
    constructor
    · intro hbefore hrow hu
      unfold generated_always_as_row_start_end
      simp only [hbefore, hrow, Bool.not_true, Bool.or_self, Bool.false_eq_true, if_false,
        not_insert_of_update _ hu, hu, hx, if_true]
    · intro hafter hrow hu
      unfold write_history
      simp only [hafter, hrow, Bool.not_true, Bool.or_self, Bool.false_eq_true, if_false,
        not_insert_of_update _ hu, hu, hx, if_true]
  · intro hx hbefore hrow hu
    exact generated_always_only_excluded pg x
      { tg_event := before_event, tg_relation := rel, tg_trigtuple := old_row,
        tg_newtuple := new_row } hbefore hrow hu hx

/-- C14 (amended) under a catalog without a period for the sample table: the
INSERT fails in the BEFORE ROW trigger, the DELETE in the AFTER ROW trigger. -/
theorem C14_missing_period_is_an_error_witness :
    generated_always_as_row_start_end sampleCatalogNoPeriod ⟨700, 701, 702⟩
      ⟨some { tg_event := 12, tg_relation := sampleRel,
              tg_trigtuple := [some 1, some 10, none, none], tg_newtuple := [] }⟩ =
      .error (.periodNotFound "system_time" "account") ∧
    write_history sampleCatalogNoPeriod ⟨700, 701, 702⟩
      ⟨some { tg_event := 5, tg_relation := sampleRel,
              tg_trigtuple := [some 1, some 10, none, none], tg_newtuple := [] }⟩ {} =
      (.error (.periodNotFound "system_time" "account"), {}) :=
  have h := C14_missing_period_is_an_error sampleCatalogNoPeriod ⟨700, 701, 702⟩ sampleRel
    [some 1, some 10, none, none] [] {} 12 5 (by decide)
  ⟨h.1 (by decide) (by decide) (Or.inl (by decide)),
    h.2.1 (by decide) (by decide) (Or.inr (Or.inr (by decide)))⟩

/-! ## C15: the trigger protocol -/

/-- Fired BEFORE ROW by INSERT or UPDATE, the BEFORE ROW trigger raises no
trigger protocol violation. -/
theorem generated_always_not_protocol (pg : Catalog) (x : Xact) (trigdata : TriggerData)
    (e : Err)
    (hbefore : TRIGGER_FIRED_BEFORE trigdata.tg_event = true)
    (hrow : TRIGGER_FIRED_FOR_ROW trigdata.tg_event = true)
    (hop : TRIGGER_FIRED_BY_INSERT trigdata.tg_event = true ∨
      TRIGGER_FIRED_BY_UPDATE trigdata.tg_event = true)
    (h : generated_always_as_row_start_end pg x ⟨some trigdata⟩ = .error e) :
    e.isProtocolViolation = false := by
  have hstamp : ∀ new_row : HeapTuple,
      (match GetPeriodColumnNames pg trigdata.tg_relation "system_time" with
        | .error e => .error e
        | .ok (start_name, end_name) =>
          match GetRowStart x (SPI_gettypeid trigdata.tg_relation.rd_att
              (SPI_fnumber trigdata.tg_relation.rd_att start_name)) with
          | .error e => .error e
          | .ok v0 =>
            match GetRowEnd (SPI_gettypeid trigdata.tg_relation.rd_att
                (SPI_fnumber trigdata.tg_relation.rd_att start_name)) with
            | .error e => .error e
            | .ok v1 =>
              heap_modify_tuple_by_cols new_row trigdata.tg_relation.rd_att
                [SPI_fnumber trigdata.tg_relation.rd_att start_name,
                  SPI_fnumber trigdata.tg_relation.rd_att end_name] [v0, v1]
                [false, false]) = Except.error e →
      e.isProtocolViolation = false := by
    intro new_row hs
    cases hp : GetPeriodColumnNames pg trigdata.tg_relation "system_time" with
    | error e2 =>
      rw [hp] at hs; simp only [Except.error.injEq] at hs; subst hs
      rw [GetPeriodColumnNames_error _ _ _ _ hp]; rfl
    | ok names =>
      obtain ⟨start_name, end_name⟩ := names
      rw [hp] at hs
      simp only at hs
      cases hg : GetRowStart x (SPI_gettypeid trigdata.tg_relation.rd_att
          (SPI_fnumber trigdata.tg_relation.rd_att start_name)) with
      | error e2 =>
        rw [hg] at hs; simp only [Except.error.injEq] at hs; subst hs
        rw [GetRowStart_error _ _ _ hg]; rfl
      | ok v0 =>
        rw [hg] at hs
        simp only at hs
        cases hge : GetRowEnd (SPI_gettypeid trigdata.tg_relation.rd_att
            (SPI_fnumber trigdata.tg_relation.rd_att start_name)) with
        | error e2 =>
          rw [hge] at hs; simp only [Except.error.injEq] at hs; subst hs
          rw [GetRowEnd_error _ _ hge]; rfl
        | ok v1 =>
          rw [hge] at hs
          simp only at hs
          obtain ⟨attnum, he⟩ := heap_modify_tuple_by_cols_error _ _ _ _ _ _ hs
          rw [he]; rfl
  unfold generated_always_as_row_start_end at h
  simp only [hbefore, hrow, Bool.not_true, Bool.or_self, Bool.false_eq_true, if_false] at h
  by_cases hi : TRIGGER_FIRED_BY_INSERT trigdata.tg_event = true
  · simp only [hi, if_true] at h
    exact hstamp _ h
  · have hu : TRIGGER_FIRED_BY_UPDATE trigdata.tg_event = true := by
      rcases hop with h1 | h1
      · exact absurd h1 hi
      · exact h1
    simp only [not_insert_of_update _ hu, hu, Bool.false_eq_true, if_true, if_false] at h
    cases hx : OnlyExcludedColumnsChanged pg trigdata.tg_relation trigdata.tg_trigtuple
        trigdata.tg_newtuple with
    | error e2 =>
      rw [hx] at h; simp only [Except.error.injEq] at h; subst h
      obtain ⟨attname, he⟩ := OnlyExcludedColumnsChanged_error _ _ _ _ _ hx
      rw [he]; rfl
    | ok b =>
      rw [hx] at h
      cases b with
      | true => simp at h
      | false =>
        simp only at h
        exact hstamp _ h

/-- Fired AFTER ROW by INSERT, UPDATE or DELETE, write_history raises no
trigger protocol violation. -/
theorem write_history_not_protocol (pg : Catalog) (x : Xact) (trigdata : TriggerData)
    (db : DbState) (e : Err)
    (hafter : TRIGGER_FIRED_AFTER trigdata.tg_event = true)
    (hrow : TRIGGER_FIRED_FOR_ROW trigdata.tg_event = true)
    (hop : TRIGGER_FIRED_BY_INSERT trigdata.tg_event = true ∨
      TRIGGER_FIRED_BY_UPDATE trigdata.tg_event = true ∨
      TRIGGER_FIRED_BY_DELETE trigdata.tg_event = true)
    (h : (write_history pg x ⟨some trigdata⟩ db).1 = .error e) :
    e.isProtocolViolation = false := by
  rcases hop with hi | hu | hd
  · rw [write_history_insert pg x trigdata db hafter hrow hi] at h
    exact write_history_validate_not_protocol _ _ _ _ _ _ _ e h
  · cases hx : OnlyExcludedColumnsChanged pg trigdata.tg_relation trigdata.tg_trigtuple
        trigdata.tg_newtuple with
    | error e2 =>
      unfold write_history at h
      simp only [hafter, hrow, Bool.not_true, Bool.or_self, Bool.false_eq_true, if_false,
        not_insert_of_update _ hu, hu, if_true, hx, Except.error.injEq] at h
      subst h
      obtain ⟨attname, he⟩ := OnlyExcludedColumnsChanged_error _ _ _ _ _ hx
      rw [he]; rfl
    | ok b =>
      rw [write_history_update pg x trigdata db b hafter hrow hu hx] at h
      exact write_history_validate_not_protocol _ _ _ _ _ _ _ e h
  · rw [write_history_delete pg x trigdata db hafter hrow hd] at h
    exact write_history_validate_not_protocol _ _ _ _ _ _ _ e h

/-- C15. generated_always_as_row_start_end raises the trigger protocol
violation error when it is not called by the trigger manager, or not fired
BEFORE, FOR EACH ROW, by INSERT or UPDATE, and returns no row then; fired so,
it never raises that error.  write_history raises the trigger protocol
violation error when it is not called by the trigger manager, or not fired
AFTER, FOR EACH ROW, by INSERT, UPDATE or DELETE, and leaves the database state
as it was then; fired so, it never raises that error. -/
theorem C15_trigger_protocol_violations (pg : Catalog) (x : Xact) (fcinfo : FunctionCallInfo)
    (db : DbState) :
    (fcinfo.context = none →
      (∃ msg, generated_always_as_row_start_end pg x fcinfo =
        .error (.triggerProtocolViolated msg)) ∧
      (∃ msg, write_history pg x fcinfo db = (.error (.triggerProtocolViolated msg), db))) ∧
    (∀ trigdata, fcinfo.context = some trigdata →
      (¬ (TRIGGER_FIRED_BEFORE trigdata.tg_event = true ∧
          TRIGGER_FIRED_FOR_ROW trigdata.tg_event = true ∧
          (TRIGGER_FIRED_BY_INSERT trigdata.tg_event = true ∨
            TRIGGER_FIRED_BY_UPDATE trigdata.tg_event = true)) →
        ∃ msg, generated_always_as_row_start_end pg x fcinfo =
          .error (.triggerProtocolViolated msg)) ∧
      (TRIGGER_FIRED_BEFORE trigdata.tg_event = true →
        TRIGGER_FIRED_FOR_ROW trigdata.tg_event = true →
        (TRIGGER_FIRED_BY_INSERT trigdata.tg_event = true ∨
          TRIGGER_FIRED_BY_UPDATE trigdata.tg_event = true) →
        ∀ msg, generated_always_as_row_start_end pg x fcinfo ≠
          .error (.triggerProtocolViolated msg)) ∧
      (¬ (TRIGGER_FIRED_AFTER trigdata.tg_event = true ∧
          TRIGGER_FIRED_FOR_ROW trigdata.tg_event = true ∧
          (TRIGGER_FIRED_BY_INSERT trigdata.tg_event = true ∨
            TRIGGER_FIRED_BY_UPDATE trigdata.tg_event = true ∨
            TRIGGER_FIRED_BY_DELETE trigdata.tg_event = true)) →
        ∃ msg, write_history pg x fcinfo db = (.error (.triggerProtocolViolated msg), db)) ∧
      (TRIGGER_FIRED_AFTER trigdata.tg_event = true →
        TRIGGER_FIRED_FOR_ROW trigdata.tg_event = true →
        (TRIGGER_FIRED_BY_INSERT trigdata.tg_event = true ∨
          TRIGGER_FIRED_BY_UPDATE trigdata.tg_event = true ∨
          TRIGGER_FIRED_BY_DELETE trigdata.tg_event = true) →
        ∀ msg, (write_history pg x fcinfo db).1 ≠ .error (.triggerProtocolViolated msg))) := by
  constructor
  · intro hctx
    unfold generated_always_as_row_start_end write_history
    simp only [hctx]
    exact ⟨⟨_, rfl⟩, ⟨_, rfl⟩⟩
  · intro trigdata hctx
    have hf : fcinfo = ⟨some trigdata⟩ := by
      cases fcinfo
      simp only at hctx
      rw [hctx]
    subst hf
    refine ⟨?_, ?_, ?_, ?_⟩
    · intro hnot
      unfold generated_always_as_row_start_end
      simp only
      by_cases hb : TRIGGER_FIRED_BEFORE trigdata.tg_event = true
      · by_cases hr : TRIGGER_FIRED_FOR_ROW trigdata.tg_event = true
        · by_cases hi : TRIGGER_FIRED_BY_INSERT trigdata.tg_event = true
          · exact absurd ⟨hb, hr, Or.inl hi⟩ hnot
          · by_cases hu : TRIGGER_FIRED_BY_UPDATE trigdata.tg_event = true
            · exact absurd ⟨hb, hr, Or.inr hu⟩ hnot
            · simp only [hb, hr, hi, hu, Bool.not_true, Bool.or_self, Bool.false_eq_true,
                if_false]
              exact ⟨_, rfl⟩
        · have hr2 : TRIGGER_FIRED_FOR_ROW trigdata.tg_event = false := by simpa using hr
          simp only [hb, hr2, Bool.not_true, Bool.not_false, Bool.or_true, if_true]
          exact ⟨_, rfl⟩
      · have hb2 : TRIGGER_FIRED_BEFORE trigdata.tg_event = false := by simpa using hb
        simp only [hb2, Bool.not_false, Bool.true_or, if_true]
        exact ⟨_, rfl⟩
    · intro hb hr hop msg hcon
      have := generated_always_not_protocol pg x trigdata _ hb hr hop hcon
      simp [Err.isProtocolViolation] at this
    · intro hnot
      unfold write_history
      simp only
      by_cases hb : TRIGGER_FIRED_AFTER trigdata.tg_event = true
      · by_cases hr : TRIGGER_FIRED_FOR_ROW trigdata.tg_event = true
        · by_cases hi : TRIGGER_FIRED_BY_INSERT trigdata.tg_event = true
          · exact absurd ⟨hb, hr, Or.inl hi⟩ hnot
          · by_cases hu : TRIGGER_FIRED_BY_UPDATE trigdata.tg_event = true
            · exact absurd ⟨hb, hr, Or.inr (Or.inl hu)⟩ hnot
            · by_cases hd : TRIGGER_FIRED_BY_DELETE trigdata.tg_event = true
              · exact absurd ⟨hb, hr, Or.inr (Or.inr hd)⟩ hnot
              · simp only [hb, hr, hi, hu, hd, Bool.not_true, Bool.or_self,
                  Bool.false_eq_true, if_false]
                exact ⟨_, rfl⟩
        · have hr2 : TRIGGER_FIRED_FOR_ROW trigdata.tg_event = false := by simpa using hr
          simp only [hb, hr2, Bool.not_true, Bool.not_false, Bool.or_true, if_true]
          exact ⟨_, rfl⟩
      · have hb2 : TRIGGER_FIRED_AFTER trigdata.tg_event = false := by simpa using hb
        simp only [hb2, Bool.not_false, Bool.true_or, if_true]
        exact ⟨_, rfl⟩
    · intro hb hr hop msg hcon
      have := write_history_not_protocol pg x trigdata db _ hb hr hop hcon
      simp [Err.isProtocolViolation] at this

/-- C15 at a call of the BEFORE ROW function fired AFTER ROW (event 4) and
a call of write_history fired BEFORE ROW (event 12). -/
theorem C15_trigger_protocol_violations_witness :
    (∃ msg, generated_always_as_row_start_end sampleCatalog ⟨700, 701, 702⟩
      ⟨some { tg_event := 4, tg_relation := sampleRel,
              tg_trigtuple := [some 1, some 10, none, none] }⟩ =
      .error (.triggerProtocolViolated msg)) ∧
    (∃ msg, write_history sampleCatalog ⟨700, 701, 702⟩
      ⟨some { tg_event := 12, tg_relation := sampleRel,
              tg_trigtuple := [some 1, some 10, none, none] }⟩ {} =
      (.error (.triggerProtocolViolated msg), {})) :=
  ⟨((C15_trigger_protocol_violations sampleCatalog ⟨700, 701, 702⟩
      ⟨some { tg_event := 4, tg_relation := sampleRel,
              tg_trigtuple := [some 1, some 10, none, none] }⟩ {}).2 _ rfl).1 (by decide),
    ((C15_trigger_protocol_violations sampleCatalog ⟨700, 701, 702⟩
      ⟨some { tg_event := 12, tg_relation := sampleRel,
              tg_trigtuple := [some 1, some 10, none, none] }⟩ {}).2 _ rfl).2.2.1
      (by decide)⟩

/-! ## C16: the plan cache of insert_into_history -/

/-- C16: the code at a renamed history relation.  The cache holds the plan
prepared for `public.account_history` under relation 200; the relation is now
`archive.account_log`.  Both cached names differ from the current ones, so the
condition `!found || !strcmp(...) || !strcmp(...)` is false: the statement is
not prepared again, the row goes through the plan for the old name and the
cache entry keeps the old names. -/
theorem C16_renamed_relation_keeps_stale_plan :
    insert_into_history
      { rd_id := 200, nspname := "archive", relname := "account_log", rd_att := sampleDesc }
      [some 1, some 10, some 500, some 700]
      { InsertHistoryPlanHash := some [⟨200, "public", "account_history",
          ⟨"public", "account_history"⟩⟩]
        inserted := [] } =
      (.ok (), { InsertHistoryPlanHash := some [⟨200, "public", "account_history",
                   ⟨"public", "account_history"⟩⟩]
                 inserted := [(⟨"public", "account_history"⟩,
                   [some 1, some 10, some 500, some 700])] }) := by
  decide

/-! ## C17: the order of the checks of write_history -/

/-- C17. For an UPDATE not classified as only-excluded whose new row fails
the validation of the period columns (the datum of its start column is not the
transaction start value, or the datum of its end column is not infinity),
write_history raises the generated-always error and leaves the state as it
was, whatever the old row holds, an old start greater than the transaction
start included: the validation runs before the comparison of the old start.
When the start column is wrong, the error is the one for the start column,
also when the end column is wrong too. -/
theorem C17_validation_runs_first (pg : Catalog) (x : Xact) (trigdata : TriggerData)
    (db : DbState) (start_name end_name : String) (now inf : Datum)
    (hafter : TRIGGER_FIRED_AFTER trigdata.tg_event = true)
    (hrow : TRIGGER_FIRED_FOR_ROW trigdata.tg_event = true)
    (hu : TRIGGER_FIRED_BY_UPDATE trigdata.tg_event = true)
    (hx : OnlyExcludedColumnsChanged pg trigdata.tg_relation trigdata.tg_trigtuple
      trigdata.tg_newtuple = .ok false)
    (hperiod : GetPeriodColumnNames pg trigdata.tg_relation "system_time" =
      .ok (start_name, end_name))
    (hnow : GetRowStart x (SPI_gettypeid trigdata.tg_relation.rd_att
      (SPI_fnumber trigdata.tg_relation.rd_att start_name)) = .ok now)
    (hinf : GetRowEnd (SPI_gettypeid trigdata.tg_relation.rd_att
      (SPI_fnumber trigdata.tg_relation.rd_att start_name)) = .ok inf)
    (htamper : (SPI_getbinval pg trigdata.tg_newtuple trigdata.tg_relation.rd_att
        (SPI_fnumber trigdata.tg_relation.rd_att start_name)).1 ≠ now ∨
      (SPI_getbinval pg trigdata.tg_newtuple trigdata.tg_relation.rd_att
        (SPI_fnumber trigdata.tg_relation.rd_att end_name)).1 ≠ inf) :
    (∃ col detail, write_history pg x ⟨some trigdata⟩ db =
      (.error (.generatedAlways col detail), db)) ∧
    (write_history pg x ⟨some trigdata⟩ db).1 ≠ .error .invalidRowVersion ∧
    ((SPI_getbinval pg trigdata.tg_newtuple trigdata.tg_relation.rd_att
        (SPI_fnumber trigdata.tg_relation.rd_att start_name)).1 ≠ now →
      write_history pg x ⟨some trigdata⟩ db =
        (.error (.generatedAlways start_name "ROW START"), db)) := by
  rw [write_history_update pg x trigdata db false hafter hrow hu hx,
    write_history_validate_cases pg x trigdata db _ _ start_name end_name now inf (Or.inr hu)
      hperiod hnow hinf]
  by_cases hs : (SPI_getbinval pg trigdata.tg_newtuple trigdata.tg_relation.rd_att
      (SPI_fnumber trigdata.tg_relation.rd_att start_name)).1 ≠ now
  · rw [if_pos hs]
    exact ⟨⟨_, _, rfl⟩, by simp, fun _ => rfl⟩
  · have he : (SPI_getbinval pg trigdata.tg_newtuple trigdata.tg_relation.rd_att
        (SPI_fnumber trigdata.tg_relation.rd_att end_name)).1 ≠ inf := by
      rcases htamper with h | h
      · exact absurd h hs
      · exact h
    rw [if_neg hs, if_pos he]
    exact ⟨⟨_, _, rfl⟩, by simp, fun h => absurd h hs⟩

/-- C17 at an UPDATE of the sample table: the old row was opened at 900,
after the transaction start 700, and the new row carries a written start (800)
and a written end (999); the error is the one for the start column. -/
theorem C17_validation_runs_first_witness :
    (∃ col detail, write_history sampleCatalog ⟨700, 701, 702⟩
      ⟨some { tg_event := 6, tg_relation := sampleRel,
              tg_trigtuple := [some 1, some 10, some 900, some DT_NOEND],
              tg_newtuple := [some 2, some 10, some 800, some 999] }⟩ {} =
      (.error (.generatedAlways col detail), {})) ∧
    (write_history sampleCatalog ⟨700, 701, 702⟩
      ⟨some { tg_event := 6, tg_relation := sampleRel,
              tg_trigtuple := [some 1, some 10, some 900, some DT_NOEND],
              tg_newtuple := [some 2, some 10, some 800, some 999] }⟩ {}).1 ≠
      .error .invalidRowVersion ∧
    write_history sampleCatalog ⟨700, 701, 702⟩
      ⟨some { tg_event := 6, tg_relation := sampleRel,
              tg_trigtuple := [some 1, some 10, some 900, some DT_NOEND],
              tg_newtuple := [some 2, some 10, some 800, some 999] }⟩ {} =
      (.error (.generatedAlways "s" "ROW START"), {}) :=
  have h := C17_validation_runs_first sampleCatalog ⟨700, 701, 702⟩
    { tg_event := 6, tg_relation := sampleRel,
      tg_trigtuple := [some 1, some 10, some 900, some DT_NOEND],
      tg_newtuple := [some 2, some 10, some 800, some 999] } {} "s" "e" 700 DT_NOEND
    (by decide) (by decide) (by decide) (by decide) (by decide) (by decide) (by decide)
    (Or.inl (by decide))
  ⟨h.1, h.2.1, h.2.2 (by decide)⟩

/-! ## C18: the period columns in OnlyExcludedColumnsChanged -/

/-- C18, as the claim states it, fails: with `last_login` excluded, an old
and a new row that differ in the excluded column and in the period start
column only are not classified as only-excluded; the period columns are
compared like every other column. -/
theorem C18_changed_period_column_is_not_only_excluded :
    OnlyExcludedColumnsChanged sampleCatalogExcluded sampleRel
      [some 1, some 10, some 500, some DT_NOEND] [some 1, some 20, some 700, some DT_NOEND] =
      .ok false ∧
    OnlyExcludedColumnsChanged sampleCatalogExcluded sampleRel
      [some 1, some 10, some 500, some DT_NOEND] [some 1, some 10, some 700, some DT_NOEND] =
      .ok false := by
  decide

theorem datumIsEqual_self (value : Datum) (typByVal : Bool) (typLen : Int) :
    datumIsEqual value value typByVal typLen = true := by
  unfold datumIsEqual
  simp

/-- C18, amended. OnlyExcludedColumnsChanged does not skip the period
columns: with a non-empty excluded set that does not contain the period
columns, an old and a new row that differ in a period column are not
classified as only-excluded (result false), and rows that differ in excluded
columns only are (result true). -/
theorem C18_period_columns_are_compared (pg : Catalog) (rel : Relation)
    (old_row new_row : HeapTuple) (ex : Bitmapset) (start_name end_name : String)
    (_hperiod : GetPeriodColumnNames pg rel "system_time" = .ok (start_name, end_name))
    (hex : excludedAttnums rel.rd_att (excludedColumnNames pg rel.rd_id) [] = .ok ex)
    (hne : ex ≠ [])
    (hs : 1 ≤ SPI_fnumber rel.rd_att start_name)
    (he : 1 ≤ SPI_fnumber rel.rd_att end_name)
    (hsx : start_name ∉ excludedColumnNames pg rel.rd_id)
    (hex2 : end_name ∉ excludedColumnNames pg rel.rd_id) :
    ((SPI_getbinval pg new_row rel.rd_att (SPI_fnumber rel.rd_att start_name) ≠
        SPI_getbinval pg old_row rel.rd_att (SPI_fnumber rel.rd_att start_name) ∨
      SPI_getbinval pg new_row rel.rd_att (SPI_fnumber rel.rd_att end_name) ≠
        SPI_getbinval pg old_row rel.rd_att (SPI_fnumber rel.rd_att end_name)) →
      OnlyExcludedColumnsChanged pg rel old_row new_row = .ok false) ∧
    ((∀ i : Nat, 1 ≤ i → i ≤ rel.rd_att.length →
        (TupleDescAttr rel.rd_att (i - 1)).attisdropped = false → (i : Int) ∉ ex →
        SPI_getbinval pg old_row rel.rd_att i = SPI_getbinval pg new_row rel.rd_att i) →
      OnlyExcludedColumnsChanged pg rel old_row new_row = .ok true) := by
  have hok : OnlyExcludedColumnsChanged pg rel old_row new_row =
      .ok (compareColumns pg rel.rd_att ex old_row new_row (List.range' 1 rel.rd_att.length)) := by
    unfold OnlyExcludedColumnsChanged
    simp only [hex, hne, if_false]
  constructor
  · intro hdiff
    cases hb : compareColumns pg rel.rd_att ex old_row new_row
        (List.range' 1 rel.rd_att.length) with
    | false => rw [hok, hb]
    | true =>
      exfalso
      rw [hb] at hok
      rcases hdiff with h | h
      · exact h (OnlyExcludedColumnsChanged_true_column pg rel old_row new_row start_name hok
          hs hsx)
      · exact h (OnlyExcludedColumnsChanged_true_column pg rel old_row new_row end_name hok
          he hex2)
  · intro hsame
    rw [hok]
    congr 1
    rw [compareColumns_iff]
    intro i hi hlive hnot
    rw [List.mem_range'_1] at hi
    have heq := hsame i hi.1 (by omega) hlive hnot
    rw [heq]
    cases hn : (SPI_getbinval pg new_row rel.rd_att i).2 with
    | true => left; exact ⟨rfl, rfl⟩
    | false => right; exact ⟨rfl, rfl, datumIsEqual_self _ _ _⟩

/-- C18 (amended) on the sample table with `last_login` excluded: a new row
with another start is not only-excluded, a new row with another `last_login`
only is. -/
theorem C18_period_columns_are_compared_witness :
    OnlyExcludedColumnsChanged sampleCatalogExcluded sampleRel
      [some 1, some 10, some 500, some DT_NOEND] [some 1, some 10, some 700, some DT_NOEND] =
      .ok false ∧
    OnlyExcludedColumnsChanged sampleCatalogExcluded sampleRel
      [some 1, some 10, some 500, some DT_NOEND] [some 1, some 10, some 500, some DT_NOEND] =
      .ok true :=
  ⟨(C18_period_columns_are_compared sampleCatalogExcluded sampleRel
      [some 1, some 10, some 500, some DT_NOEND] [some 1, some 10, some 700, some DT_NOEND] [2]
      "s" "e" (by decide) (by decide) (by decide) (by decide) (by decide) (by decide)
      (by decide)).1 (Or.inl (by decide)),
    (C18_period_columns_are_compared sampleCatalogExcluded sampleRel
      [some 1, some 10, some 500, some DT_NOEND] [some 1, some 10, some 500, some DT_NOEND] [2]
      "s" "e" (by decide) (by decide) (by decide) (by decide) (by decide) (by decide)
      (by decide)).2 (fun _ _ _ _ _ => rfl)⟩

/-! ## C19: unsupported types -/

/-- C19, as the claim states it, fails in its consequence: on the table
`counter`, whose period columns are `int4`, an UPDATE of the excluded column
`last_login` only is classified as only-excluded, and both triggers return
before any type is looked at. -/
theorem C19_only_excluded_update_skips_type_check :
    ¬ SupportedType (SPI_gettypeid sampleRelIntPeriod.rd_att
      (SPI_fnumber sampleRelIntPeriod.rd_att "s")) ∧
    generated_always_as_row_start_end sampleCatalogIntPeriod ⟨700, 701, 702⟩
      ⟨some { tg_event := 14, tg_relation := sampleRelIntPeriod,
              tg_trigtuple := [some 1, some 10, some 5, some 6],
              tg_newtuple := [some 1, some 20, some 5, some 6] }⟩ =
      .ok [some 1, some 20, some 5, some 6] ∧
    write_history sampleCatalogIntPeriod ⟨700, 701, 702⟩
      ⟨some { tg_event := 6, tg_relation := sampleRelIntPeriod,
              tg_trigtuple := [some 1, some 10, some 5, some 6],
              tg_newtuple := [some 1, some 20, some 5, some 6] }⟩ {} = (.ok (), {}) := by
  decide

theorem unsupported_GetRowStart (x : Xact) (typeid : Oid) (h : ¬ SupportedType typeid) :
    GetRowStart x typeid = .error (.unexpectedType typeid) := by
  unfold SupportedType at h
  push_neg at h
  unfold GetRowStart
  simp [h.1, h.2.1, h.2.2]

theorem unsupported_GetRowEnd (typeid : Oid) (h : ¬ SupportedType typeid) :
    GetRowEnd typeid = .error (.unexpectedType typeid) := by
  unfold SupportedType at h
  push_neg at h
  unfold GetRowEnd
  simp [h.1, h.2.1, h.2.2]

theorem unsupported_CompareWithCurrentDatum (x : Xact) (typeid : Oid) (value : Datum)
    (h : ¬ SupportedType typeid) :
    CompareWithCurrentDatum x typeid value = .error (.unexpectedType typeid) := by
  unfold SupportedType at h
  push_neg at h
  unfold CompareWithCurrentDatum
  simp [h.1, h.2.1, h.2.2]

theorem unsupported_CompareWithInfiniteDatum (typeid : Oid) (value : Datum)
    (h : ¬ SupportedType typeid) :
    CompareWithInfiniteDatum typeid value = .error (.unexpectedType typeid) := by
  unfold SupportedType at h
  push_neg at h
  unfold CompareWithInfiniteDatum
  simp [h.1, h.2.1, h.2.2]

/-- C19, amended. For every type identifier other than timestamptz,
timestamp and date, each of GetRowStart, GetRowEnd, CompareWithCurrentDatum
and CompareWithInfiniteDatum raises the unexpected type error.  On a table
whose period start column has such a type, generated_always_as_row_start_end
fails with that error on every INSERT and every UPDATE not classified as
only-excluded, and write_history fails with it, leaving the state as it was,
on every INSERT, every UPDATE not classified as only-excluded and every
DELETE. -/
theorem C19_unsupported_type_is_an_error (pg : Catalog) (x : Xact) (rel : Relation)
    (old_row new_row : HeapTuple) (db : DbState) (before_event after_event : Nat)
    (start_name end_name : String) (typeid : Oid)
    (hty : ¬ SupportedType typeid) :
    (GetRowStart x typeid = .error (.unexpectedType typeid) ∧
      GetRowEnd typeid = .error (.unexpectedType typeid) ∧
      (∀ value, CompareWithCurrentDatum x typeid value = .error (.unexpectedType typeid)) ∧
      (∀ value, CompareWithInfiniteDatum typeid value = .error (.unexpectedType typeid))) ∧
    (GetPeriodColumnNames pg rel "system_time" = .ok (start_name, end_name) →
      typeid = SPI_gettypeid rel.rd_att (SPI_fnumber rel.rd_att start_name) →
      (TRIGGER_FIRED_BEFORE before_event = true → TRIGGER_FIRED_FOR_ROW before_event = true →
        (TRIGGER_FIRED_BY_INSERT before_event = true ∨
          (TRIGGER_FIRED_BY_UPDATE before_event = true ∧
            OnlyExcludedColumnsChanged pg rel old_row new_row = .ok false)) →
        generated_always_as_row_start_end pg x
          ⟨some { tg_event := before_event, tg_relation := rel, tg_trigtuple := old_row,
                  tg_newtuple := new_row }⟩ = .error (.unexpectedType typeid)) ∧
      (TRIGGER_FIRED_AFTER after_event = true → TRIGGER_FIRED_FOR_ROW after_event = true →
        (TRIGGER_FIRED_BY_INSERT after_event = true ∨
          (TRIGGER_FIRED_BY_UPDATE after_event = true ∧
            OnlyExcludedColumnsChanged pg rel old_row new_row = .ok false) ∨
          TRIGGER_FIRED_BY_DELETE after_event = true) →
        write_history pg x
          ⟨some { tg_event := after_event, tg_relation := rel, tg_trigtuple := old_row,
                  tg_newtuple := new_row }⟩ db = (.error (.unexpectedType typeid), db))) := by
  refine ⟨⟨unsupported_GetRowStart x typeid hty, unsupported_GetRowEnd typeid hty,
    fun v => unsupported_CompareWithCurrentDatum x typeid v hty,
    fun v => unsupported_CompareWithInfiniteDatum typeid v hty⟩, ?_⟩
  intro hperiod htyeq
  subst htyeq
  constructor
  · intro hbefore hrow hop
    unfold generated_always_as_row_start_end
    simp only [hbefore, hrow, Bool.not_true, Bool.or_self, Bool.false_eq_true, if_false, hperiod,
      unsupported_GetRowStart x _ hty]
    rcases hop with hi | ⟨hu, hx⟩
    · simp only [hi, if_true]
    · simp only [not_insert_of_update _ hu, hu, hx, Bool.false_eq_true, if_false, if_true]
  · intro hafter hrow hop
    rcases hop with hi | ⟨hu, hx⟩ | hd
    · rw [write_history_insert pg x _ db hafter hrow hi]
      unfold write_history_validate
      simp only [hperiod, hi, Bool.true_or, if_true,
        unsupported_CompareWithCurrentDatum x _ _ hty]
    · rw [write_history_update pg x _ db false hafter hrow hu hx]
      unfold write_history_validate
      simp only [hperiod, hu, Bool.not_false, Bool.and_self, Bool.or_true, if_true,
        unsupported_CompareWithCurrentDatum x _ _ hty]
    · rw [write_history_delete pg x _ db hafter hrow hd,
        write_history_validate_delete pg x _ db _ _ start_name end_name hd hperiod]
      unfold write_history_close
      simp only [Bool.false_eq_true, if_false, unsupported_CompareWithCurrentDatum x _ _ hty]

/-- C19 (amended) on the table `counter` with `int4` period columns: an
INSERT fails in the BEFORE ROW trigger, a DELETE in write_history. -/
theorem C19_unsupported_type_is_an_error_witness :
    GetRowStart ⟨700, 701, 702⟩ 23 = .error (.unexpectedType 23) ∧
    generated_always_as_row_start_end sampleCatalogIntPeriod ⟨700, 701, 702⟩
      ⟨some { tg_event := 12, tg_relation := sampleRelIntPeriod,
              tg_trigtuple := [some 1, some 10, some 5, some 6], tg_newtuple := [] }⟩ =
      .error (.unexpectedType 23) ∧
    write_history sampleCatalogIntPeriod ⟨700, 701, 702⟩
      ⟨some { tg_event := 5, tg_relation := sampleRelIntPeriod,
              tg_trigtuple := [some 1, some 10, some 5, some 6], tg_newtuple := [] }⟩ {} =
      (.error (.unexpectedType 23), {}) :=
  have h := C19_unsupported_type_is_an_error sampleCatalogIntPeriod ⟨700, 701, 702⟩
    sampleRelIntPeriod [some 1, some 10, some 5, some 6] [] {} 12 5 "s" "e" 23 (by decide)
  ⟨h.1.1, (h.2 (by decide) (by decide)).1 (by decide) (by decide) (Or.inl (by decide)),
    (h.2 (by decide) (by decide)).2 (by decide) (by decide) (Or.inr (Or.inr (by decide)))⟩

/-! ## C20: the stamper and the tamper check agree -/

/-- C20. Within one transaction, for each supported type the comparison of
the value GetRowStart yields with the transaction start is 0, and the
comparison of the value GetRowEnd yields with infinity is 0.  So for every
INSERT and every effective UPDATE on a versioned table with supported period
column types, generated_always_as_row_start_end returns a row, and
write_history, called in the same transaction for the same operation on the
same relation with that row as the new row, never raises the generated-always
error. -/
theorem C20_stamper_and_tamper_check_agree (pg : Catalog) (x : Xact) (trigdata : TriggerData)
    (start_name end_name : String)
    (hbefore : TRIGGER_FIRED_BEFORE trigdata.tg_event = true)
    (hrow : TRIGGER_FIRED_FOR_ROW trigdata.tg_event = true)
    (hop : TRIGGER_FIRED_BY_INSERT trigdata.tg_event = true ∨
      (TRIGGER_FIRED_BY_UPDATE trigdata.tg_event = true ∧
        OnlyExcludedColumnsChanged pg trigdata.tg_relation trigdata.tg_trigtuple
          trigdata.tg_newtuple = .ok false))
    (hperiod : GetPeriodColumnNames pg trigdata.tg_relation "system_time" =
      .ok (start_name, end_name))
    (hstype : SupportedType (SPI_gettypeid trigdata.tg_relation.rd_att
      (SPI_fnumber trigdata.tg_relation.rd_att start_name)))
    (hetype : SupportedType (SPI_gettypeid trigdata.tg_relation.rd_att
      (SPI_fnumber trigdata.tg_relation.rd_att end_name)))
    (hne : SPI_fnumber trigdata.tg_relation.rd_att start_name ≠
      SPI_fnumber trigdata.tg_relation.rd_att end_name) :
    (∀ typeid, SupportedType typeid →
      ∃ now inf, GetRowStart x typeid = .ok now ∧ GetRowEnd typeid = .ok inf ∧
        CompareWithCurrentDatum x typeid now = .ok 0 ∧
        CompareWithInfiniteDatum typeid inf = .ok 0) ∧
    ∃ row, generated_always_as_row_start_end pg x ⟨some trigdata⟩ = .ok row ∧
      ∀ (after_event : Nat) (db : DbState),
        TRIGGER_FIRED_AFTER after_event = true →
        TRIGGER_FIRED_FOR_ROW after_event = true →
        (∀ col detail,
          TRIGGER_FIRED_BY_INSERT trigdata.tg_event = true →
          TRIGGER_FIRED_BY_INSERT after_event = true →
          (write_history pg x
            ⟨some { tg_event := after_event, tg_relation := trigdata.tg_relation,
                    tg_trigtuple := row, tg_newtuple := [] }⟩ db).1 ≠
            .error (.generatedAlways col detail)) ∧
        (∀ col detail,
          TRIGGER_FIRED_BY_UPDATE trigdata.tg_event = true →
          TRIGGER_FIRED_BY_UPDATE after_event = true →
          (write_history pg x
            ⟨some { tg_event := after_event, tg_relation := trigdata.tg_relation,
                    tg_trigtuple := trigdata.tg_trigtuple, tg_newtuple := row }⟩ db).1 ≠
            .error (.generatedAlways col detail)) := by
  constructor
  · intro typeid hty
    obtain ⟨now, hnow⟩ := SupportedType_GetRowStart x typeid hty
    obtain ⟨inf, hinf⟩ := SupportedType_GetRowEnd typeid hty
    exact ⟨now, inf, hnow, hinf, CompareWithCurrentDatum_now x typeid now hnow,
      CompareWithInfiniteDatum_inf typeid inf hinf⟩
  obtain ⟨now, hnow⟩ := SupportedType_GetRowStart x _ hstype
  obtain ⟨inf, hinf⟩ := SupportedType_GetRowEnd _ hstype
  obtain ⟨hs1, hs2⟩ := SupportedType_fnumber_range _ _ hstype
  obtain ⟨he1, he2⟩ := SupportedType_fnumber_range _ _ hetype
  have hlen := heap_deform_tuple_length
  have hop2 : ∃ new_row,
      (TRIGGER_FIRED_BY_INSERT trigdata.tg_event = true ∧ new_row = trigdata.tg_trigtuple) ∨
      (TRIGGER_FIRED_BY_UPDATE trigdata.tg_event = true ∧ new_row = trigdata.tg_newtuple ∧
        OnlyExcludedColumnsChanged pg trigdata.tg_relation trigdata.tg_trigtuple
          trigdata.tg_newtuple = .ok false) := by
    rcases hop with hi | ⟨hu, hx⟩
    · exact ⟨_, Or.inl ⟨hi, rfl⟩⟩
    · exact ⟨_, Or.inr ⟨hu, rfl, hx⟩⟩
  obtain ⟨new_row, hop3⟩ := hop2
  have hfirst := SPI_getbinval_stamped_first pg trigdata.tg_relation.rd_att
    (heap_deform_tuple new_row trigdata.tg_relation.rd_att).1
    (heap_deform_tuple new_row trigdata.tg_relation.rd_att).2
    (SPI_fnumber trigdata.tg_relation.rd_att start_name)
    (SPI_fnumber trigdata.tg_relation.rd_att end_name) now inf false
    (hlen _ _).1 (hlen _ _).2 hs1 hs2 he1 hne
  have hlast := SPI_getbinval_stamped_last pg trigdata.tg_relation.rd_att
    (heap_deform_tuple new_row trigdata.tg_relation.rd_att).1
    (heap_deform_tuple new_row trigdata.tg_relation.rd_att).2
    (SPI_fnumber trigdata.tg_relation.rd_att start_name - 1).toNat
    (SPI_fnumber trigdata.tg_relation.rd_att end_name) now inf false
    (hlen _ _).1 (hlen _ _).2 he1 he2
  have hgen := generated_always_stamps pg x trigdata new_row start_name end_name now inf
    hbefore hrow hop3 hperiod hnow hinf he1 he2 hs1 hs2
  generalize heap_form_tuple trigdata.tg_relation.rd_att
    (((heap_deform_tuple new_row trigdata.tg_relation.rd_att).1.set
      (SPI_fnumber trigdata.tg_relation.rd_att start_name - 1).toNat now).set
      (SPI_fnumber trigdata.tg_relation.rd_att end_name - 1).toNat inf)
    (((heap_deform_tuple new_row trigdata.tg_relation.rd_att).2.set
      (SPI_fnumber trigdata.tg_relation.rd_att start_name - 1).toNat false).set
      (SPI_fnumber trigdata.tg_relation.rd_att end_name - 1).toNat false) = row
    at hfirst hlast hgen
  refine ⟨row, hgen, ?_⟩
  intro after_event db hafter hrow2
  constructor
  · intro col detail _ hi2
    rw [write_history_insert pg x
        { tg_event := after_event, tg_relation := trigdata.tg_relation, tg_trigtuple := row,
          tg_newtuple := [] } db hafter hrow2 hi2,
      write_history_validate_cases pg x
        { tg_event := after_event, tg_relation := trigdata.tg_relation, tg_trigtuple := row,
          tg_newtuple := [] } db [] row start_name end_name now inf (Or.inl hi2)
        hperiod hnow hinf]
    simp only [hfirst, hlast, ne_eq, not_true_eq_false, if_false, hi2, if_true]
    intro h
    cases h
  · intro col detail hu hu2
    have hx0 : ∃ c, OnlyExcludedColumnsChanged pg trigdata.tg_relation trigdata.tg_trigtuple
        trigdata.tg_newtuple = .ok c := by
      rcases hop with hi | ⟨_, hx⟩
      · rw [not_insert_of_update _ hu] at hi
        exact absurd hi (by decide)
      · exact ⟨_, hx⟩
    obtain ⟨c, hc⟩ := hx0
    obtain ⟨c2, hc2⟩ := OnlyExcludedColumnsChanged_ok_indep pg trigdata.tg_relation _ _
      trigdata.tg_trigtuple row c hc
    cases c2 with
    | true =>
      rw [write_history_only_excluded pg x
        { tg_event := after_event, tg_relation := trigdata.tg_relation,
          tg_trigtuple := trigdata.tg_trigtuple, tg_newtuple := row } db start_name end_name
        hafter hrow2 hu2 hc2 hperiod]
      intro h
      cases h
    | false =>
      rw [write_history_update pg x
          { tg_event := after_event, tg_relation := trigdata.tg_relation,
            tg_trigtuple := trigdata.tg_trigtuple, tg_newtuple := row } db false
          hafter hrow2 hu2 hc2,
        write_history_validate_cases pg x
          { tg_event := after_event, tg_relation := trigdata.tg_relation,
            tg_trigtuple := trigdata.tg_trigtuple, tg_newtuple := row } db
          trigdata.tg_trigtuple row start_name end_name now inf (Or.inr hu2)
          hperiod hnow hinf]
      simp only [hfirst, hlast, ne_eq, not_true_eq_false, if_false,
        not_insert_of_update _ hu2, Bool.false_eq_true]
      exact write_history_close_not_generatedAlways pg x _ _ _ _ _ _ db col detail

/-- C20 at an INSERT into the sample table: the row the stamper returns for
`(1, null, null, 5)` passes write_history without the generated-always
error. -/
theorem C20_stamper_and_tamper_check_agree_witness :
    ∃ row, generated_always_as_row_start_end sampleCatalog ⟨700, 701, 702⟩
        ⟨some { tg_event := 12, tg_relation := sampleRel,
                tg_trigtuple := [some 1, none, none, some 5] }⟩ = .ok row ∧
      ∀ col detail, (write_history sampleCatalog ⟨700, 701, 702⟩
        ⟨some { tg_event := 4, tg_relation := sampleRel, tg_trigtuple := row,
                tg_newtuple := [] }⟩ {}).1 ≠ .error (.generatedAlways col detail) :=
  have h := (C20_stamper_and_tamper_check_agree sampleCatalog ⟨700, 701, 702⟩
    { tg_event := 12, tg_relation := sampleRel, tg_trigtuple := [some 1, none, none, some 5] }
    "s" "e" (by decide) (by decide) (Or.inl (by decide)) (by decide) (by decide) (by decide)
    (by decide)).2
  h.elim fun row hr => ⟨row, hr.1, fun col detail =>
    (hr.2 4 {} (by decide) (by decide)).1 col detail (by decide) (by decide)⟩

/-! ## C21: the period of an archived row -/

/-- The middle part of write_history leaves the state as it was, or the old
row's start datum is before the transaction start value and the last part
runs. -/
theorem write_history_close_reaches (pg : Catalog) (x : Xact) (rel : Relation)
    (start_num : Int) (end_name : String) (typeid : Oid) (old_row : HeapTuple) (b : Bool)
    (db : DbState) :
    (write_history_close pg x rel start_num end_name typeid old_row b db).2 = db ∨
    ∃ now, GetRowStart x typeid = .ok now ∧
      (SPI_getbinval pg old_row rel.rd_att start_num).1 < now ∧
      write_history_close pg x rel start_num end_name typeid old_row b db =
        write_history_archive pg x rel end_name typeid old_row db := by
  unfold write_history_close
  cases b with
  | true => left; simp
  | false =>
    simp only [Bool.false_eq_true, if_false]
    cases hg : GetRowStart x typeid with
    | error e =>
      cases hc : CompareWithCurrentDatum x typeid
          (SPI_getbinval pg old_row rel.rd_att start_num).1 with
      | error e2 => left; simp
      | ok cmp =>
        exfalso
        have hty : ¬ SupportedType typeid := by
          intro hs
          obtain ⟨now, hnow⟩ := SupportedType_GetRowStart x typeid hs
          rw [hnow] at hg
          cases hg
        rw [unsupported_CompareWithCurrentDatum x typeid _ hty] at hc
        cases hc
    | ok now =>
      rw [CompareWithCurrentDatum_eq x typeid now _ hg]
      simp only
      by_cases hlt : (SPI_getbinval pg old_row rel.rd_att start_num).1 < now
      · right
        refine ⟨now, rfl, hlt, ?_⟩
        simp [hlt]
      · left
        by_cases hgt : (SPI_getbinval pg old_row rel.rd_att start_num).1 > now
        · simp [hlt, hgt]
        · simp [hlt, hgt]

/-- The part of write_history from the period lookup on leaves the state as
it was, or the period is found, the old row's start datum is before the
transaction start value and the last part runs. -/
theorem write_history_validate_reaches (pg : Catalog) (x : Xact) (trigdata : TriggerData)
    (old_row new_row : HeapTuple) (b : Bool) (db : DbState) :
    (write_history_validate pg x trigdata old_row new_row b db).2 = db ∨
    ∃ start_name end_name now,
      GetPeriodColumnNames pg trigdata.tg_relation "system_time" = .ok (start_name, end_name) ∧
      GetRowStart x (SPI_gettypeid trigdata.tg_relation.rd_att
        (SPI_fnumber trigdata.tg_relation.rd_att start_name)) = .ok now ∧
      (SPI_getbinval pg old_row trigdata.tg_relation.rd_att
        (SPI_fnumber trigdata.tg_relation.rd_att start_name)).1 < now ∧
      write_history_validate pg x trigdata old_row new_row b db =
        write_history_archive pg x trigdata.tg_relation end_name
          (SPI_gettypeid trigdata.tg_relation.rd_att
            (SPI_fnumber trigdata.tg_relation.rd_att start_name)) old_row db := by
  unfold write_history_validate
  dsimp only
  cases hp : GetPeriodColumnNames pg trigdata.tg_relation "system_time" with
  | error e => left; simp
  | ok names =>
    obtain ⟨start_name, end_name⟩ := names
    simp only
    have hreach : (write_history_close pg x trigdata.tg_relation
          (SPI_fnumber trigdata.tg_relation.rd_att start_name) end_name
          (SPI_gettypeid trigdata.tg_relation.rd_att
            (SPI_fnumber trigdata.tg_relation.rd_att start_name)) old_row b db).2 = db ∨
      ∃ sn en now,
        Except.ok (start_name, end_name) = (Except.ok (sn, en) : Except Err (String × String)) ∧
        GetRowStart x (SPI_gettypeid trigdata.tg_relation.rd_att
          (SPI_fnumber trigdata.tg_relation.rd_att sn)) = .ok now ∧
        (SPI_getbinval pg old_row trigdata.tg_relation.rd_att
          (SPI_fnumber trigdata.tg_relation.rd_att sn)).1 < now ∧
        write_history_close pg x trigdata.tg_relation
          (SPI_fnumber trigdata.tg_relation.rd_att start_name) end_name
          (SPI_gettypeid trigdata.tg_relation.rd_att
            (SPI_fnumber trigdata.tg_relation.rd_att start_name)) old_row b db =
          write_history_archive pg x trigdata.tg_relation en
            (SPI_gettypeid trigdata.tg_relation.rd_att
              (SPI_fnumber trigdata.tg_relation.rd_att sn)) old_row db := by
      rcases write_history_close_reaches pg x trigdata.tg_relation
        (SPI_fnumber trigdata.tg_relation.rd_att start_name) end_name
        (SPI_gettypeid trigdata.tg_relation.rd_att
          (SPI_fnumber trigdata.tg_relation.rd_att start_name)) old_row b db with h | ⟨now, h⟩
      · exact Or.inl h
      · exact Or.inr ⟨start_name, end_name, now, rfl, h⟩
    by_cases hcond : (TRIGGER_FIRED_BY_INSERT trigdata.tg_event ||
        (TRIGGER_FIRED_BY_UPDATE trigdata.tg_event && !b)) = true
    · simp only [hcond, if_true]
      cases hc1 : CompareWithCurrentDatum x
          (SPI_gettypeid trigdata.tg_relation.rd_att
            (SPI_fnumber trigdata.tg_relation.rd_att start_name))
          (SPI_getbinval pg new_row trigdata.tg_relation.rd_att
            (SPI_fnumber trigdata.tg_relation.rd_att start_name)).1 with
      | error e => left; simp
      | ok c =>
        simp only
        by_cases hc0 : c ≠ 0
        · left; simp [hc0]
        · simp only [hc0, if_false]
          cases hc2 : CompareWithInfiniteDatum
              (SPI_gettypeid trigdata.tg_relation.rd_att
                (SPI_fnumber trigdata.tg_relation.rd_att start_name))
              (SPI_getbinval pg new_row trigdata.tg_relation.rd_att
                (SPI_fnumber trigdata.tg_relation.rd_att end_name)).1 with
          | error e => left; simp
          | ok c2 =>
            simp only
            by_cases hc20 : c2 ≠ 0
            · left; simp [hc20]
            · simp only [hc20, if_false]
              by_cases hi : TRIGGER_FIRED_BY_INSERT trigdata.tg_event = true
              · left; simp [hi]
              · simp only [hi, if_false]
                exact hreach
    · simp only [hcond, if_false]
      exact hreach

/-- Every call of write_history leaves the state as it was, or is fired for
an old row whose start datum is before the transaction start value and runs
the last part on that old row. -/
theorem write_history_reaches (pg : Catalog) (x : Xact) (fcinfo : FunctionCallInfo)
    (db : DbState) :
    (write_history pg x fcinfo db).2 = db ∨
    ∃ trigdata start_name end_name now,
      fcinfo.context = some trigdata ∧
      GetPeriodColumnNames pg trigdata.tg_relation "system_time" = .ok (start_name, end_name) ∧
      GetRowStart x (SPI_gettypeid trigdata.tg_relation.rd_att
        (SPI_fnumber trigdata.tg_relation.rd_att start_name)) = .ok now ∧
      (SPI_getbinval pg trigdata.tg_trigtuple trigdata.tg_relation.rd_att
        (SPI_fnumber trigdata.tg_relation.rd_att start_name)).1 < now ∧
      write_history pg x fcinfo db =
        write_history_archive pg x trigdata.tg_relation end_name
          (SPI_gettypeid trigdata.tg_relation.rd_att
            (SPI_fnumber trigdata.tg_relation.rd_att start_name)) trigdata.tg_trigtuple db := by
  have hv : ∀ (trigdata : TriggerData) (new_row : HeapTuple) (b : Bool),
      (write_history_validate pg x trigdata trigdata.tg_trigtuple new_row b db).2 = db ∨
      ∃ td start_name end_name now,
        some trigdata = some td ∧
        GetPeriodColumnNames pg td.tg_relation "system_time" = .ok (start_name, end_name) ∧
        GetRowStart x (SPI_gettypeid td.tg_relation.rd_att
          (SPI_fnumber td.tg_relation.rd_att start_name)) = .ok now ∧
        (SPI_getbinval pg td.tg_trigtuple td.tg_relation.rd_att
          (SPI_fnumber td.tg_relation.rd_att start_name)).1 < now ∧
        write_history_validate pg x trigdata trigdata.tg_trigtuple new_row b db =
          write_history_archive pg x td.tg_relation end_name
            (SPI_gettypeid td.tg_relation.rd_att
              (SPI_fnumber td.tg_relation.rd_att start_name)) td.tg_trigtuple db := by
    intro trigdata new_row b
    rcases write_history_validate_reaches pg x trigdata trigdata.tg_trigtuple new_row b db with
      h | ⟨sn, en, now, h⟩
    · exact Or.inl h
    · exact Or.inr ⟨trigdata, sn, en, now, rfl, h⟩
  unfold write_history
  cases hctx : fcinfo.context with
  | none => left; simp
  | some trigdata =>
    simp only
    by_cases hproto : (!TRIGGER_FIRED_AFTER trigdata.tg_event ||
        !TRIGGER_FIRED_FOR_ROW trigdata.tg_event) = true
    · left; simp [hproto]
    · simp only [hproto, if_false]
      by_cases hi : TRIGGER_FIRED_BY_INSERT trigdata.tg_event = true
      · simp only [hi, if_true]
        left
        obtain ⟨o, ho, _⟩ := write_history_validate_insert_outcome pg x trigdata []
          trigdata.tg_trigtuple db hi
        rw [ho]
        simp
      · simp only [hi, if_false]
        by_cases hu : TRIGGER_FIRED_BY_UPDATE trigdata.tg_event = true
        · simp only [hu, if_true]
          cases hx : OnlyExcludedColumnsChanged pg trigdata.tg_relation trigdata.tg_trigtuple
              trigdata.tg_newtuple with
          | error e => left; simp
          | ok b =>
            simp only
            exact hv _ _ _
        · simp only [hu, if_false]
          by_cases hd : TRIGGER_FIRED_BY_DELETE trigdata.tg_event = true
          · simp only [hd, if_true]
            exact hv _ _ _
          · left; simp [hd]

/-- Where findInputAttr finds a column, SPI_fnumber_loop finds the same one,
and its type is the type asked for. -/
theorem findInputAttr_loop (attname : String) (atttypid : Oid) (atttypmod : Int)
    (l : TupleDesc) (j0 : Nat) (n : Int)
    (h : findInputAttr attname atttypid atttypmod l j0 = .ok n) (hn : n ≠ 0) :
    SPI_fnumber_loop attname l j0 = some n ∧
    (l.getD (n - 1 - j0).toNat default).atttypid = atttypid ∧
    (l.getD (n - 1 - j0).toNat default).atttypmod = atttypmod := by
  induction l generalizing j0 with
  | nil =>
    simp only [findInputAttr, Except.ok.injEq] at h
    exact absurd h.symm hn
  | cons a rest ih =>
    simp only [findInputAttr] at h
    have hrec : findInputAttr attname atttypid atttypmod rest (j0 + 1) = .ok n →
        ¬ (a.attname = attname ∧ a.attisdropped = false) →
        SPI_fnumber_loop attname (a :: rest) j0 = some n ∧
        ((a :: rest).getD (n - 1 - j0).toNat default).atttypid = atttypid ∧
        ((a :: rest).getD (n - 1 - j0).toNat default).atttypmod = atttypmod := by
      intro hr hc
      obtain ⟨h1, h2, h3⟩ := ih (j0 + 1) hr
      have hrange := SPI_fnumber_loop_range _ _ _ _ h1
      have hidx : (n - 1 - j0).toNat = (n - 1 - ((j0 + 1 : Nat) : Int)).toNat + 1 := by
        push_cast; omega
      rw [hidx]
      simp only [List.getD_cons_succ]
      refine ⟨?_, h2, h3⟩
      simp only [SPI_fnumber_loop, hc, if_false]
      exact h1
    by_cases hd : a.attisdropped = true
    · simp only [hd, if_true] at h
      exact hrec h (by simp [hd])
    · have hd2 : a.attisdropped = false := by simpa using hd
      simp only [hd2, Bool.false_eq_true, if_false] at h
      by_cases hname : attname = a.attname
      · simp only [hname, if_true] at h
        by_cases hty : atttypid ≠ a.atttypid ∨ atttypmod ≠ a.atttypmod
        · simp only [hty, if_true] at h
          cases h
        · simp only [hty, if_false, Except.ok.injEq] at h
          subst h
          have h0 : ((j0 : Int) + 1 - 1 - j0).toNat = 0 := by omega
          rw [h0]
          simp only [List.getD_cons_zero]
          push_neg at hty
          refine ⟨?_, hty.1.symm, hty.2.symm⟩
          simp [SPI_fnumber_loop, hname, hd2]
      · simp only [hname, if_false] at h
        exact hrec h (by
          intro hc
          exact hname hc.1.symm)

/-- When build_attrmap_by_name succeeds, every live output column has a live
input column of its name, with its type and type modifier. -/
theorem build_attrmap_by_name_cols (indesc out : TupleDesc) (m : List Int)
    (h : build_attrmap_by_name indesc out = .ok m) :
    ∀ a ∈ out, a.attisdropped = false →
      0 < SPI_fnumber indesc a.attname ∧
      (TupleDescAttr indesc (SPI_fnumber indesc a.attname - 1).toNat).atttypid = a.atttypid ∧
      (TupleDescAttr indesc (SPI_fnumber indesc a.attname - 1).toNat).atttypmod =
        a.atttypmod := by
  induction out generalizing m with
  | nil => intro a ha; simp at ha
  | cons b rest ih =>
    simp only [build_attrmap_by_name] at h
    have hrest : ∃ m2, build_attrmap_by_name indesc rest = .ok m2 := by
      cases hr : build_attrmap_by_name indesc rest with
      | ok m2 => exact ⟨m2, rfl⟩
      | error e =>
        exfalso
        rw [hr] at h
        by_cases hd : b.attisdropped = true
        · simp [hd] at h
        · simp only [hd, Bool.false_eq_true, if_false] at h
          split at h
          · cases h
          · split at h <;> cases h
    obtain ⟨m2, hm2⟩ := hrest
    intro a ha hlive
    rcases List.mem_cons.mp ha with hab | har
    · subst hab
      simp only [hlive, Bool.false_eq_true, if_false] at h
      cases hf : findInputAttr a.attname a.atttypid a.atttypmod indesc 0 with
      | error e => rw [hf] at h; cases h
      | ok n =>
        rw [hf] at h
        simp only at h
        by_cases hn : n = 0
        · simp [hn] at h
        · obtain ⟨h1, h2, h3⟩ := findInputAttr_loop _ _ _ _ _ _ hf hn
          have hrange := SPI_fnumber_loop_range _ _ _ _ h1
          have hnum : SPI_fnumber indesc a.attname = n := by
            unfold SPI_fnumber
            rw [h1]
          rw [hnum]
          have hidx : (n - 1 - ((0 : Nat) : Int)).toNat = (n - 1).toNat := by simp
          rw [hidx] at h2 h3
          exact ⟨by omega, h2, h3⟩
    · exact ih m2 hm2 a har hlive

/-- The last part of write_history leaves the state as it was, or the table
has a history table that opens, every live column of which has a live column
of the table with its name and type, and one row is given to the INSERT. -/
theorem write_history_archive_reaches (pg : Catalog) (x : Xact) (rel : Relation)
    (end_name : String) (typeid : Oid) (old_row : HeapTuple) (db : DbState) :
    (write_history_archive pg x rel end_name typeid old_row db).2 = db ∨
    ∃ history_rel cache plan hist,
      OidIsValid (GetHistoryTable pg rel) = true ∧
      table_open pg (GetHistoryTable pg rel) = .ok history_rel ∧
      (∀ a ∈ history_rel.rd_att, a.attisdropped = false →
        0 < SPI_fnumber rel.rd_att a.attname ∧
        (TupleDescAttr rel.rd_att (SPI_fnumber rel.rd_att a.attname - 1).toNat).atttypid =
          a.atttypid ∧
        (TupleDescAttr rel.rd_att (SPI_fnumber rel.rd_att a.attname - 1).toNat).atttypmod =
          a.atttypmod) ∧
      write_history_archive pg x rel end_name typeid old_row db =
        (.ok (), { InsertHistoryPlanHash := cache
                   inserted := db.inserted ++ [(plan, hist)] }) := by
  by_cases hv : OidIsValid (GetHistoryTable pg rel) = true
  · cases ho : table_open pg (GetHistoryTable pg rel) with
    | error e =>
      left
      unfold write_history_archive
      simp only [hv, if_true, ho]
    | ok history_rel =>
      cases hc : convert_tuples_by_name rel.rd_att history_rel.rd_att with
      | error e =>
        left
        unfold write_history_archive
        simp only [hv, if_true, ho, hc]
      | ok map =>
        cases hg : GetRowStart x typeid with
        | error e =>
          left
          unfold write_history_archive
          simp only [hv, if_true, ho, hc, hg]
        | ok now =>
          right
          have hcols : ∀ a ∈ history_rel.rd_att, a.attisdropped = false →
              0 < SPI_fnumber rel.rd_att a.attname ∧
              (TupleDescAttr rel.rd_att
                (SPI_fnumber rel.rd_att a.attname - 1).toNat).atttypid = a.atttypid ∧
              (TupleDescAttr rel.rd_att
                (SPI_fnumber rel.rd_att a.attname - 1).toNat).atttypmod = a.atttypmod := by
            unfold convert_tuples_by_name at hc
            cases hm : build_attrmap_by_name rel.rd_att history_rel.rd_att with
            | error e => rw [hm] at hc; cases hc
            | ok m => exact build_attrmap_by_name_cols _ _ m hm
          unfold write_history_archive
          simp only [hv, if_true, ho, hc, hg]
          generalize heap_form_tuple _ _ _ = t
          obtain ⟨cache, plan, hi, _⟩ := insert_into_history_ok history_rel t db
          exact ⟨history_rel, cache, plan, t, trivial, rfl, hcols, hi⟩
  · left
    unfold write_history_archive
    simp only [hv, Bool.false_eq_true, if_false]

/-- C21, as the claim states it, fails: the DELETE, in a transaction that
started at 700, of an old row whose start column is null reaches the archiving
(the null flag is discarded and the zero datum is before 700), and the row
given to the INSERT has a null start column, which is not less than its end
column 700. -/
theorem C21_null_start_is_archived :
    write_history sampleCatalog ⟨700, 701, 702⟩
      ⟨some { tg_event := 5, tg_relation := sampleRel,
              tg_trigtuple := [some 1, some 10, none, some DT_NOEND] }⟩ {} =
      (.ok (), { InsertHistoryPlanHash :=
                   some [⟨200, "public", "account_history", ⟨"public", "account_history"⟩⟩]
                 inserted := [(⟨"public", "account_history"⟩,
                   [some 1, some 10, none, some 700])] }) ∧
    SPI_getbinval sampleCatalog [some 1, some 10, none, some 700] sampleHistoryRel.rd_att
      (SPI_fnumber sampleHistoryRel.rd_att "s") = (0, true) ∧
    SPI_getbinval sampleCatalog [some 1, some 10, none, some 700] sampleHistoryRel.rd_att
      (SPI_fnumber sampleHistoryRel.rd_att "e") = (700, false) := by
  decide

/-- C21, amended. Every call of write_history either leaves the database
state as it was or gives exactly one row to the INSERT into the history table
that the catalog associates with the versioned table, and then the start datum
of the old row is less than the transaction start value.  When the history
table has the end column, that column of the row holds the transaction start
value, not null; when it also has the start column, distinct from the end
column, that column of the row reads as the old row's start column does.  So a
row submitted from an old row whose start is not null, into a history table
with both columns, has a start that is not null and strictly less than its
end. -/
theorem C21_archived_period_is_not_empty (pg : Catalog) (x : Xact)
    (fcinfo : FunctionCallInfo) (db : DbState) :
    (write_history pg x fcinfo db).2 = db ∨
    ∃ trigdata start_name end_name now history_rel cache plan hist,
      fcinfo.context = some trigdata ∧
      GetPeriodColumnNames pg trigdata.tg_relation "system_time" = .ok (start_name, end_name) ∧
      GetRowStart x (SPI_gettypeid trigdata.tg_relation.rd_att
        (SPI_fnumber trigdata.tg_relation.rd_att start_name)) = .ok now ∧
      table_open pg (GetHistoryTable pg trigdata.tg_relation) = .ok history_rel ∧
      write_history pg x fcinfo db =
        (.ok (), { InsertHistoryPlanHash := cache
                   inserted := db.inserted ++ [(plan, hist)] }) ∧
      (SPI_getbinval pg trigdata.tg_trigtuple trigdata.tg_relation.rd_att
        (SPI_fnumber trigdata.tg_relation.rd_att start_name)).1 < now ∧
      (1 ≤ SPI_fnumber history_rel.rd_att end_name →
        SPI_getbinval pg hist history_rel.rd_att (SPI_fnumber history_rel.rd_att end_name) =
          (now, false) ∧
        (start_name ≠ end_name → 1 ≤ SPI_fnumber history_rel.rd_att start_name →
          SPI_getbinval pg hist history_rel.rd_att
              (SPI_fnumber history_rel.rd_att start_name) =
            SPI_getbinval pg trigdata.tg_trigtuple trigdata.tg_relation.rd_att
              (SPI_fnumber trigdata.tg_relation.rd_att start_name) ∧
          ((SPI_getbinval pg trigdata.tg_trigtuple trigdata.tg_relation.rd_att
              (SPI_fnumber trigdata.tg_relation.rd_att start_name)).2 = false →
            ∃ v, SPI_getbinval pg hist history_rel.rd_att
                (SPI_fnumber history_rel.rd_att start_name) = (v, false) ∧ v < now))) := by
  rcases write_history_reaches pg x fcinfo db with h | ⟨td, sn, en, now, hctx, hper, hnow, hlt, hw⟩
  · exact Or.inl h
  · rcases write_history_archive_reaches pg x td.tg_relation en
      (SPI_gettypeid td.tg_relation.rd_att (SPI_fnumber td.tg_relation.rd_att sn))
      td.tg_trigtuple db with h | ⟨hrel, cache, plan, hist, hvalid, hopen, hcols, harch⟩
    · left
      rw [hw]
      exact h
    · right
      refine ⟨td, sn, en, now, hrel, cache, plan, hist, hctx, hper, hnow, hopen,
        hw.trans harch, hlt, ?_⟩
      intro hend
      obtain ⟨cache2, plan2, hist2, harch2, hE, hother⟩ := write_history_archive_by_name pg x
        td.tg_relation en _ td.tg_trigtuple db now hrel hvalid hopen hcols hnow hend
      have hsame : hist2 = hist := by
        have heq := harch2.symm.trans harch
        simp only [Prod.mk.injEq, DbState.mk.injEq, List.append_cancel_left_eq,
          List.cons.injEq, and_true, true_and] at heq
        exact heq.2.2
      subst hsame
      refine ⟨hE, ?_⟩
      intro hne hs
      have hfound := SPI_fnumber_found hrel.rd_att sn (by omega)
      have hle := SPI_fnumber_pos_le hrel.rd_att sn (by omega)
      have hneq : SPI_fnumber hrel.rd_att sn ≠ SPI_fnumber hrel.rd_att en := by
        intro heq
        have hfe := SPI_fnumber_found hrel.rd_att en (by omega)
        rw [← heq] at hfe
        exact hne (hfound.1.symm.trans hfe.1)
      have hread := hother _ hs hle hneq hfound.2
      rw [hfound.1] at hread
      refine ⟨hread, fun hnn => ⟨_, ?_, hlt⟩⟩
      rw [hread]
      exact Prod.ext rfl hnn

/-- C21 (amended) at the DELETE, in a transaction that started at 700, of a
row of the sample table opened at 500: one row is given to the INSERT, with
start 500 and end 700. -/
theorem C21_archived_period_is_not_empty_witness :
    ∃ plan hist v,
      (write_history sampleCatalog ⟨700, 701, 702⟩
        ⟨some { tg_event := 5, tg_relation := sampleRel,
                tg_trigtuple := [some 1, some 10, some 500, some DT_NOEND] }⟩ {}).2.inserted =
        [(plan, hist)] ∧
      SPI_getbinval sampleCatalog hist sampleHistoryRel.rd_att
        (SPI_fnumber sampleHistoryRel.rd_att "s") = (v, false) ∧
      SPI_getbinval sampleCatalog hist sampleHistoryRel.rd_att
        (SPI_fnumber sampleHistoryRel.rd_att "e") = (700, false) ∧
      v < 700 := by
  rcases C21_archived_period_is_not_empty sampleCatalog ⟨700, 701, 702⟩
    ⟨some { tg_event := 5, tg_relation := sampleRel,
            tg_trigtuple := [some 1, some 10, some 500, some DT_NOEND] }⟩ {} with
    h | ⟨td, sn, en, now, hrel, cache, plan, hist, hctx, hper, hnow, hopen, hw, _, hS⟩
  · exact absurd h (by decide)
  · cases Option.some.inj hctx
    have hp2 : GetPeriodColumnNames sampleCatalog sampleRel "system_time" =
        .ok ("s", "e") := by decide
    cases hp2.symm.trans hper
    have hn2 : GetRowStart ⟨700, 701, 702⟩ (SPI_gettypeid sampleRel.rd_att
        (SPI_fnumber sampleRel.rd_att "s")) = .ok 700 := by decide
    cases hn2.symm.trans hnow
    have ho2 : table_open sampleCatalog (GetHistoryTable sampleCatalog sampleRel) =
        .ok sampleHistoryRel := by decide
    cases ho2.symm.trans hopen
    obtain ⟨hE, hS2⟩ := hS (by decide)
    obtain ⟨v, hv, hlt⟩ := (hS2 (by decide) (by decide)).2 (by decide)
    exact ⟨plan, hist, v, by rw [hw]; rfl, hv, hE, hlt⟩

/-! ## C22: the frame of the BEFORE ROW trigger -/

/-- A two-column replacement that succeeds names two columns of the
descriptor and gives the deformed tuple with the two entries replaced. -/
theorem heap_modify_two_inv (tuple : HeapTuple) (desc : TupleDesc) (sn en : Int)
    (v0 v1 : Datum) (row : HeapTuple)
    (h : heap_modify_tuple_by_cols tuple desc [sn, en] [v0, v1] [false, false] = .ok row) :
    1 ≤ sn ∧ sn ≤ (desc.length : Int) ∧ 1 ≤ en ∧ en ≤ (desc.length : Int) ∧
    row = heap_form_tuple desc
      (((heap_deform_tuple tuple desc).1.set (sn - 1).toNat v0).set (en - 1).toNat v1)
      (((heap_deform_tuple tuple desc).2.set (sn - 1).toNat false).set (en - 1).toNat false) := by
  by_cases hs : sn ≤ 0 ∨ sn > (desc.length : Int)
  · exfalso
    unfold heap_modify_tuple_by_cols at h
    simp only [List.zip_cons_cons, List.zip_nil_right, heap_modify_loop, hs, if_true] at h
    cases h
  · by_cases he : en ≤ 0 ∨ en > (desc.length : Int)
    · exfalso
      unfold heap_modify_tuple_by_cols at h
      simp only [List.zip_cons_cons, List.zip_nil_right, heap_modify_loop, hs, he, if_true,
        if_false] at h
      cases h
    · have hs1 : 1 ≤ sn := by omega
      have hs2 : sn ≤ (desc.length : Int) := by omega
      have he1 : 1 ≤ en := by omega
      have he2 : en ≤ (desc.length : Int) := by omega
      rw [heap_modify_two tuple desc sn en v0 v1 hs1 hs2 he1 he2] at h
      simp only [Except.ok.injEq] at h
      exact ⟨hs1, hs2, he1, he2, h.symm⟩

/-- A column other than the two a replacement wrote reads as in the tuple
the replacement started from. -/
theorem SPI_getbinval_stamped_other (pg : Catalog) (desc : TupleDesc) (tuple : HeapTuple)
    (sn en n : Int) (v0 v1 : Datum) (b0 b1 : Bool)
    (hs1 : 1 ≤ sn) (he1 : 1 ≤ en) (h1 : 1 ≤ n) (h2 : n ≤ (desc.length : Int))
    (hns : n ≠ sn) (hne : n ≠ en) :
    SPI_getbinval pg (heap_form_tuple desc
      (((heap_deform_tuple tuple desc).1.set (sn - 1).toNat v0).set (en - 1).toNat v1)
      (((heap_deform_tuple tuple desc).2.set (sn - 1).toNat b0).set (en - 1).toNat b1))
      desc n = SPI_getbinval pg tuple desc n := by
  have hi : (sn - 1).toNat ≠ (n - 1).toNat := by omega
  have hj : (en - 1).toNat ≠ (n - 1).toNat := by omega
  rw [SPI_getbinval_form pg desc _ _ n h1 h2, getD_set_ne _ _ _ _ _ hj,
    getD_set_ne _ _ _ _ _ hi, getD_set_ne _ _ _ _ _ hj, getD_set_ne _ _ _ _ _ hi,
    ← SPI_getbinval_form pg desc _ _ n h1 h2, SPI_getbinval_form_deform pg desc tuple n h1 h2]

/-- A call of generated_always_as_row_start_end that returns a row returns
the new row of an UPDATE as it came, or the new row with the two period
columns replaced. -/
theorem generated_always_ok_inv (pg : Catalog) (x : Xact) (trigdata : TriggerData)
    (row : HeapTuple)
    (h : generated_always_as_row_start_end pg x ⟨some trigdata⟩ = .ok row) :
    (TRIGGER_FIRED_BY_INSERT trigdata.tg_event = false ∧ row = trigdata.tg_newtuple) ∨
    ∃ start_name end_name v0 v1,
      GetPeriodColumnNames pg trigdata.tg_relation "system_time" = .ok (start_name, end_name) ∧
      heap_modify_tuple_by_cols
        (if TRIGGER_FIRED_BY_INSERT trigdata.tg_event then trigdata.tg_trigtuple
          else trigdata.tg_newtuple) trigdata.tg_relation.rd_att
        [SPI_fnumber trigdata.tg_relation.rd_att start_name,
          SPI_fnumber trigdata.tg_relation.rd_att end_name] [v0, v1] [false, false] = .ok row := by
  have hstamp : ∀ new_row : HeapTuple,
      (match GetPeriodColumnNames pg trigdata.tg_relation "system_time" with
        | .error e => (.error e : Except Err HeapTuple)
        | .ok (start_name, end_name) =>
          match GetRowStart x (SPI_gettypeid trigdata.tg_relation.rd_att
              (SPI_fnumber trigdata.tg_relation.rd_att start_name)) with
          | .error e => .error e
          | .ok v0 =>
            match GetRowEnd (SPI_gettypeid trigdata.tg_relation.rd_att
                (SPI_fnumber trigdata.tg_relation.rd_att start_name)) with
            | .error e => .error e
            | .ok v1 =>
              heap_modify_tuple_by_cols new_row trigdata.tg_relation.rd_att
                [SPI_fnumber trigdata.tg_relation.rd_att start_name,
                  SPI_fnumber trigdata.tg_relation.rd_att end_name] [v0, v1]
                [false, false]) = .ok row →
      ∃ start_name end_name v0 v1,
        GetPeriodColumnNames pg trigdata.tg_relation "system_time" =
          .ok (start_name, end_name) ∧
        heap_modify_tuple_by_cols new_row trigdata.tg_relation.rd_att
          [SPI_fnumber trigdata.tg_relation.rd_att start_name,
            SPI_fnumber trigdata.tg_relation.rd_att end_name] [v0, v1] [false, false] =
          .ok row := by
    intro new_row hs
    cases hp : GetPeriodColumnNames pg trigdata.tg_relation "system_time" with
    | error e => rw [hp] at hs; cases hs
    | ok names =>
      obtain ⟨start_name, end_name⟩ := names
      rw [hp] at hs
      simp only at hs
      cases hg : GetRowStart x (SPI_gettypeid trigdata.tg_relation.rd_att
          (SPI_fnumber trigdata.tg_relation.rd_att start_name)) with
      | error e => rw [hg] at hs; cases hs
      | ok v0 =>
        rw [hg] at hs
        simp only at hs
        cases hge : GetRowEnd (SPI_gettypeid trigdata.tg_relation.rd_att
            (SPI_fnumber trigdata.tg_relation.rd_att start_name)) with
        | error e => rw [hge] at hs; cases hs
        | ok v1 =>
          rw [hge] at hs
          exact ⟨start_name, end_name, v0, v1, rfl, hs⟩
  unfold generated_always_as_row_start_end at h
  dsimp only at h
  by_cases hproto : (!TRIGGER_FIRED_BEFORE trigdata.tg_event ||
      !TRIGGER_FIRED_FOR_ROW trigdata.tg_event) = true
  · simp only [hproto, if_true] at h
    cases h
  · simp only [hproto, if_false] at h
    by_cases hi : TRIGGER_FIRED_BY_INSERT trigdata.tg_event = true
    · simp only [hi, if_true] at h
      right
      simp only [hi, if_true]
      exact hstamp _ h
    · have hi2 : TRIGGER_FIRED_BY_INSERT trigdata.tg_event = false := by simpa using hi
      simp only [hi2, Bool.false_eq_true, if_false] at h
      by_cases hu : TRIGGER_FIRED_BY_UPDATE trigdata.tg_event = true
      · simp only [hu, if_true] at h
        cases hx : OnlyExcludedColumnsChanged pg trigdata.tg_relation trigdata.tg_trigtuple
            trigdata.tg_newtuple with
        | error e => rw [hx] at h; cases h
        | ok b =>
          rw [hx] at h
          cases b with
          | true =>
            simp only [Except.ok.injEq] at h
            exact Or.inl ⟨hi2, h.symm⟩
          | false =>
            right
            simp only [hi2, Bool.false_eq_true, if_false]
            exact hstamp _ h
      · simp only [hu, if_false] at h
        cases h

/-- C22. Whenever generated_always_as_row_start_end returns a row, every
column of the table that is not the period start or end column reads in the
returned row as in the incoming new row (datum and null flag), and the
returned row has as many attributes as the incoming new row when that one has
as many as the table.  The function does return a row for every INSERT and
every UPDATE on a table whose period is found with columns of supported
types. -/
theorem C22_stamping_changes_period_columns_only (pg : Catalog) (x : Xact)
    (trigdata : TriggerData) :
    (∀ row, generated_always_as_row_start_end pg x ⟨some trigdata⟩ = .ok row →
      (∀ n : Int, 1 ≤ n → n ≤ (trigdata.tg_relation.rd_att.length : Int) →
        (∀ start_name end_name,
          GetPeriodColumnNames pg trigdata.tg_relation "system_time" =
            .ok (start_name, end_name) →
          n ≠ SPI_fnumber trigdata.tg_relation.rd_att start_name ∧
          n ≠ SPI_fnumber trigdata.tg_relation.rd_att end_name) →
        SPI_getbinval pg row trigdata.tg_relation.rd_att n =
          SPI_getbinval pg
            (if TRIGGER_FIRED_BY_INSERT trigdata.tg_event then trigdata.tg_trigtuple
              else trigdata.tg_newtuple) trigdata.tg_relation.rd_att n) ∧
      ((if TRIGGER_FIRED_BY_INSERT trigdata.tg_event then trigdata.tg_trigtuple
          else trigdata.tg_newtuple).length = trigdata.tg_relation.rd_att.length →
        row.length =
          (if TRIGGER_FIRED_BY_INSERT trigdata.tg_event then trigdata.tg_trigtuple
            else trigdata.tg_newtuple).length)) ∧
    (TRIGGER_FIRED_BEFORE trigdata.tg_event = true →
      TRIGGER_FIRED_FOR_ROW trigdata.tg_event = true →
      (TRIGGER_FIRED_BY_INSERT trigdata.tg_event = true ∨
        (TRIGGER_FIRED_BY_UPDATE trigdata.tg_event = true ∧
          ∃ b, OnlyExcludedColumnsChanged pg trigdata.tg_relation trigdata.tg_trigtuple
            trigdata.tg_newtuple = .ok b)) →
      ∀ start_name end_name,
        GetPeriodColumnNames pg trigdata.tg_relation "system_time" =
          .ok (start_name, end_name) →
        SupportedType (SPI_gettypeid trigdata.tg_relation.rd_att
          (SPI_fnumber trigdata.tg_relation.rd_att start_name)) →
        SupportedType (SPI_gettypeid trigdata.tg_relation.rd_att
          (SPI_fnumber trigdata.tg_relation.rd_att end_name)) →
        ∃ row, generated_always_as_row_start_end pg x ⟨some trigdata⟩ = .ok row) := by
  constructor
  · intro row hret
    rcases generated_always_ok_inv pg x trigdata row hret with
      ⟨hi2, hnew⟩ | ⟨sn, en, v0, v1, hp, hm⟩
    · subst hnew
      simp only [hi2, Bool.false_eq_true, if_false]
      exact ⟨fun _ _ _ _ => trivial, fun _ => trivial⟩
    · obtain ⟨hs1, _, he1, _, hform⟩ := heap_modify_two_inv _ _ _ _ _ _ _ hm
      constructor
      · intro n h1 h2 hnot
        obtain ⟨hns, hne⟩ := hnot sn en hp
        rw [hform]
        exact SPI_getbinval_stamped_other pg _ _ _ _ n v0 v1 false false hs1 he1 h1 h2 hns hne
      · intro hlen
        rw [hform, heap_form_tuple_length, hlen]
  · intro hbefore hrow hop sn en hp hstype hetype
    obtain ⟨now, hnow⟩ := SupportedType_GetRowStart x _ hstype
    obtain ⟨inf, hinf⟩ := SupportedType_GetRowEnd _ hstype
    obtain ⟨hs1, hs2⟩ := SupportedType_fnumber_range _ _ hstype
    obtain ⟨he1, he2⟩ := SupportedType_fnumber_range _ _ hetype
    rcases hop with hi | ⟨hu, b, hx⟩
    · exact ⟨_, generated_always_stamps pg x trigdata trigdata.tg_trigtuple sn en now inf
        hbefore hrow (Or.inl ⟨hi, rfl⟩) hp hnow hinf he1 he2 hs1 hs2⟩
    · cases b with
      | true => exact ⟨_, generated_always_only_excluded pg x trigdata hbefore hrow hu hx⟩
      | false =>
        exact ⟨_, generated_always_stamps pg x trigdata trigdata.tg_newtuple sn en now inf
          hbefore hrow (Or.inr ⟨hu, rfl, hx⟩) hp hnow hinf he1 he2 hs1 hs2⟩

/-- C22 at an INSERT into the sample table of the row `(1, null, null, 5)`:
a row is returned, its columns `id` and `last_login` read as in the incoming
row, and it has four attributes. -/
theorem C22_stamping_changes_period_columns_only_witness :
    ∃ row, generated_always_as_row_start_end sampleCatalog ⟨700, 701, 702⟩
        ⟨some { tg_event := 12, tg_relation := sampleRel,
                tg_trigtuple := [some 1, none, none, some 5] }⟩ = .ok row ∧
      SPI_getbinval sampleCatalog row sampleRel.rd_att 1 = (1, false) ∧
      SPI_getbinval sampleCatalog row sampleRel.rd_att 2 = (0, true) ∧
      row.length = 4 := by
  have h := C22_stamping_changes_period_columns_only sampleCatalog ⟨700, 701, 702⟩
    { tg_event := 12, tg_relation := sampleRel, tg_trigtuple := [some 1, none, none, some 5] }
  have hp2 : GetPeriodColumnNames sampleCatalog sampleRel "system_time" =
      .ok ("s", "e") := by decide
  obtain ⟨row, hr⟩ := h.2 (by decide) (by decide) (Or.inl (by decide)) "s" "e" (by decide)
    (by decide) (by decide)
  have hnot : ∀ n : Int, n = 1 ∨ n = 2 → ∀ start_name end_name,
      GetPeriodColumnNames sampleCatalog sampleRel "system_time" =
        .ok (start_name, end_name) →
      n ≠ SPI_fnumber sampleRel.rd_att start_name ∧
      n ≠ SPI_fnumber sampleRel.rd_att end_name := by
    intro n hn start_name end_name hp
    cases hp2.symm.trans hp
    rcases hn with hn | hn <;> subst hn <;> decide
  exact ⟨row, hr,
    ((h.1 row hr).1 1 (by decide) (by decide) (hnot 1 (Or.inl rfl))).trans (by decide),
    ((h.1 row hr).1 2 (by decide) (by decide) (hnot 2 (Or.inr rfl))).trans (by decide),
    ((h.1 row hr).2 (by decide)).trans (by decide)⟩

end Periods
